import Mathlib

/-! RtspStream.cpp: frame reassembly, session state machine, reconnect loop

A shallow embedding of `src/src/RtspStream.cpp`.

* Bytes are natural numbers, byte buffers are lists of bytes.
* Sizes and counters are unbounded (`Nat`, `Int`): every size that occurs is
  assumed to fit the machine `int` (the receive buffer is 2 MiB), where the C
  conversions are exact.
* The live555 library, the scheduler and the `stream::` frame classes are
  outside the file; what the code asks of them is recorded as a log of
  requests, and what they answer is an input of the handlers.
-/

namespace RtspStream

/-! ## Data model of the sink -/

/-- Environment of the sink: the `stream::NALU_TYPE_*` type tags, whose
declaration is not part of the sources and which are therefore left as
parameters, and the content of a frame buffer as the frame factory returns it
(byte `fresh i` at offset `i`, before anything is copied in). -/
structure Env where
  NALU_TYPE_SPS : Nat
  NALU_TYPE_PPS : Nat
  NALU_TYPE_SEI : Nat
  NALU_TYPE_IDR : Nat
  NALU_TYPE_SLICE : Nat
  fresh : Nat → Nat

/-- The tags of H.264 (slice 1, IDR 5, SEI 6, SPS 7, PPS 8) with zero-filled
fresh buffers; used for concrete runs. -/
def h264Env : Env :=
  { NALU_TYPE_SPS := 7, NALU_TYPE_PPS := 8, NALU_TYPE_SEI := 6,
    NALU_TYPE_IDR := 5, NALU_TYPE_SLICE := 1, fresh := fun _ => 0 }

/-- A freshly allocated buffer of `n` bytes. -/
def Env.alloc (env : Env) (n : Nat) : List Nat :=
  (List.range n).map env.fresh

/-- Arguments of one call of `DummySink::afterGettingFrame`, together with
the content of `fReceiveBuffer` at the time of the call (the source object
fills it before calling). -/
structure Delivery where
  fReceiveBuffer : Nat → Nat
  frameSize : Nat
  numTruncatedBytes : Nat
  tv_sec : Int
  tv_usec : Int

/-- The delivered bytes: the first `frameSize` bytes of `fReceiveBuffer`. -/
def Delivery.bytes (d : Delivery) : List Nat :=
  (List.range d.frameSize).map d.fReceiveBuffer

/-- The type tag `fReceiveBuffer[0] & 0x1f`. -/
def Delivery.nalType (d : Delivery) : Nat :=
  d.fReceiveBuffer 0 &&& 0x1f

/-- The conversion `(uint64_t)x`. -/
def toU64 (x : Int) : Nat :=
  (x % 18446744073709551616).toNat

/-- Line 622:
`pts = (uint64_t)tv_sec * 1000 + (uint64_t)tv_usec / 1000`. -/
def Delivery.pts (d : Delivery) : Nat :=
  (toU64 d.tv_sec * 1000 + toU64 d.tv_usec / 1000) % 18446744073709551616

/-- What the frame factory was asked to build. -/
inductive FrameInfo where
  | image (w h : Nat)
  | video (newformat : Bool) (frametype : Char)
  deriving DecidableEq, Repr

/-- Modelled from the spec: `stream::CFrame`, whose class is not part of the
sources. An application frame carries channel and stream identifiers, a
presentation timestamp in milliseconds, a sequence number, its role, and an
owned contiguous payload; `size()` is the length of the payload. The empty
frame `stream::CFrame()` is `none` of `Option CFrame`. -/
structure CFrame where
  channel : Int
  streamid : Int
  pts : Nat
  sequence : Int
  info : FrameInfo
  data : List Nat
  deriving DecidableEq, Repr

/-- The value of `mFrame.size()`. -/
def CFrame.size (f : CFrame) : Nat := f.data.length

/-- The call `stream::CFrameFactory::createImageFrame` with format JPEG. -/
def createImageFrame (env : Env) (channel streamid : Int) (w h : Nat) (pts : Nat)
    (sequence : Int) (size : Nat) : CFrame :=
  { channel := channel, streamid := streamid, pts := pts, sequence := sequence,
    info := FrameInfo.image w h, data := env.alloc size }

/-- The call `stream::CFrameFactory::createVideoFrame` with codec H264. -/
def createVideoFrame (env : Env) (channel streamid : Int) (newformat : Bool) (pts : Nat)
    (sequence : Int) (frametype : Char) (size : Nat) : CFrame :=
  { channel := channel, streamid := streamid, pts := pts, sequence := sequence,
    info := FrameInfo.video newformat frametype, data := env.alloc size }

/-- The call `memcpy(dst + pos, src, src.length)` on a buffer `dst`; the callers keep
`pos + src.length` within `dst`. -/
def memcpy (dst : List Nat) (pos : Nat) (src : List Nat) : List Nat :=
  dst.take pos ++ src ++ dst.drop (pos + src.length)

/-- The marker `static char nalHead[] = {0x00, 0x00, 0x00, 0x01}`. -/
def nalHead : List Nat := [0, 0, 0, 1]

/-- The members of `DummySink`. `mCallback` tells whether the callback object
is non-empty; the four last fields are what the sink reads from
`fSubsession`. -/
structure DummySink where
  mCallback : Bool
  mSPS : List Nat
  mPPS : List Nat
  mSEI : List Nat
  mFrame : Option CFrame
  mSequence : Int
  mediumName : String
  codecName : String
  videoWidth : Nat
  videoHeight : Nat
  deriving DecidableEq, Repr

/-- Lines 626-712: the branch `mFrame.empty()` of
`DummySink::afterGettingFrame`, which classifies the unit and may create a
frame. -/
def DummySink.createFrame (env : Env) (s : DummySink) (d : Delivery) : DummySink :=
  if s.mediumName = "video" then
    if s.codecName = "JPEG" then
      let f := createImageFrame env 0 0 s.videoWidth s.videoHeight d.pts s.mSequence
        (d.frameSize + d.numTruncatedBytes)
      { s with mFrame := some { f with data := memcpy f.data 0 d.bytes } }
    else if s.codecName = "H264" then
      if d.nalType = env.NALU_TYPE_SPS then
        { s with mSPS := nalHead ++ d.bytes }
      else if d.nalType = env.NALU_TYPE_PPS then
        { s with mPPS := nalHead ++ d.bytes }
      else if d.nalType = env.NALU_TYPE_SEI then
        { s with mSEI := nalHead ++ d.bytes }
      else if d.nalType = env.NALU_TYPE_IDR then
        let totalsize := s.mSPS.length + s.mPPS.length + s.mSEI.length + nalHead.length
          + d.frameSize + d.numTruncatedBytes
        let f := createVideoFrame env 0 0 false d.pts s.mSequence 'I' totalsize
        let b1 := memcpy f.data 0 s.mSPS
        let b2 := memcpy b1 s.mSPS.length s.mPPS
        let b3 := memcpy b2 (s.mSPS.length + s.mPPS.length) s.mSEI
        let b4 := memcpy b3 (s.mSPS.length + s.mPPS.length + s.mSEI.length) nalHead
        let b5 := memcpy b4
          (s.mSPS.length + s.mPPS.length + s.mSEI.length + nalHead.length) d.bytes
        { s with
          mSPS := [], mPPS := [], mSEI := [],
          mFrame := some { f with data := b5 },
          mSequence := s.mSequence + 1 }
      else if d.nalType = env.NALU_TYPE_SLICE then
        let totalsize := nalHead.length + d.frameSize + d.numTruncatedBytes
        let f := createVideoFrame env 0 0 false d.pts s.mSequence 'P' totalsize
        let b1 := memcpy f.data 0 nalHead
        let b2 := memcpy b1 nalHead.length d.bytes
        { s with mFrame := some { f with data := b2 }, mSequence := s.mSequence + 1 }
      else s
    else s
  else if s.mediumName = "audio" then s
  else s

/-- Lines 715-727: the branch of `DummySink::afterGettingFrame` taken while
the frame `f` is under construction: the delivered bytes are copied to
`pos = f.size() - (frameSize + numTruncatedBytes)` when
`pos >= 0 && pos + frameSize < f.size()`, and the delivery is dropped with a
warning otherwise. -/
def DummySink.pushRemain (s : DummySink) (f : CFrame) (d : Delivery) : DummySink :=
  let pos : Int := (f.size : Int) - ((d.frameSize : Int) + (d.numTruncatedBytes : Int))
  if 0 ≤ pos ∧ pos + (d.frameSize : Int) < (f.size : Int) then
    { s with mFrame := some { f with data := memcpy f.data pos.toNat d.bytes } }
  else s

/-- Lines 624-727: the sink after the delivery has been classified or placed,
before the completion test. -/
def DummySink.processDelivery (env : Env) (s : DummySink) (d : Delivery) : DummySink :=
  match s.mFrame with
  | none => s.createFrame env d
  | some f => s.pushRemain f d

/-- Lines 618-734 of `DummySink::afterGettingFrame`: the sink after the call
and the frame handed to `mCallback`, if any. -/
def DummySink.afterGettingFrame (env : Env) (s : DummySink) (d : Delivery) :
    DummySink × Option CFrame :=
  if s.mCallback then
    let s1 := s.processDelivery env d
    match s1.mFrame with
    | some f =>
      if d.numTruncatedBytes = 0 then ({ s1 with mFrame := none }, some f)
      else (s1, none)
    | none => (s1, none)
  else (s, none)

/-- The sink as `DummySink::DummySink` leaves it (lines 544-551). -/
def DummySink.createNew (callback : Bool) (mediumName codecName : String)
    (videoWidth videoHeight : Nat) : DummySink :=
  { mCallback := callback, mSPS := [], mPPS := [], mSEI := [], mFrame := none,
    mSequence := 0, mediumName := mediumName, codecName := codecName,
    videoWidth := videoWidth, videoHeight := videoHeight }

/-- Runs a sequence of deliveries through `DummySink::afterGettingFrame`,
collecting what each call hands to the callback. -/
def DummySink.run (env : Env) : DummySink → List Delivery → DummySink × List (Option CFrame)
  | s, [] => (s, [])
  | s, d :: ds =>
    let r := s.afterGettingFrame env d
    let rest := DummySink.run env r.1 ds
    (rest.1, r.2 :: rest.2)

/-- A delivery whose receive buffer starts with the given bytes. -/
def mkDelivery (bytes : List Nat) (numTruncatedBytes : Nat) : Delivery :=
  { fReceiveBuffer := fun i => bytes.getD i 0, frameSize := bytes.length,
    numTruncatedBytes := numTruncatedBytes, tv_sec := 0, tv_usec := 0 }

/-- An H.264 video sink with a subscriber, as created after a successful
setup. -/
def h264Sink : DummySink := DummySink.createNew true "video" "H264" 0 0

/-! ## Double arithmetic -/

/-- The quotient `n / d` rounded to the nearest integer, ties to the even
one. -/
def roundHalfEven (n d : Nat) : Nat :=
  if 2 * (n % d) < d then n / d
  else if d < 2 * (n % d) then n / d + 1
  else if (n / d) % 2 = 0 then n / d else n / d + 1

/-- The binary exponent of `n / d`, for positive `n` and `d`: the `e` with
`2 ^ e <= n / d < 2 ^ (e + 1)`. -/
def binade (n d : Nat) : Int :=
  let e0 : Int := (n.log2 : Int) - (d.log2 : Int)
  if 0 ≤ e0 then (if d * 2 ^ e0.toNat ≤ n then e0 else e0 - 1)
  else (if d ≤ n * 2 ^ (-e0).toNat then e0 else e0 - 1)

/-- The `double` nearest to a real number, as the arithmetic of `double`
rounds every result (IEEE 754 binary64, round to nearest, ties to even):
53 significant bits from the binary exponent down, and steps of `2 ^ -1074`
below `2 ^ -1022`. A `double` is given by its rational value; magnitudes of
`2 ^ 1024` and more, which round to infinity, are outside the model. -/
def roundDouble (q : ℚ) : ℚ :=
  if q = 0 then 0 else
    let n := q.num.natAbs
    let d := q.den
    let t : Int := max (binade n d) (-1022) - 52
    let v : ℚ :=
      if 0 ≤ t then (roundHalfEven n (d * 2 ^ t.toNat) : ℚ) * 2 ^ t.toNat
      else (roundHalfEven (n * 2 ^ (-t).toNat) d : ℚ) / 2 ^ (-t).toNat
    if q < 0 then -v else v

/-! ## Session state machine -/

/-- What the client keeps and asks of a `MediaSubsession`. `initiateOk` is
what `initiate()` answers and `hasRtcp` whether `rtcpInstance()` is non-null;
`sink` is the attached sink and `byeHandler` whether a BYE handler is set. -/
structure MediaSubsession where
  mediumName : String
  codecName : String
  videoWidth : Nat
  videoHeight : Nat
  initiateOk : Bool
  hasRtcp : Bool
  sink : Option DummySink
  byeHandler : Bool
  deriving DecidableEq, Repr

/-- What the client asks of a `MediaSession`. The times are values of type
`double`, given by their rational values. -/
structure MediaSession where
  subsessions : List MediaSubsession
  absStartTime : Option String
  absEndTime : Option String
  playStartTime : ℚ
  playEndTime : ℚ
  deriving DecidableEq, Repr

/-- The value of `hasSubsessions()`. -/
def MediaSession.hasSubsessions (ses : MediaSession) : Bool :=
  !ses.subsessions.isEmpty

/-- The two delayed tasks of the file. -/
inductive TaskFunc where
  | checkDisconnectHandler
  | streamTimerHandler
  deriving DecidableEq, Repr

/-- The calls the client makes on the library and the scheduler, in the
order of the log. -/
inductive Action where
  | sendDescribeCommand
  | sendSetupCommand (subsession : Nat) (streamUsingTcp : Bool)
  | sendPlayCommand (absolute : Bool)
  | sendTeardownCommand
  | scheduleDelayedTask (uSecsToDelay : Nat) (task : TaskFunc)
  | unscheduleDelayedTask (task : TaskFunc)
  | startPlaying (subsession : Nat)
  | closeSink (subsession : Nat)
  | closeSession
  | closeClient
  deriving DecidableEq, Repr

/-- The members of `StreamClientState`. `iter` is the index of the next
subsession of the iterator (`none` for a null iterator), `subsession` the
index of the current one, and a task token is `true` when non-null. -/
structure StreamClientState where
  iter : Option Nat
  session : Option MediaSession
  subsession : Option Nat
  streamUsingTcp : Bool
  streamTimerTask : Bool
  duration : ℚ
  callback : Bool
  disconnectCounter : Int
  checkDisconnectTask : Bool
  deriving DecidableEq, Repr

/-- The macro `#define REQUEST_STREAMING_OVER_TCP False`. -/
def REQUEST_STREAMING_OVER_TCP : Bool := false

/-- The constructor `StreamClientState::StreamClientState` (lines 516-519); the callback is
left empty. -/
def StreamClientState.new : StreamClientState :=
  { iter := none, session := none, subsession := none,
    streamUsingTcp := REQUEST_STREAMING_OVER_TCP, streamTimerTask := false,
    duration := 0, callback := false, disconnectCounter := 0,
    checkDisconnectTask := false }

/-- An `ourRTSPClient`: its state, the value at `eventLoopWatchVariable`,
whether `Medium::close` has been called on it, and the log of its calls. -/
structure ourRTSPClient where
  scs : StreamClientState
  eventLoopWatchVariable : Int
  closed : Bool
  log : List Action
  deriving DecidableEq, Repr

/-- The function `openURL` (lines 198-216) with a watch variable holding 0. -/
def openURL (callback : Bool) : ourRTSPClient :=
  { scs := { StreamClientState.new with callback := callback },
    eventLoopWatchVariable := 0, closed := false,
    log := [Action.sendDescribeCommand] }

/-- Applies `f` to the subsession of index `i`. -/
def updateAt (f : MediaSubsession → MediaSubsession) :
    List MediaSubsession → Nat → List MediaSubsession
  | [], _ => []
  | sub :: rest, 0 => f sub :: rest
  | sub :: rest, i + 1 => sub :: updateAt f rest i

/-- Whether some subsession has a sink. -/
def anySink (subs : List MediaSubsession) : Bool :=
  subs.any fun sub => sub.sink.isSome

/-- The loop of `shutdownStream` (lines 460-471) on the subsessions from
index `i` on: the subsessions afterwards and the sinks closed. -/
def closeSinks : List MediaSubsession → Nat → List MediaSubsession × List Action
  | [], _ => ([], [])
  | sub :: rest, i =>
    let r := closeSinks rest (i + 1)
    if sub.sink.isSome then
      ({ sub with sink := none, byeHandler := if sub.hasRtcp then false else sub.byeHandler }
        :: r.1, Action.closeSink i :: r.2)
    else (sub :: r.1, r.2)

/-- The function `shutdownStream` (lines 450-494). `Medium::close(rtspClient)` runs the
destructor of the state (lines 521-531), which unschedules both tasks and
closes the session when there is one. -/
def shutdownStream (c : ourRTSPClient) : ourRTSPClient :=
  match c.scs.session with
  | some ses =>
    let r := closeSinks ses.subsessions 0
    let teardown := if anySink ses.subsessions then [Action.sendTeardownCommand] else []
    { c with
      scs := { c.scs with session := some { ses with subsessions := r.1 } },
      closed := true,
      eventLoopWatchVariable := 1,
      log := c.log ++ r.2 ++ teardown ++
        [Action.closeClient,
         Action.unscheduleDelayedTask TaskFunc.streamTimerHandler,
         Action.unscheduleDelayedTask TaskFunc.checkDisconnectHandler,
         Action.closeSession] }
  | none =>
    { c with closed := true, eventLoopWatchVariable := 1,
             log := c.log ++ [Action.closeClient] }

/-- The iterator steps of `setupNextSubsession`: from the subsessions not yet
visited, the first whose `initiate()` succeeds, and the iterator afterwards. -/
def nextInitiated : List MediaSubsession → Nat → Option Nat × Nat
  | [], i => (none, i)
  | sub :: rest, i =>
    if sub.initiateOk then (some i, i + 1) else nextInitiated rest (i + 1)

/-- The function `setupNextSubsession` (lines 261-293). It is only called with a session
and an iterator. -/
def setupNextSubsession (c : ourRTSPClient) : ourRTSPClient :=
  match c.scs.session, c.scs.iter with
  | some ses, some it =>
    match nextInitiated (ses.subsessions.drop it) it with
    | (some i, it1) =>
      { c with
        scs := { c.scs with iter := some it1, subsession := some i },
        log := c.log ++ [Action.sendSetupCommand i c.scs.streamUsingTcp] }
    | (none, it1) =>
      if ses.absStartTime.isSome then
        { c with
          scs := { c.scs with iter := some it1, subsession := none },
          log := c.log ++ [Action.sendPlayCommand true] }
      else
        { c with
          scs := { c.scs with iter := some it1, subsession := none,
                              duration := roundDouble (ses.playEndTime - ses.playStartTime) },
          log := c.log ++ [Action.sendPlayCommand false] }
  | _, _ => c

/-- The function `continueAfterDESCRIBE` (lines 221-259). `parsed` is what
`MediaSession::createNew` makes of the description. -/
def continueAfterDESCRIBE (c : ourRTSPClient) (resultCode : Int)
    (parsed : Option MediaSession) : ourRTSPClient :=
  if resultCode ≠ 0 then shutdownStream c
  else
    match parsed with
    | none => shutdownStream c
    | some ses =>
      let c1 := { c with scs := { c.scs with session := some ses } }
      if !ses.hasSubsessions then shutdownStream c1
      else
        setupNextSubsession
          { c1 with
            scs := { c1.scs with checkDisconnectTask := true, iter := some 0 },
            log := c1.log ++
              [Action.scheduleDelayedTask 1000000 TaskFunc.checkDisconnectHandler] }

/-- The sink `continueAfterSETUP` attaches (lines 323-338). -/
def attachSink (callback : Bool) (sub : MediaSubsession) : MediaSubsession :=
  { sub with
    sink := some (DummySink.createNew callback sub.mediumName sub.codecName
      sub.videoWidth sub.videoHeight),
    byeHandler := if sub.hasRtcp then true else sub.byeHandler }

/-- The function `continueAfterSETUP` (lines 295-349). It is the response handler of a
setup request, so there is a session and a current subsession;
`DummySink::createNew` returns a new object, never null. -/
def continueAfterSETUP (c : ourRTSPClient) (resultCode : Int) : ourRTSPClient :=
  match c.scs.session, c.scs.subsession with
  | some ses, some i =>
    if resultCode ≠ 0 then
      if resultCode = 461 ∧ c.scs.streamUsingTcp = false then
        { c with
          scs := { c.scs with streamUsingTcp := true },
          log := c.log ++ [Action.sendSetupCommand i true] }
      else setupNextSubsession c
    else
      setupNextSubsession
        { c with
          scs := { c.scs with
            session := some { ses with
              subsessions := updateAt (attachSink c.scs.callback) ses.subsessions i } },
          log := c.log ++ [Action.startPlaying i] }
  | _, _ => c

/-- The conversion `(unsigned)x` of a non-negative `double` below 2^32: its
integer part. -/
def toUnsigned (x : ℚ) : Nat :=
  (Rat.floor x).toNat % 4294967296

/-- The function `continueAfterPLAY` (lines 351-388). The duration is a
`double`: `scs.duration += delaySlop` and `scs.duration*1000000` each round
their result. -/
def continueAfterPLAY (c : ourRTSPClient) (resultCode : Int) : ourRTSPClient :=
  if resultCode ≠ 0 then shutdownStream c
  else if c.scs.duration > 0 then
    { c with
      scs := { c.scs with
        duration := roundDouble (c.scs.duration + 2), streamTimerTask := true },
      log := c.log ++
        [Action.scheduleDelayedTask
          (toUnsigned (roundDouble (roundDouble (c.scs.duration + 2) * 1000000)))
          TaskFunc.streamTimerHandler] }
  else c

/-- The function `subsessionAfterPlaying` (lines 393-410) for the subsession of index `i`. -/
def subsessionAfterPlaying (c : ourRTSPClient) (i : Nat) : ourRTSPClient :=
  match c.scs.session with
  | some ses =>
    let subs := updateAt (fun sub => { sub with sink := none }) ses.subsessions i
    let c1 := { c with
      scs := { c.scs with session := some { ses with subsessions := subs } },
      log := c.log ++ [Action.closeSink i] }
    if anySink subs then c1 else shutdownStream c1
  | none => c

/-- The function `subsessionByeHandler` (lines 412-421). -/
def subsessionByeHandler (c : ourRTSPClient) (i : Nat) : ourRTSPClient :=
  subsessionAfterPlaying c i

/-- The function `streamTimerHandler` (lines 423-431). -/
def streamTimerHandler (c : ourRTSPClient) : ourRTSPClient :=
  shutdownStream { c with scs := { c.scs with streamTimerTask := false } }

/-- The function `checkDisconnectHandler` (lines 433-448). -/
def checkDisconnectHandler (c : ourRTSPClient) : ourRTSPClient :=
  let c1 := { c with scs := { c.scs with disconnectCounter := c.scs.disconnectCounter + 1 } }
  if c1.scs.disconnectCounter < 5 then
    { c1 with
      scs := { c1.scs with checkDisconnectTask := true },
      log := c1.log ++
        [Action.scheduleDelayedTask 1000000 TaskFunc.checkDisconnectHandler] }
  else shutdownStream c1

/-- The method `DummySink::afterGettingFrame` (lines 567-738) as a step of the client:
a delivery to the sink of the subsession of index `i`. The counter of the
client is reset (lines 586-587), then the sink handles the delivery. -/
def ourRTSPClient.afterGettingFrame (env : Env) (c : ourRTSPClient) (i : Nat) (d : Delivery) :
    ourRTSPClient × Option CFrame :=
  match c.scs.session with
  | some ses =>
    match ses.subsessions[i]? with
    | some sub =>
      match sub.sink with
      | some sink =>
        let r := sink.afterGettingFrame env d
        ({ c with
           scs := { c.scs with
             disconnectCounter := 0,
             session := some { ses with
               subsessions := updateAt (fun sb => { sb with sink := some r.1 })
                 ses.subsessions i } } }, r.2)
      | none => (c, none)
    | none => (c, none)
  | none => (c, none)

/-! ## Reconnect loop -/

/-- What happens around one pass of the loop of `threadProc`: the frames the
session hands to the subscribers while `doEventLoop` runs, and what
`waitSignal` returns afterwards. -/
structure Attempt where
  frames : List CFrame
  sig : Int
  deriving DecidableEq, Repr

/-- The steps of `CRtspStreamSource::threadProc`. -/
inductive ThreadEvent where
  | openURL
  | doEventLoop (frames : List CFrame)
  | waitSignal (sleepms : Int)
  | threadEnd
  deriving DecidableEq, Repr

/-- The locals and members `threadProc` works on, the trace of its steps, and
whether it has returned. -/
structure ThreadState where
  sleepms : Int
  mEventLoopWatchVariable : Int
  trace : List ThreadEvent
  finished : Bool
  deriving DecidableEq, Repr

/-- Modelled from the spec: the event loop of the scheduler, called as
`doEventLoop(&mEventLoopWatchVariable)` (line 808), which is library code
outside the sources. The watch variable is polled before each step of the
loop: entered with a non-zero value the loop returns at once and handles no
event of the session; entered with 0 it runs the session, which hands the
frames of the attempt to the subscribers, and returns once `shutdownStream`
or `stop` has written 1. The result is the frames handed over and the value
of the watch variable afterwards. -/
def doEventLoop (watch : Int) (a : Attempt) : List CFrame × Int :=
  if watch ≠ 0 then ([], watch) else (a.frames, 1)

/-- Line 798, the first statement of the loop body:
`mEventLoopWatchVariable = 0`. -/
def threadProc.clearWatch (st : ThreadState) : ThreadState :=
  { st with mEventLoopWatchVariable := 0 }

/-- Lines 800-820, the rest of the loop body: the session is opened, the
event loop runs on the watch variable as it stands, the delay is updated and
awaited, and the exit signal ends the thread. -/
def threadProc.attempt (SIGNAL_EXIT : Int) (st : ThreadState) (a : Attempt) : ThreadState :=
  let run := doEventLoop st.mEventLoopWatchVariable a
  let sleepms := if st.sleepms ≥ 8000 then 2000 else st.sleepms * 2
  let trace := st.trace ++
    [ThreadEvent.openURL, ThreadEvent.doEventLoop run.1, ThreadEvent.waitSignal sleepms]
  if a.sig = SIGNAL_EXIT then
    { sleepms := sleepms, mEventLoopWatchVariable := run.2,
      trace := trace ++ [ThreadEvent.threadEnd], finished := true }
  else
    { sleepms := sleepms, mEventLoopWatchVariable := run.2,
      trace := trace, finished := false }

/-- One pass of the `while (true)` loop of `threadProc` (lines 798-820): the
watch variable is overwritten with 0, then the attempt runs. -/
def threadProc.body (SIGNAL_EXIT : Int) (st : ThreadState) (a : Attempt) : ThreadState :=
  threadProc.attempt SIGNAL_EXIT (threadProc.clearWatch st) a

/-- The loop of `threadProc` along the given attempts; it stops at the first
exit signal, and is left unfinished when the attempts run out. -/
def threadProc.loop (SIGNAL_EXIT : Int) : ThreadState → List Attempt → ThreadState
  | st, [] => st
  | st, a :: rest =>
    let st1 := threadProc.body SIGNAL_EXIT st a
    if st1.finished then st1 else threadProc.loop SIGNAL_EXIT st1 rest

/-- The method `CRtspStreamSource::threadProc` (lines 792-824), started with the watch
variable at `watch`. -/
def threadProc (SIGNAL_EXIT : Int) (watch : Int) (attempts : List Attempt) : ThreadState :=
  threadProc.loop SIGNAL_EXIT
    { sleepms := 1000, mEventLoopWatchVariable := watch, trace := [], finished := false }
    attempts

/-- The delays, in milliseconds, of the waits of a trace. -/
def waits : List ThreadEvent → List Int
  | [] => []
  | ThreadEvent.waitSignal ms :: rest => ms :: waits rest
  | _ :: rest => waits rest

/-- The number of sessions opened in a trace. -/
def opened : List ThreadEvent → Nat
  | [] => 0
  | ThreadEvent.openURL :: rest => opened rest + 1
  | _ :: rest => opened rest

/-- The frames handed to the subscribers in a trace. -/
def delivered : List ThreadEvent → List CFrame
  | [] => []
  | ThreadEvent.doEventLoop frames :: rest => frames ++ delivered rest
  | _ :: rest => delivered rest

/-- The write of `CRtspStreamSource::stop` (line 788) to the watch variable.
The call of `stopThread` that follows makes `waitSignal` return the exit
signal. -/
def CRtspStreamSource.stop (st : ThreadState) : ThreadState :=
  { st with mEventLoopWatchVariable := 1 }

/-! ## Setup phase -/

/-- Whether a call is a setup request. -/
def Action.isSetup : Action → Bool
  | Action.sendSetupCommand _ _ => true
  | _ => false

/-- The number of setup requests in a log. -/
def setupCount (log : List Action) : Nat :=
  (log.filter Action.isSetup).length

/-- The setup phase of an attempt: while a setup request is out (there is a
current subsession), the next setup response is handled by
`continueAfterSETUP`; the phase is over once the play request is out. -/
def setupPhase : ourRTSPClient → List Int → ourRTSPClient
  | c, [] => c
  | c, r :: rest =>
    match c.scs.subsession with
    | none => c
    | some _ => setupPhase (continueAfterSETUP c r) rest

/-! ## Concrete inputs -/

/-- A slice unit of five bytes delivered in two parts: three bytes with two
missing, then the two remaining bytes. -/
def sliceInTwo : List Delivery :=
  [mkDelivery [0x41, 9, 9] 2, mkDelivery [7, 8] 0]

/-- An H.264 sink holding cached parameter sets. -/
def cachedSink : DummySink :=
  { h264Sink with mSPS := [0, 0, 0, 1, 0x67, 1], mPPS := [0, 0, 0, 1, 0x68], mSEI := [] }

/-- A key-frame unit of three bytes with two more missing. -/
def idrDelivery : Delivery := mkDelivery [0x65, 9, 9] 2

/-- A slice unit of three bytes, complete. -/
def sliceDelivery : Delivery := mkDelivery [0x41, 9, 9] 0

/-- Six attempts whose waits all return 0. -/
def sixAttempts : List Attempt :=
  [⟨[], 0⟩, ⟨[], 0⟩, ⟨[], 0⟩, ⟨[], 0⟩, ⟨[], 0⟩, ⟨[], 0⟩]

/-- A frame, to tell deliveries apart. -/
def someFrame : CFrame :=
  { channel := 0, streamid := 0, pts := 0, sequence := 0,
    info := FrameInfo.video false 'P', data := [0, 0, 0, 1, 0x41] }

/-- An attempt that delivers a frame and whose wait returns 0. -/
def frameAttempt : Attempt := ⟨[someFrame], 0⟩

/-- An attempt whose wait returns 1. -/
def exitAttempt : Attempt := ⟨[], 1⟩

/-- An H.264 video subsession that initiates and has an RTCP instance. -/
def videoSub : MediaSubsession :=
  { mediumName := "video", codecName := "H264", videoWidth := 0, videoHeight := 0,
    initiateOk := true, hasRtcp := true, sink := none, byeHandler := false }

/-- A session of one video subsession, without a duration. -/
def oneSub : MediaSession :=
  { subsessions := [videoSub], absStartTime := none, absEndTime := none,
    playStartTime := 0, playEndTime := 0 }

/-- A session of two video subsessions, without a duration. -/
def twoSubs : MediaSession :=
  { subsessions := [videoSub, videoSub], absStartTime := none, absEndTime := none,
    playStartTime := 0, playEndTime := 0 }

/-- A client of `oneSub` whose first setup request is out. -/
def settingUpOne : ourRTSPClient :=
  continueAfterDESCRIBE (openURL true) 0 (some oneSub)

/-- A client of `oneSub` whose subsession is set up and whose play request is
out. -/
def readyToPlayOne : ourRTSPClient :=
  continueAfterSETUP settingUpOne 0

/-- A client of `oneSub` that is playing. -/
def playingOne : ourRTSPClient :=
  continueAfterPLAY readyToPlayOne 0

/-- A client of `twoSubs` whose first subsession was refused with 461 and set
up over TCP, and whose first setup request for the second subsession is
out. -/
def secondSetupOut : ourRTSPClient :=
  continueAfterSETUP (continueAfterSETUP
    (continueAfterDESCRIBE (openURL true) 0 (some twoSubs)) 461) 0

/-- A client of `twoSubs` that is playing with both sinks attached. -/
def playingTwo : ourRTSPClient :=
  continueAfterPLAY (continueAfterSETUP (continueAfterSETUP
    (continueAfterDESCRIBE (openURL true) 0 (some twoSubs)) 0) 0) 0

/-- An H.264 sink holding a slice frame of nine bytes of which the marker and
three bytes are written and two bytes are missing. -/
def sliceStarted : DummySink :=
  (h264Sink.afterGettingFrame h264Env (mkDelivery [0x41, 9, 9] 2)).1

/-- The two bytes that complete the frame of `sliceStarted`. -/
def lastPart : Delivery := mkDelivery [7, 8] 0

/-- Ten bytes, complete: more than the frame of `sliceStarted` can hold. -/
def oversized : Delivery := mkDelivery [1, 2, 3, 4, 5, 6, 7, 8, 9, 10] 0

/-- Ten bytes with one more missing. -/
def oversizedMore : Delivery := mkDelivery [1, 2, 3, 4, 5, 6, 7, 8, 9, 10] 1

/-- An SPS unit of three bytes, complete. -/
def spsDelivery : Delivery := mkDelivery [0x67, 1, 2] 0

/-- A PPS unit of two bytes, complete. -/
def ppsDelivery : Delivery := mkDelivery [0x68, 3] 0

/-- An SEI unit of two bytes, complete. -/
def seiDelivery : Delivery := mkDelivery [0x06, 5] 0

/-- An access unit delimiter (type 9), complete. -/
def audDelivery : Delivery := mkDelivery [0x09, 0xf0] 0

/-- A JPEG video sink with a subscriber. -/
def jpegSink : DummySink := DummySink.createNew true "video" "JPEG" 640 480

/-- A JPEG unit of three bytes with two more missing. -/
def jpegDelivery : Delivery := mkDelivery [0xff, 0xd8, 0xff] 2

/-- A session of one video subsession that plays from 0 to 2.1 s: the end
time is the `double` nearest to 2.1, which is 4728779608739021 / 2^51. -/
def clip : MediaSession :=
  { subsessions := [videoSub], absStartTime := none, absEndTime := none,
    playStartTime := 0, playEndTime := 4728779608739021 / 2251799813685248 }

/-- A client of `clip` whose subsession is set up and whose play request is
out. -/
def readyToPlayClip : ourRTSPClient :=
  continueAfterSETUP (continueAfterDESCRIBE (openURL true) 0 (some clip)) 0

/-- A session of one video subsession that plays from 0 to 10 s. -/
def tenSeconds : MediaSession :=
  { subsessions := [videoSub], absStartTime := none, absEndTime := none,
    playStartTime := 0, playEndTime := 10 }

/-- A client of `tenSeconds` whose subsession is set up and whose play request
is out. -/
def readyToPlayTen : ourRTSPClient :=
  continueAfterSETUP (continueAfterDESCRIBE (openURL true) 0 (some tenSeconds)) 0

/-- A first JPEG unit, complete. -/
def jpegFirst : Delivery := mkDelivery [0xff, 0xd8, 1] 0

/-- A second JPEG unit, complete. -/
def jpegSecond : Delivery := mkDelivery [0xff, 0xd8, 2] 0

/-- Two bytes with one more missing whose first byte carries the SPS tag. -/
def spsTagged : Delivery := mkDelivery [0x67, 5] 1

/-- A slice unit of three bytes, complete, presented at 12.3456 s. -/
def stampedSlice : Delivery :=
  { fReceiveBuffer := fun i => [0x41, 9, 9].getD i 0, frameSize := 3,
    numTruncatedBytes := 0, tv_sec := 12, tv_usec := 345600 }

/-- A client without a subscriber callback whose subsession is set up, after
two silent heartbeat fires. -/
def silentOne : ourRTSPClient :=
  checkDisconnectHandler (checkDisconnectHandler
    (continueAfterSETUP (continueAfterDESCRIBE (openURL false) 0 (some oneSub)) 0))

/-- A thread state before its first pass. -/
def freshThread : ThreadState :=
  { sleepms := 1000, mEventLoopWatchVariable := 0, trace := [], finished := false }

/-- The frame under construction in `sliceStarted`. -/
def sliceStartedFrame : CFrame :=
  { channel := 0, streamid := 0, pts := 0, sequence := 0,
    info := FrameInfo.video false 'P', data := [0, 0, 0, 1, 0x41, 9, 9, 0, 0] }

/-- A video subsession whose `initiate()` fails. -/
def deadSub : MediaSubsession := { videoSub with initiateOk := false }

/-- A session of three subsessions of which the second cannot be
initiated. -/
def threeSubs : MediaSession :=
  { subsessions := [videoSub, deadSub, videoSub], absStartTime := none, absEndTime := none,
    playStartTime := 0, playEndTime := 0 }

/-- A client of `threeSubs` whose first setup request is out. -/
def settingUpThree : ourRTSPClient :=
  continueAfterDESCRIBE (openURL true) 0 (some threeSubs)

/-- The state of the worker thread when `threadProc` enters its loop. -/
def idleThread : ThreadState :=
  { sleepms := 1000, mEventLoopWatchVariable := 0, trace := [], finished := false }

/-! ## Rounding to double -/

/-- Zero is a `double`. -/
theorem roundDouble_zero : roundDouble 0 = 0 := by
  simp [roundDouble]

/-- The exponent found by `binade` is the difference of the bit lengths, less
one when the quotient is below that power of two. -/
theorem binade_test (n d : Nat) (hd : 0 < d) :
    binade n d =
      if (2 : ℚ) ^ ((n.log2 : Int) - (d.log2 : Int)) ≤ (n : ℚ) / d
      then (n.log2 : Int) - (d.log2 : Int) else (n.log2 : Int) - (d.log2 : Int) - 1 := by
  have hdq : (0 : ℚ) < d := by exact_mod_cast hd
  have h2 : ∀ k : Nat, (0 : ℚ) < 2 ^ k := fun k => by positivity
  have hz : (2 : ℚ) ^ ((n.log2 : Int) - (d.log2 : Int)) = 2 ^ n.log2 / 2 ^ d.log2 := by
    rw [zpow_sub₀ (by norm_num), zpow_natCast, zpow_natCast]
  unfold binade
  simp only
  by_cases h0 : (0 : Int) ≤ (n.log2 : Int) - (d.log2 : Int)
  · have hle : d.log2 ≤ n.log2 := by omega
    have htn : ((n.log2 : Int) - (d.log2 : Int)).toNat = n.log2 - d.log2 := by omega
    have hpow : (2 : ℚ) ^ n.log2 / 2 ^ d.log2 = 2 ^ (n.log2 - d.log2) := by
      rw [pow_sub₀ _ (by norm_num) hle, div_eq_mul_inv]
    have hiff : d * 2 ^ (n.log2 - d.log2) ≤ n ↔
        (2 : ℚ) ^ ((n.log2 : Int) - (d.log2 : Int)) ≤ (n : ℚ) / d := by
      rw [hz, hpow, le_div_iff₀ hdq, mul_comm]
      exact_mod_cast Iff.rfl
    rw [if_pos h0, htn]
    by_cases ht : d * 2 ^ (n.log2 - d.log2) ≤ n
    · rw [if_pos ht, if_pos (hiff.1 ht)]
    · rw [if_neg ht, if_neg (fun h => ht (hiff.2 h))]
  · have hle : n.log2 ≤ d.log2 := by omega
    have htn : (-((n.log2 : Int) - (d.log2 : Int))).toNat = d.log2 - n.log2 := by omega
    have hpow : (2 : ℚ) ^ d.log2 / 2 ^ n.log2 = 2 ^ (d.log2 - n.log2) := by
      rw [pow_sub₀ _ (by norm_num) hle, div_eq_mul_inv]
    have hiff : d ≤ n * 2 ^ (d.log2 - n.log2) ↔
        (2 : ℚ) ^ ((n.log2 : Int) - (d.log2 : Int)) ≤ (n : ℚ) / d := by
      rw [hz, le_div_iff₀ hdq, div_mul_eq_mul_div, div_le_iff₀ (h2 _)]
      have : (d : ℚ) ≤ n * 2 ^ (d.log2 - n.log2) ↔ (2 : ℚ) ^ n.log2 * d ≤ n * 2 ^ d.log2 := by
        rw [← hpow, mul_div_assoc', le_div_iff₀ (h2 _), mul_comm]
      rw [← this]
      exact_mod_cast Iff.rfl
    rw [if_neg h0, htn]
    by_cases ht : d ≤ n * 2 ^ (d.log2 - n.log2)
    · rw [if_pos ht, if_pos (hiff.1 ht)]
    · rw [if_neg ht, if_neg (fun h => ht (hiff.2 h))]

/-- The exponent found by `binade` brackets the quotient:
`2 ^ e <= n / d < 2 ^ (e + 1)`. -/
theorem binade_spec (n d : Nat) (hn : 0 < n) (hd : 0 < d) :
    (2 : ℚ) ^ (binade n d) ≤ (n : ℚ) / d ∧ (n : ℚ) / d < 2 ^ (binade n d + 1) := by
  have hdq : (0 : ℚ) < d := by exact_mod_cast hd
  have h2 : ∀ k : Nat, (0 : ℚ) < 2 ^ k := fun k => by positivity
  have hnl : ((2 : ℚ) ^ n.log2) ≤ n := by
    exact_mod_cast Nat.log2_self_le (Nat.pos_iff_ne_zero.1 hn)
  have hnu : (n : ℚ) < 2 ^ (n.log2 + 1) := by
    exact_mod_cast Nat.lt_log2_self
  have hdl : ((2 : ℚ) ^ d.log2) ≤ d := by
    exact_mod_cast Nat.log2_self_le (Nat.pos_iff_ne_zero.1 hd)
  have hdu : (d : ℚ) < 2 ^ (d.log2 + 1) := by
    exact_mod_cast Nat.lt_log2_self
  have hz : ∀ k : Int, (2 : ℚ) ^ ((n.log2 : Int) - (d.log2 : Int) + k) =
      2 ^ n.log2 / 2 ^ d.log2 * 2 ^ k := by
    intro k
    rw [zpow_add₀ (by norm_num), zpow_sub₀ (by norm_num), zpow_natCast, zpow_natCast]
  rw [binade_test n d hd]
  by_cases ht : (2 : ℚ) ^ ((n.log2 : Int) - (d.log2 : Int)) ≤ (n : ℚ) / d
  · rw [if_pos ht]
    refine ⟨ht, ?_⟩
    rw [hz 1, div_lt_iff₀ hdq, zpow_one, div_mul_eq_mul_div, div_mul_eq_mul_div,
      lt_div_iff₀ (h2 _)]
    rw [pow_succ] at hnu
    nlinarith [h2 n.log2, h2 d.log2]
  · rw [if_neg ht]
    constructor
    · have e : (n.log2 : Int) - (d.log2 : Int) - 1 = (n.log2 : Int) - (d.log2 : Int) + (-1) := by
        ring
      rw [e, hz (-1), le_div_iff₀ hdq, zpow_neg, zpow_one, div_mul_eq_mul_div,
        div_mul_eq_mul_div, div_le_iff₀ (h2 _)]
      rw [pow_succ] at hdu
      nlinarith [h2 n.log2, h2 d.log2]
    · have e : (n.log2 : Int) - (d.log2 : Int) - 1 + 1 = (n.log2 : Int) - (d.log2 : Int) := by
        ring
      rw [e]
      exact lt_of_not_le ht

/-- The exponent that brackets the quotient is the one `binade` finds. -/
theorem binade_unique (n d : Nat) (hn : 0 < n) (hd : 0 < d) (e : Int)
    (h1 : (2 : ℚ) ^ e ≤ (n : ℚ) / d) (h2 : (n : ℚ) / d < 2 ^ (e + 1)) : binade n d = e := by
  obtain ⟨b1, b2⟩ := binade_spec n d hn hd
  have l1 : binade n d < e + 1 :=
    (zpow_lt_zpow_iff_right₀ (by norm_num : (1 : ℚ) < 2)).1 (lt_of_le_of_lt b1 h2)
  have l2 : e < binade n d + 1 :=
    (zpow_lt_zpow_iff_right₀ (by norm_num : (1 : ℚ) < 2)).1 (lt_of_le_of_lt h1 b2)
  omega

/-- Rounding to the nearest integer moves a quotient by at most one half. -/
theorem roundHalfEven_err (n d : Nat) (hd : 0 < d) :
    |(roundHalfEven n d : ℚ) - (n : ℚ) / d| ≤ 1 / 2 := by
  have hdq : (0 : ℚ) < d := by exact_mod_cast hd
  have hdiv : (n : ℚ) = d * (n / d : ℕ) + (n % d : ℕ) := by
    exact_mod_cast (Nat.div_add_mod n d).symm
  have hr : ((n % d : ℕ) : ℚ) < d := by exact_mod_cast Nat.mod_lt n hd
  have hr0 : (0 : ℚ) ≤ ((n % d : ℕ) : ℚ) := by positivity
  have key : ∀ m : ℚ, 2 * (d * (m - (n / d : ℕ)) - (n % d : ℕ)) ≤ d →
      2 * ((n % d : ℕ) - d * (m - (n / d : ℕ))) ≤ d → |m - (n : ℚ) / d| ≤ 1 / 2 := by
    intro m ha hb
    have hx : (n : ℚ) / d = (n / d : ℕ) + ((n % d : ℕ) : ℚ) / d := by
      have hne : (d : ℚ) ≠ 0 := ne_of_gt hdq
      have h3 : (d : ℚ) * (n / d : ℕ) / d = (n / d : ℕ) := mul_div_cancel_left₀ _ hne
      rw [← h3, ← add_div, ← hdiv]
    have hdx : (d : ℚ) * (((n % d : ℕ) : ℚ) / d) = (n % d : ℕ) := by
      field_simp
    generalize ((n % d : ℕ) : ℚ) / d = x at hx hdx
    rw [hx, abs_le]
    constructor
    · by_contra h
      push_neg at h
      nlinarith [mul_pos hdq (sub_pos.2 h)]
    · by_contra h
      push_neg at h
      nlinarith [mul_pos hdq (sub_pos.2 h)]
  unfold roundHalfEven
  by_cases c1 : 2 * (n % d) < d
  · rw [if_pos c1]
    have c1q : 2 * ((n % d : ℕ) : ℚ) < d := by exact_mod_cast c1
    apply key <;> nlinarith
  · rw [if_neg c1]
    have c1q : (d : ℚ) ≤ 2 * ((n % d : ℕ) : ℚ) := by exact_mod_cast Nat.le_of_not_lt c1
    by_cases c2 : d < 2 * (n % d)
    · rw [if_pos c2]
      push_cast
      apply key <;> nlinarith
    · rw [if_neg c2]
      have c2q : 2 * ((n % d : ℕ) : ℚ) ≤ d := by exact_mod_cast Nat.le_of_not_lt c2
      by_cases c3 : (n / d) % 2 = 0
      · rw [if_pos c3]
        apply key <;> nlinarith
      · rw [if_neg c3]
        push_cast
        apply key <;> nlinarith

/-- A positive rational is the quotient of the absolute value of its numerator
by its denominator. -/
theorem rat_eq_natAbs_div (q : ℚ) (hq : 0 < q) : q = (q.num.natAbs : ℚ) / q.den := by
  have hnum : 0 < q.num := Rat.num_pos.2 hq
  have h2 : ((q.num.natAbs : ℕ) : ℚ) = (q.num : ℚ) := by
    rw [Nat.cast_natAbs, abs_of_pos hnum]
  rw [h2]
  exact (Rat.num_div_den q).symm

/-- The value of `roundDouble` at a positive rational, given the exponent of
the last place. -/
theorem roundDouble_of_pos (q : ℚ) (hq : 0 < q) (t : Int)
    (ht : max (binade q.num.natAbs q.den) (-1022) - 52 = t) :
    roundDouble q =
      if 0 ≤ t then (roundHalfEven q.num.natAbs (q.den * 2 ^ t.toNat) : ℚ) * 2 ^ t.toNat
      else (roundHalfEven (q.num.natAbs * 2 ^ (-t).toNat) q.den : ℚ) / 2 ^ (-t).toNat := by
  unfold roundDouble
  rw [if_neg (ne_of_gt hq)]
  simp only [ht]
  rw [if_neg (not_lt.2 hq.le)]

/-- Rounding to `double` moves a positive number by at most half a unit in
the last place. -/
theorem roundDouble_step (q : ℚ) (hq : 0 < q) (t : Int)
    (ht : max (binade q.num.natAbs q.den) (-1022) - 52 = t) :
    |roundDouble q - q| ≤ (2 : ℚ) ^ t / 2 := by
  have hden : 0 < q.den := q.den_pos
  have hdq : (0 : ℚ) < q.den := by exact_mod_cast hden
  have hqe := rat_eq_natAbs_div q hq
  rw [roundDouble_of_pos q hq t ht]
  by_cases h0 : 0 ≤ t
  · rw [if_pos h0]
    obtain ⟨s, rfl⟩ := Int.eq_ofNat_of_zero_le h0
    have hp : (0 : ℚ) < 2 ^ s := by positivity
    have herr := roundHalfEven_err q.num.natAbs (q.den * 2 ^ s) (by positivity)
    have hcast : (((q.den * 2 ^ s : ℕ)) : ℚ) = (q.den : ℚ) * 2 ^ s := by push_cast; ring
    rw [hcast] at herr
    simp only [Int.toNat_ofNat, zpow_natCast]
    have hq2 : (q.num.natAbs : ℚ) / ((q.den : ℚ) * 2 ^ s) = q / 2 ^ s := by
      rw [← div_div, ← hqe]
    rw [hq2] at herr
    have e2 : (roundHalfEven q.num.natAbs (q.den * 2 ^ s) : ℚ) * 2 ^ s - q =
        ((roundHalfEven q.num.natAbs (q.den * 2 ^ s) : ℚ) - q / 2 ^ s) * 2 ^ s := by
      field_simp
    rw [e2, abs_mul, abs_of_pos hp]
    calc |(roundHalfEven q.num.natAbs (q.den * 2 ^ s) : ℚ) - q / 2 ^ s| * 2 ^ s
        ≤ 1 / 2 * 2 ^ s := mul_le_mul_of_nonneg_right herr hp.le
      _ = 2 ^ s / 2 := by ring
  · rw [if_neg h0]
    obtain ⟨s, hs⟩ := Int.eq_ofNat_of_zero_le (by omega : (0 : Int) ≤ -t)
    have hts : t = -(s : Int) := by omega
    subst hts
    have hp : (0 : ℚ) < 2 ^ s := by positivity
    have herr := roundHalfEven_err (q.num.natAbs * 2 ^ s) q.den hden
    have hcast : (((q.num.natAbs * 2 ^ s : ℕ)) : ℚ) = (q.num.natAbs : ℚ) * 2 ^ s := by
      push_cast; ring
    rw [hcast] at herr
    simp only [neg_neg, Int.toNat_ofNat, zpow_neg, zpow_natCast]
    have hq2 : (q.num.natAbs : ℚ) * 2 ^ s / q.den = q * 2 ^ s := by
      rw [mul_div_right_comm, ← hqe]
    rw [hq2] at herr
    have e2 : (roundHalfEven (q.num.natAbs * 2 ^ s) q.den : ℚ) / 2 ^ s - q =
        ((roundHalfEven (q.num.natAbs * 2 ^ s) q.den : ℚ) - q * 2 ^ s) / 2 ^ s := by
      field_simp
      ring
    rw [e2, abs_div, abs_of_pos hp]
    calc |(roundHalfEven (q.num.natAbs * 2 ^ s) q.den : ℚ) - q * 2 ^ s| / 2 ^ s
        ≤ 1 / 2 / 2 ^ s := div_le_div_of_nonneg_right herr hp.le
      _ = (2 ^ s)⁻¹ / 2 := by ring

/-- In the normal range rounding to `double` has a relative error of at most
`2 ^ -53`. -/
theorem roundDouble_err (q : ℚ) (hq : 1 ≤ q * 2 ^ 1022) : |roundDouble q - q| ≤ q / 2 ^ 53 := by
  have hq0 : 0 < q := by
    by_contra h
    push_neg at h
    have : q * 2 ^ 1022 ≤ 0 := mul_nonpos_of_nonpos_of_nonneg h (by positivity)
    linarith
  have hqe := rat_eq_natAbs_div q hq0
  have hnum : 0 < q.num.natAbs := Int.natAbs_pos.2 (ne_of_gt (Rat.num_pos.2 hq0))
  have hb := (binade_spec q.num.natAbs q.den hnum q.den_pos).1
  rw [← hqe] at hb
  have hlow : (2 : ℚ) ^ (-1022 : Int) ≤ q := by
    rw [zpow_neg, ← one_div, div_le_iff₀ (by positivity), zpow_ofNat]
    exact hq
  have hmax : (2 : ℚ) ^ (max (binade q.num.natAbs q.den) (-1022)) ≤ q := by
    rcases max_choice (binade q.num.natAbs q.den) (-1022) with h | h
    · rw [h]; exact hb
    · rw [h]; exact hlow
  have hstep := roundDouble_step q hq0 _ rfl
  have e : (2 : ℚ) ^ (max (binade q.num.natAbs q.den) (-1022) - 52) / 2 =
      (2 : ℚ) ^ (max (binade q.num.natAbs q.den) (-1022)) / 2 ^ 53 := by
    rw [zpow_sub₀ (by norm_num)]
    norm_num
    ring
  rw [e] at hstep
  exact le_trans hstep (div_le_div_of_nonneg_right hmax (by positivity))

/-- Evaluation of `roundDouble` at a positive number in the normal range below
`2 ^ 53`, from its binary exponent `e` and the rounded significand `m`. -/
theorem roundDouble_eval (q : ℚ) (n d s m : ℕ) (e : Int) (hn : q.num = n) (hd : q.den = d)
    (hpos : 0 < n) (h1 : (2 : ℚ) ^ e ≤ q) (h2 : q < 2 ^ (e + 1)) (hlo : -1022 ≤ e)
    (hs : e + s = 52) (hm : roundHalfEven (n * 2 ^ s) d = m) :
    roundDouble q = (m : ℚ) / 2 ^ s := by
  have hnum : 0 < q.num := by rw [hn]; exact_mod_cast hpos
  have hq0 : 0 < q := Rat.num_pos.1 hnum
  have hna : q.num.natAbs = n := by rw [hn]; rfl
  have hqe := rat_eq_natAbs_div q hq0
  rw [hna, hd] at hqe
  have hdpos : 0 < d := by rw [← hd]; exact q.den_pos
  have hb : binade n d = e := by
    apply binade_unique n d hpos hdpos e
    · rw [← hqe]; exact h1
    · rw [← hqe]; exact h2
  have ht : max (binade q.num.natAbs q.den) (-1022) - 52 = -(s : Int) := by
    rw [hna, hd, hb, max_eq_left hlo]
    omega
  rw [roundDouble_of_pos q hq0 _ ht, hna, hd]
  by_cases h0 : (0 : Int) ≤ -(s : Int)
  · have hs0 : s = 0 := by omega
    subst hs0
    rw [if_pos h0]
    simp at hm ⊢
    rw [hm]
  · rw [if_neg h0]
    simp only [neg_neg, Int.toNat_ofNat]
    rw [hm]

/-- Rounding a whole number leaves it. -/
theorem roundHalfEven_one (n : Nat) : roundHalfEven n 1 = n := by
  simp [roundHalfEven, Nat.mod_one]

/-- Every natural number below `2 ^ 53` is a `double`. -/
theorem roundDouble_natCast (n : Nat) (h : n < 2 ^ 53) : roundDouble (n : ℚ) = n := by
  rcases Nat.eq_zero_or_pos n with h0 | hpos
  · subst h0
    simp [roundDouble]
  · have hne : n ≠ 0 := Nat.pos_iff_ne_zero.1 hpos
    have hl : n.log2 < 53 := (Nat.log2_lt hne).2 h
    have h1 : ((2 : ℚ) ^ (n.log2 : Int)) ≤ (n : ℚ) := by
      rw [zpow_natCast]
      exact_mod_cast Nat.log2_self_le hne
    have h2 : (n : ℚ) < 2 ^ ((n.log2 : Int) + 1) := by
      have : (n : ℚ) < 2 ^ (n.log2 + 1) := by exact_mod_cast Nat.lt_log2_self
      rw [show ((n.log2 : Int) + 1) = ((n.log2 + 1 : ℕ) : Int) by push_cast; ring, zpow_natCast]
      exact this
    rw [roundDouble_eval (n : ℚ) n 1 (52 - n.log2) (n * 2 ^ (52 - n.log2)) (n.log2 : Int)
      (by simp) (by simp) hpos h1 h2 (by omega) (by omega) (roundHalfEven_one _)]
    push_cast
    field_simp

/-- A number of at least one is in the normal range of `double`. -/
theorem one_le_scaled (q : ℚ) (hq : 1 ≤ q) : 1 ≤ q * 2 ^ 1022 := by
  have h : (1 : ℚ) ≤ 2 ^ 1022 := one_le_pow₀ (by norm_num)
  calc (1 : ℚ) = 1 * 1 := by ring
    _ ≤ q * 2 ^ 1022 := mul_le_mul hq h (by norm_num) (by linarith)

/-! ## Buffers -/

theorem Env.alloc_length (env : Env) (n : Nat) : (env.alloc n).length = n := by
  simp [Env.alloc]

theorem Delivery.bytes_length (d : Delivery) : d.bytes.length = d.frameSize := by
  simp [Delivery.bytes]

theorem nalHead_length : nalHead.length = 4 := rfl

/-- Copying `src` right behind the part `p` already written. -/
theorem memcpy_append (p rest src : List Nat) (pos : Nat) (hp : pos = p.length) :
    memcpy (p ++ rest) pos src = (p ++ src) ++ rest.drop src.length := by
  subst hp
  simp [memcpy, List.take_append_eq_append_take, List.drop_append_eq_append_drop,
    List.take_of_length_le, List.drop_of_length_le]

theorem memcpy_length (dst src : List Nat) (pos : Nat) (h : pos + src.length ≤ dst.length) :
    (memcpy dst pos src).length = dst.length := by
  simp [memcpy]
  omega

/-! ## Frame reassembly -/

/-- The key-frame branch of `createFrame` in closed form. -/
theorem createFrame_idr (env : Env) (s : DummySink) (d : Delivery)
    (hm : s.mediumName = "video") (hc : s.codecName = "H264")
    (h1 : d.nalType ≠ env.NALU_TYPE_SPS) (h2 : d.nalType ≠ env.NALU_TYPE_PPS)
    (h3 : d.nalType ≠ env.NALU_TYPE_SEI) (h4 : d.nalType = env.NALU_TYPE_IDR) :
    s.createFrame env d =
      { s with
        mSPS := [], mPPS := [], mSEI := [],
        mFrame := some
          { channel := 0, streamid := 0, pts := d.pts, sequence := s.mSequence,
            info := FrameInfo.video false 'I',
            data := s.mSPS ++ s.mPPS ++ s.mSEI ++ nalHead ++ d.bytes ++
              (env.alloc (s.mSPS.length + s.mPPS.length + s.mSEI.length + nalHead.length
                + d.frameSize + d.numTruncatedBytes)).drop
                (s.mSPS.length + s.mPPS.length + s.mSEI.length + nalHead.length
                  + d.frameSize) },
        mSequence := s.mSequence + 1 } := by
  have hj : ¬ (s.codecName = "JPEG") := by rw [hc]; decide
  unfold DummySink.createFrame
  rw [if_pos hm, if_neg hj, if_pos hc, if_neg h1, if_neg h2, if_neg h3, if_pos h4]
  simp only [createVideoFrame]
  congr 3
  have e1 := memcpy_append [] (env.alloc (s.mSPS.length + s.mPPS.length + s.mSEI.length
    + nalHead.length + d.frameSize + d.numTruncatedBytes)) s.mSPS 0 rfl
  simp only [List.nil_append] at e1
  rw [e1, memcpy_append _ _ s.mPPS _ rfl,
    memcpy_append _ _ s.mSEI _ (by simp),
    memcpy_append _ _ nalHead _ (by simp; omega),
    memcpy_append _ _ d.bytes _ (by simp; omega)]
  simp [List.drop_drop, Delivery.bytes_length, Nat.add_comm, Nat.add_left_comm, Nat.add_assoc]

/-- The delta-frame branch of `createFrame` in closed form. -/
theorem createFrame_slice (env : Env) (s : DummySink) (d : Delivery)
    (hm : s.mediumName = "video") (hc : s.codecName = "H264")
    (h1 : d.nalType ≠ env.NALU_TYPE_SPS) (h2 : d.nalType ≠ env.NALU_TYPE_PPS)
    (h3 : d.nalType ≠ env.NALU_TYPE_SEI) (h4 : d.nalType ≠ env.NALU_TYPE_IDR)
    (h5 : d.nalType = env.NALU_TYPE_SLICE) :
    s.createFrame env d =
      { s with
        mFrame := some
          { channel := 0, streamid := 0, pts := d.pts, sequence := s.mSequence,
            info := FrameInfo.video false 'P',
            data := nalHead ++ d.bytes ++
              (env.alloc (nalHead.length + d.frameSize + d.numTruncatedBytes)).drop
                (nalHead.length + d.frameSize) },
        mSequence := s.mSequence + 1 } := by
  have hj : ¬ (s.codecName = "JPEG") := by rw [hc]; decide
  unfold DummySink.createFrame
  rw [if_pos hm, if_neg hj, if_pos hc, if_neg h1, if_neg h2, if_neg h3, if_neg h4, if_pos h5]
  simp only [createVideoFrame]
  congr 3
  have e1 := memcpy_append [] (env.alloc (nalHead.length + d.frameSize
    + d.numTruncatedBytes)) nalHead 0 rfl
  simp only [List.nil_append] at e1
  rw [e1, memcpy_append _ _ d.bytes _ rfl]
  simp [List.drop_drop, Delivery.bytes_length, Nat.add_comm]

/-- A continuation delivery that reports no missing bytes fails the test
`pos + frameSize < size` and is dropped. -/
theorem pushRemain_complete (s : DummySink) (f : CFrame) (d : Delivery)
    (h : d.numTruncatedBytes = 0) : s.pushRemain f d = s := by
  unfold DummySink.pushRemain
  rw [if_neg]
  rw [h]
  omega

/-- What `afterGettingFrame` does once the delivery has been processed. -/
theorem afterGettingFrame_eq (env : Env) (s : DummySink) (d : Delivery)
    (hcb : s.mCallback = true) :
    s.afterGettingFrame env d =
      match (s.processDelivery env d).mFrame with
      | some f =>
        if d.numTruncatedBytes = 0 then
          ({ s.processDelivery env d with mFrame := none }, some f)
        else (s.processDelivery env d, none)
      | none => (s.processDelivery env d, none) := by
  simp [DummySink.afterGettingFrame, hcb]

/-- C1, at a slice unit of five bytes delivered as three bytes with two
missing and then the two remaining bytes: one frame is emitted, on the last
delivery, with the declared size, but its last two bytes are those the fresh
buffer held and not the delivered bytes 7 and 8. -/
theorem C1_last_delivery_not_copied (fresh : Nat → Nat) :
    (h264Sink.run { h264Env with fresh := fresh } sliceInTwo).2 =
      [none, some { channel := 0, streamid := 0, pts := 0, sequence := 0,
                    info := FrameInfo.video false 'P',
                    data := [0, 0, 0, 1, 0x41, 9, 9, fresh 7, fresh 8] }] ∧
    (sliceInTwo.map Delivery.bytes).flatten = [0x41, 9, 9, 7, 8] ∧
    (sliceInTwo.map fun d => (d.frameSize, d.numTruncatedBytes)) = [(3, 2), (2, 0)] := by
  exact ⟨rfl, rfl, rfl⟩

/-- C2: a key-frame unit delivered to an H.264 video sink (one with a
subscriber callback, as `openURL` gives every sink) with no frame under
construction yields, for every state of the caches, a frame whose bytes are
the SPS cache, the PPS cache, the SEI cache, the marker 00 00 00 01 and the
delivered bytes, followed by room for the missing bytes; its size is the
three cache sizes + 4 + delivered + missing bytes, its role is key frame, and
the three caches are empty afterwards. -/
theorem C2_key_frame (env : Env) (s : DummySink) (d : Delivery)
    (hcb : s.mCallback = true) (hm : s.mediumName = "video") (hc : s.codecName = "H264")
    (hF : s.mFrame = none)
    (h1 : d.nalType ≠ env.NALU_TYPE_SPS) (h2 : d.nalType ≠ env.NALU_TYPE_PPS)
    (h3 : d.nalType ≠ env.NALU_TYPE_SEI) (h4 : d.nalType = env.NALU_TYPE_IDR) :
    ∃ f rest,
      (s.processDelivery env d).mFrame = some f ∧
      f.data = s.mSPS ++ s.mPPS ++ s.mSEI ++ [0, 0, 0, 1] ++ d.bytes ++ rest ∧
      rest.length = d.numTruncatedBytes ∧
      f.size = s.mSPS.length + s.mPPS.length + s.mSEI.length + 4 + d.frameSize
        + d.numTruncatedBytes ∧
      f.info = FrameInfo.video false 'I' ∧
      (d.numTruncatedBytes = 0 → (s.afterGettingFrame env d).2 = some f) ∧
      (d.numTruncatedBytes ≠ 0 → (s.afterGettingFrame env d).1.mFrame = some f) ∧
      (s.afterGettingFrame env d).1.mSPS = [] ∧
      (s.afterGettingFrame env d).1.mPPS = [] ∧
      (s.afterGettingFrame env d).1.mSEI = [] := by
  have hp : s.processDelivery env d = s.createFrame env d := by
    simp [DummySink.processDelivery, hF]
  have ha := afterGettingFrame_eq env s d hcb
  rw [hp, createFrame_idr env s d hm hc h1 h2 h3 h4] at ha
  rw [hp, createFrame_idr env s d hm hc h1 h2 h3 h4, ha]
  refine ⟨_, _, rfl, rfl, ?_, ?_, rfl, ?_, ?_, ?_, ?_, ?_⟩
  · simp [Env.alloc_length]
  · simp [CFrame.size, Env.alloc_length, Delivery.bytes_length, nalHead_length]
    omega
  · intro h0; simp [h0]
  · intro h0; simp [h0]
  · by_cases h0 : d.numTruncatedBytes = 0 <;> simp [h0]
  · by_cases h0 : d.numTruncatedBytes = 0 <;> simp [h0]
  · by_cases h0 : d.numTruncatedBytes = 0 <;> simp [h0]

/-- Witness of C2: a key-frame unit delivered to a sink holding an SPS and a
PPS unit. -/
theorem C2_key_frame_witness :
    ∃ f rest,
      (cachedSink.processDelivery h264Env idrDelivery).mFrame = some f ∧
      f.data = cachedSink.mSPS ++ cachedSink.mPPS ++ cachedSink.mSEI ++ [0, 0, 0, 1]
        ++ idrDelivery.bytes ++ rest ∧
      rest.length = idrDelivery.numTruncatedBytes ∧
      f.size = cachedSink.mSPS.length + cachedSink.mPPS.length + cachedSink.mSEI.length + 4
        + idrDelivery.frameSize + idrDelivery.numTruncatedBytes ∧
      f.info = FrameInfo.video false 'I' ∧
      (idrDelivery.numTruncatedBytes = 0 →
        (cachedSink.afterGettingFrame h264Env idrDelivery).2 = some f) ∧
      (idrDelivery.numTruncatedBytes ≠ 0 →
        (cachedSink.afterGettingFrame h264Env idrDelivery).1.mFrame = some f) ∧
      (cachedSink.afterGettingFrame h264Env idrDelivery).1.mSPS = [] ∧
      (cachedSink.afterGettingFrame h264Env idrDelivery).1.mPPS = [] ∧
      (cachedSink.afterGettingFrame h264Env idrDelivery).1.mSEI = [] :=
  C2_key_frame h264Env cachedSink idrDelivery rfl rfl rfl rfl
    (by decide) (by decide) (by decide) (by decide)

/-- C3: a slice unit delivered to an H.264 video sink (one with a subscriber
callback, as `openURL` gives every sink) with no frame under construction
yields, whatever the caches hold (nothing in particular), a
frame that is the marker 00 00 00 01 followed by the delivered bytes and room
for the missing bytes, of size 4 + delivered + missing bytes and role delta
frame; no cached byte enters it and the caches are left as they were. -/
theorem C3_delta_frame (env : Env) (s : DummySink) (d : Delivery)
    (hcb : s.mCallback = true) (hm : s.mediumName = "video") (hc : s.codecName = "H264")
    (hF : s.mFrame = none)
    (h1 : d.nalType ≠ env.NALU_TYPE_SPS) (h2 : d.nalType ≠ env.NALU_TYPE_PPS)
    (h3 : d.nalType ≠ env.NALU_TYPE_SEI) (h4 : d.nalType ≠ env.NALU_TYPE_IDR)
    (h5 : d.nalType = env.NALU_TYPE_SLICE) :
    ∃ f rest,
      (s.processDelivery env d).mFrame = some f ∧
      f.data = [0, 0, 0, 1] ++ d.bytes ++ rest ∧
      rest.length = d.numTruncatedBytes ∧
      f.size = 4 + d.frameSize + d.numTruncatedBytes ∧
      f.info = FrameInfo.video false 'P' ∧
      (d.numTruncatedBytes = 0 → (s.afterGettingFrame env d).2 = some f) ∧
      (d.numTruncatedBytes ≠ 0 → (s.afterGettingFrame env d).1.mFrame = some f) ∧
      (s.afterGettingFrame env d).1.mSPS = s.mSPS ∧
      (s.afterGettingFrame env d).1.mPPS = s.mPPS ∧
      (s.afterGettingFrame env d).1.mSEI = s.mSEI := by
  have hp : s.processDelivery env d = s.createFrame env d := by
    simp [DummySink.processDelivery, hF]
  have ha := afterGettingFrame_eq env s d hcb
  rw [hp, createFrame_slice env s d hm hc h1 h2 h3 h4 h5] at ha
  rw [hp, createFrame_slice env s d hm hc h1 h2 h3 h4 h5, ha]
  refine ⟨_, _, rfl, rfl, ?_, ?_, rfl, ?_, ?_, ?_, ?_, ?_⟩
  · simp [Env.alloc_length]
  · simp [CFrame.size, Env.alloc_length, Delivery.bytes_length, nalHead_length]
    omega
  · intro h0; simp [h0]
  · intro h0; simp [h0]
  · by_cases h0 : d.numTruncatedBytes = 0 <;> simp [h0]
  · by_cases h0 : d.numTruncatedBytes = 0 <;> simp [h0]
  · by_cases h0 : d.numTruncatedBytes = 0 <;> simp [h0]

/-- Witness of C3: a slice unit delivered to a sink that never cached a
parameter set. -/
theorem C3_delta_frame_witness :
    ∃ f rest,
      (h264Sink.processDelivery h264Env sliceDelivery).mFrame = some f ∧
      f.data = [0, 0, 0, 1] ++ sliceDelivery.bytes ++ rest ∧
      rest.length = sliceDelivery.numTruncatedBytes ∧
      f.size = 4 + sliceDelivery.frameSize + sliceDelivery.numTruncatedBytes ∧
      f.info = FrameInfo.video false 'P' ∧
      (sliceDelivery.numTruncatedBytes = 0 →
        (h264Sink.afterGettingFrame h264Env sliceDelivery).2 = some f) ∧
      (sliceDelivery.numTruncatedBytes ≠ 0 →
        (h264Sink.afterGettingFrame h264Env sliceDelivery).1.mFrame = some f) ∧
      (h264Sink.afterGettingFrame h264Env sliceDelivery).1.mSPS = h264Sink.mSPS ∧
      (h264Sink.afterGettingFrame h264Env sliceDelivery).1.mPPS = h264Sink.mPPS ∧
      (h264Sink.afterGettingFrame h264Env sliceDelivery).1.mSEI = h264Sink.mSEI :=
  C3_delta_frame h264Env h264Sink sliceDelivery rfl rfl rfl rfl
    (by decide) (by decide) (by decide) (by decide) (by decide)

/-- C7: for a sink with a subscriber callback, a frame is handed to the
callback on a delivery exactly when a frame is under construction once the
delivery has been processed and the delivery reports no missing bytes; the
frame handed over is that frame, and after an emission the slot is empty. -/
theorem C7_emit_iff (env : Env) (s : DummySink) (d : Delivery) (hcb : s.mCallback = true) :
    ((s.afterGettingFrame env d).2.isSome = true ↔
      ((s.processDelivery env d).mFrame.isSome = true ∧ d.numTruncatedBytes = 0)) ∧
    ((s.afterGettingFrame env d).2.isSome = true →
      (s.afterGettingFrame env d).2 = (s.processDelivery env d).mFrame ∧
      (s.afterGettingFrame env d).1.mFrame = none) := by
  rw [afterGettingFrame_eq env s d hcb]
  cases hf : (s.processDelivery env d).mFrame with
  | none => simp
  | some f => by_cases h0 : d.numTruncatedBytes = 0 <;> simp [h0]

/-- Witness of C7: a complete slice unit delivered to a fresh H.264 sink. -/
theorem C7_emit_iff_witness :
    ((h264Sink.afterGettingFrame h264Env sliceDelivery).2.isSome = true ↔
      ((h264Sink.processDelivery h264Env sliceDelivery).mFrame.isSome = true ∧
        sliceDelivery.numTruncatedBytes = 0)) ∧
    ((h264Sink.afterGettingFrame h264Env sliceDelivery).2.isSome = true →
      (h264Sink.afterGettingFrame h264Env sliceDelivery).2 =
        (h264Sink.processDelivery h264Env sliceDelivery).mFrame ∧
      (h264Sink.afterGettingFrame h264Env sliceDelivery).1.mFrame = none) :=
  C7_emit_iff h264Env h264Sink sliceDelivery rfl

/-! ## Reconnect loop -/

theorem opened_append (t u : List ThreadEvent) : opened (t ++ u) = opened t + opened u := by
  induction t with
  | nil => simp [opened]
  | cons e t ih =>
    cases e <;> simp [opened, ih]
    omega

theorem delivered_append (t u : List ThreadEvent) :
    delivered (t ++ u) = delivered t ++ delivered u := by
  induction t with
  | nil => simp [delivered]
  | cons e t ih => cases e <;> simp [delivered, ih]

theorem waits_append (t u : List ThreadEvent) : waits (t ++ u) = waits t ++ waits u := by
  induction t with
  | nil => simp [waits]
  | cons e t ih => cases e <;> simp [waits, ih]

/-- A pass whose wait returns the exit signal ends the thread. -/
theorem body_exit (E : Int) (st : ThreadState) (a : Attempt) (h : a.sig = E) :
    threadProc.body E st a =
      { sleepms := if st.sleepms ≥ 8000 then 2000 else st.sleepms * 2,
        mEventLoopWatchVariable := 1,
        trace := st.trace ++
          [ThreadEvent.openURL, ThreadEvent.doEventLoop a.frames,
           ThreadEvent.waitSignal (if st.sleepms ≥ 8000 then 2000 else st.sleepms * 2),
           ThreadEvent.threadEnd],
        finished := true } := by
  simp [threadProc.body, threadProc.attempt, threadProc.clearWatch, doEventLoop, h]

/-- A pass whose wait returns anything else leaves the loop running. -/
theorem body_continue (E : Int) (st : ThreadState) (a : Attempt) (h : a.sig ≠ E) :
    threadProc.body E st a =
      { sleepms := if st.sleepms ≥ 8000 then 2000 else st.sleepms * 2,
        mEventLoopWatchVariable := 1,
        trace := st.trace ++
          [ThreadEvent.openURL, ThreadEvent.doEventLoop a.frames,
           ThreadEvent.waitSignal (if st.sleepms ≥ 8000 then 2000 else st.sleepms * 2)],
        finished := false } := by
  simp [threadProc.body, threadProc.attempt, threadProc.clearWatch, doEventLoop, h]

/-- The loop goes on after a pass that did not end the thread. -/
theorem loop_cons (E : Int) (st : ThreadState) (a : Attempt) (rest : List Attempt)
    (hf : (threadProc.body E st a).finished = false) :
    threadProc.loop E st (a :: rest) = threadProc.loop E (threadProc.body E st a) rest := by
  simp [threadProc.loop, hf]

/-- The loop runs through attempts whose waits do not return the exit
signal. -/
theorem loop_append (E : Int) (pre : List Attempt) (h : ∀ x ∈ pre, x.sig ≠ E) :
    ∀ (st : ThreadState) (rest : List Attempt),
      threadProc.loop E st (pre ++ rest) = threadProc.loop E (threadProc.loop E st pre) rest := by
  induction pre with
  | nil => intro st rest; simp [threadProc.loop]
  | cons a pre ih =>
    intro st rest
    have ha : a.sig ≠ E := h a (by simp)
    have hb := body_continue E st a ha
    have hf : (threadProc.body E st a).finished = false := by rw [hb]
    rw [List.cons_append, loop_cons E st a _ hf, loop_cons E st a _ hf]
    exact ih (fun x hx => h x (by simp [hx])) _ rest

/-- After attempts whose waits do not return the exit signal the loop is
still running, one session has been opened per attempt, and the frames of
these attempts have been delivered. -/
theorem loop_running (E : Int) (pre : List Attempt) (h : ∀ x ∈ pre, x.sig ≠ E) :
    ∀ (st : ThreadState), st.finished = false →
      (threadProc.loop E st pre).finished = false ∧
      opened (threadProc.loop E st pre).trace = opened st.trace + pre.length ∧
      delivered (threadProc.loop E st pre).trace =
        delivered st.trace ++ (pre.map Attempt.frames).flatten := by
  induction pre with
  | nil => intro st hst; simp [threadProc.loop, hst]
  | cons a pre ih =>
    intro st _
    have ha : a.sig ≠ E := h a (by simp)
    have hb := body_continue E st a ha
    have hf : (threadProc.body E st a).finished = false := by rw [hb]
    have := ih (fun x hx => h x (by simp [hx])) _ hf
    rw [loop_cons E st a _ hf]
    refine ⟨this.1, ?_, ?_⟩
    · rw [this.2.1, hb]
      simp [opened_append, opened]
      omega
    · rw [this.2.2, hb]
      simp [delivered_append, delivered]

/-- C4, as the code has it: along six attempts none of whose waits returns
the exit signal, the delays awaited after the 1st to the 6th attempt are
2000, 4000, 8000, 2000, 4000 and 8000 ms. -/
theorem C4_backoff_delays (E watch : Int) (attempts : List Attempt)
    (hlen : attempts.length = 6) (h : ∀ x ∈ attempts, x.sig ≠ E) :
    waits (threadProc E watch attempts).trace = [2000, 4000, 8000, 2000, 4000, 8000] := by
  match attempts, hlen with
  | [a1, a2, a3, a4, a5, a6], _ =>
    have h1 : a1.sig ≠ E := h a1 (by simp)
    have h2 : a2.sig ≠ E := h a2 (by simp)
    have h3 : a3.sig ≠ E := h a3 (by simp)
    have h4 : a4.sig ≠ E := h a4 (by simp)
    have h5 : a5.sig ≠ E := h a5 (by simp)
    have h6 : a6.sig ≠ E := h a6 (by simp)
    simp [threadProc, threadProc.loop, threadProc.body, threadProc.attempt,
      threadProc.clearWatch, doEventLoop, h1, h2, h3, h4, h5, h6, waits]

/-- Witness of C4: six attempts whose waits return 0, the exit signal
being 1. -/
theorem C4_backoff_delays_witness :
    waits (threadProc 1 0 sixAttempts).trace = [2000, 4000, 8000, 2000, 4000, 8000] :=
  C4_backoff_delays 1 0 sixAttempts rfl (by decide)

/-- C4 as stated fails: the delays of six attempts are not 1000, 2000, 4000,
8000, 2000 and 4000 ms; the first wait already lasts 2000 ms. -/
theorem C4_first_delay_not_one_second :
    waits (threadProc 1 0 sixAttempts).trace ≠ [1000, 2000, 4000, 8000, 2000, 4000] ∧
    (waits (threadProc 1 0 sixAttempts).trace).head? = some 2000 := by
  decide

/-- C8: after attempts whose waits did not return the exit signal, if the
wait after the next attempt returns the exit signal the thread ends there:
whatever attempts might follow, no further session is opened and no further
frame is delivered; and if it returns anything else, exactly one more session
is opened for the attempt that follows. -/
theorem C8_exit_or_one_attempt (E watch : Int) (pre : List Attempt) (a : Attempt)
    (hpre : ∀ x ∈ pre, x.sig ≠ E) :
    (a.sig = E → ∀ rest,
      threadProc E watch (pre ++ a :: rest) = threadProc E watch (pre ++ [a]) ∧
      (threadProc E watch (pre ++ a :: rest)).finished = true ∧
      opened (threadProc E watch (pre ++ a :: rest)).trace = pre.length + 1 ∧
      delivered (threadProc E watch (pre ++ a :: rest)).trace =
        ((pre ++ [a]).map Attempt.frames).flatten ∧
      (threadProc E watch (pre ++ a :: rest)).trace.getLast? = some ThreadEvent.threadEnd) ∧
    (a.sig ≠ E → ∀ b,
      (threadProc E watch (pre ++ [a])).finished = false ∧
      opened (threadProc E watch (pre ++ [a, b])).trace =
        opened (threadProc E watch (pre ++ [a])).trace + 1) := by
  have hrun := loop_running E pre hpre
    { sleepms := 1000, mEventLoopWatchVariable := watch, trace := [], finished := false } rfl
  constructor
  · intro ha rest
    have hb := body_exit E (threadProc.loop E
      { sleepms := 1000, mEventLoopWatchVariable := watch, trace := [], finished := false } pre)
      a ha
    have key : ∀ rest, threadProc E watch (pre ++ a :: rest) =
        threadProc.body E (threadProc.loop E
          { sleepms := 1000, mEventLoopWatchVariable := watch, trace := [], finished := false }
          pre) a := by
      intro rest
      simp only [threadProc]
      rw [loop_append E pre hpre]
      simp [threadProc.loop, hb]
    refine ⟨?_, ?_, ?_, ?_, ?_⟩
    · rw [key rest, key []]
    · rw [key rest, hb]
    · rw [key rest, hb]
      simp [opened_append, opened, hrun.2.1]
    · rw [key rest, hb]
      simp [delivered_append, delivered, hrun.2.2]
    · rw [key rest, hb]
      simp
  · intro ha b
    have hpa : ∀ x ∈ pre ++ [a], x.sig ≠ E := by
      intro x hx
      rcases List.mem_append.1 hx with hx | hx
      · exact hpre x hx
      · simp at hx; rw [hx]; exact ha
    have hrun2 := loop_running E (pre ++ [a]) hpa
      { sleepms := 1000, mEventLoopWatchVariable := watch, trace := [], finished := false } rfl
    refine ⟨hrun2.1, ?_⟩
    have e : pre ++ [a, b] = (pre ++ [a]) ++ [b] := by simp
    simp only [threadProc]
    rw [e, loop_append E (pre ++ [a]) hpa]
    by_cases hbE : b.sig = E
    · simp [threadProc.loop, body_exit E _ b hbE, opened_append, opened]
    · simp [threadProc.loop, body_continue E _ b hbE, opened_append, opened]

/-- Witness of C8: after an attempt that delivers a frame and whose wait
does not return the exit signal 1, an attempt whose wait returns 1 ends the
thread although another attempt would follow, and an attempt whose wait
returns 0 is followed by one more session. -/
theorem C8_exit_or_one_attempt_witness :
    (threadProc 1 0 ([frameAttempt] ++ exitAttempt :: [frameAttempt]) =
        threadProc 1 0 ([frameAttempt] ++ [exitAttempt]) ∧
      (threadProc 1 0 ([frameAttempt] ++ exitAttempt :: [frameAttempt])).finished = true ∧
      opened (threadProc 1 0 ([frameAttempt] ++ exitAttempt :: [frameAttempt])).trace =
        [frameAttempt].length + 1 ∧
      delivered (threadProc 1 0 ([frameAttempt] ++ exitAttempt :: [frameAttempt])).trace =
        (([frameAttempt] ++ [exitAttempt]).map Attempt.frames).flatten ∧
      (threadProc 1 0 ([frameAttempt] ++ exitAttempt :: [frameAttempt])).trace.getLast? =
        some ThreadEvent.threadEnd) ∧
    ((threadProc 1 0 ([frameAttempt] ++ [frameAttempt])).finished = false ∧
      opened (threadProc 1 0 ([frameAttempt] ++ [frameAttempt, exitAttempt])).trace =
        opened (threadProc 1 0 ([frameAttempt] ++ [frameAttempt])).trace + 1) :=
  ⟨(C8_exit_or_one_attempt 1 0 [frameAttempt] exitAttempt (by decide)).1 rfl [frameAttempt],
   (C8_exit_or_one_attempt 1 0 [frameAttempt] frameAttempt (by decide)).2 (by decide)
     exitAttempt⟩

/-! ## Session state machine -/

theorem anySink_closeSinks (subs : List MediaSubsession) :
    ∀ i, anySink (closeSinks subs i).1 = false := by
  induction subs with
  | nil => intro i; rfl
  | cons sub rest ih =>
    intro i
    have h := ih (i + 1)
    unfold anySink at h ⊢
    by_cases hs : sub.sink.isSome = true
    · simp [closeSinks, hs, h]
    · simp only [Bool.not_eq_true] at hs
      simp [closeSinks, hs, h]

theorem closeSinks_actions (subs : List MediaSubsession) :
    ∀ i a, a ∈ (closeSinks subs i).2 → ∃ k, a = Action.closeSink k := by
  induction subs with
  | nil => intro i a h; simp [closeSinks] at h
  | cons sub rest ih =>
    intro i a h
    by_cases hs : sub.sink.isSome = true
    · simp [closeSinks, hs] at h
      rcases h with h | h
      · exact ⟨i, h⟩
      · exact ih (i + 1) a h
    · simp only [Bool.not_eq_true] at hs
      simp [closeSinks, hs] at h
      exact ih (i + 1) a h

/-- The function `shutdownStream` closes the client and sets the watch variable. -/
theorem shutdownStream_closed (c : ourRTSPClient) :
    (shutdownStream c).closed = true ∧ (shutdownStream c).eventLoopWatchVariable = 1 := by
  unfold shutdownStream
  cases c.scs.session <;> simp

/-- The function `shutdownStream` on a client without a session only closes the client. -/
theorem shutdownStream_none (c : ourRTSPClient) (h : c.scs.session = none) :
    (shutdownStream c).log = c.log ++ [Action.closeClient] := by
  simp [shutdownStream, h]

/-- The function `shutdownStream` on a client with a session: every sink is closed, and a
teardown request is sent exactly when some subsession had a sink. -/
theorem shutdownStream_some (c : ourRTSPClient) (ses : MediaSession)
    (h : c.scs.session = some ses) :
    ∃ extra ses1,
      (shutdownStream c).log = c.log ++ extra ∧
      Action.closeClient ∈ extra ∧
      (Action.sendTeardownCommand ∈ extra ↔ anySink ses.subsessions = true) ∧
      (shutdownStream c).scs.session = some ses1 ∧
      anySink ses1.subsessions = false := by
  refine ⟨(closeSinks ses.subsessions 0).2 ++
      (if anySink ses.subsessions then [Action.sendTeardownCommand] else []) ++
      [Action.closeClient,
       Action.unscheduleDelayedTask TaskFunc.streamTimerHandler,
       Action.unscheduleDelayedTask TaskFunc.checkDisconnectHandler,
       Action.closeSession],
    { ses with subsessions := (closeSinks ses.subsessions 0).1 }, ?_, ?_, ?_, ?_, ?_⟩
  · simp [shutdownStream, h]
  · simp
  · have hno : Action.sendTeardownCommand ∉ (closeSinks ses.subsessions 0).2 := by
      intro hmem
      obtain ⟨k, hk⟩ := closeSinks_actions _ _ _ hmem
      cases hk
    by_cases ha : anySink ses.subsessions = true
    · simp [ha]
    · simp [ha, hno]
  · simp [shutdownStream, h]
  · exact anySink_closeSinks _ _

theorem nextInitiated_ge (l : List MediaSubsession) :
    ∀ it k it1, nextInitiated l it = (some k, it1) → it ≤ k := by
  induction l with
  | nil => intro it k it1 h; simp [nextInitiated] at h
  | cons sub rest ih =>
    intro it k it1 h
    by_cases hi : sub.initiateOk = true
    · simp [nextInitiated, hi] at h
      omega
    · simp only [Bool.not_eq_true] at hi
      simp [nextInitiated, hi] at h
      have := ih (it + 1) k it1 h
      omega

/-- The function `setupNextSubsession` sends one request: a setup request for a
subsession at or beyond the iterator, with the transport of the session, or
the play request. -/
theorem setupNextSubsession_log (c : ourRTSPClient) (ses : MediaSession) (j : Nat)
    (hs : c.scs.session = some ses) (hit : c.scs.iter = some j) :
    ∃ a, (setupNextSubsession c).log = c.log ++ [a] ∧
      ((∃ k, j ≤ k ∧ a = Action.sendSetupCommand k c.scs.streamUsingTcp) ∨
        ∃ b, a = Action.sendPlayCommand b) := by
  unfold setupNextSubsession
  rw [hs, hit]
  simp only
  cases hn : nextInitiated (List.drop j ses.subsessions) j with
  | mk o it1 =>
    cases o with
    | some k =>
      exact ⟨_, rfl, Or.inl ⟨k, nextInitiated_ge _ _ _ _ hn, rfl⟩⟩
    | none =>
      by_cases ha : ses.absStartTime.isSome = true
      · simp only [ha, if_true]
        exact ⟨_, rfl, Or.inr ⟨_, rfl⟩⟩
      · simp only [ha]
        exact ⟨_, rfl, Or.inr ⟨_, rfl⟩⟩

/-- C6, as the code has it: when the response to a setup request carries
461 and the session has not switched to TCP yet, `continueAfterSETUP` issues
exactly one further setup request, for the same subsession and over TCP; and
when that retry fails, with 461 or any other status, it asks nothing more for
that subsession and moves on: the one request it issues is a setup request
for a later subsession or the play request. -/
theorem C6_retry_once_over_tcp (c : ourRTSPClient) (ses : MediaSession) (i j : Nat)
    (hs : c.scs.session = some ses) (hi : c.scs.subsession = some i)
    (hit : c.scs.iter = some j) (hij : i < j) (htcp : c.scs.streamUsingTcp = false) :
    (continueAfterSETUP c 461).log = c.log ++ [Action.sendSetupCommand i true] ∧
    (continueAfterSETUP c 461).scs.streamUsingTcp = true ∧
    ∀ r : Int, r ≠ 0 →
      continueAfterSETUP (continueAfterSETUP c 461) r =
        setupNextSubsession (continueAfterSETUP c 461) ∧
      ∃ a, (continueAfterSETUP (continueAfterSETUP c 461) r).log =
          (continueAfterSETUP c 461).log ++ [a] ∧
        (∀ tcp, a ≠ Action.sendSetupCommand i tcp) ∧
        ((∃ k, j ≤ k ∧ a = Action.sendSetupCommand k true) ∨
          ∃ b, a = Action.sendPlayCommand b) := by
  have h1 : continueAfterSETUP c 461 =
      { c with
        scs := { c.scs with streamUsingTcp := true },
        log := c.log ++ [Action.sendSetupCommand i true] } := by
    simp [continueAfterSETUP, hs, hi, htcp]
  refine ⟨by rw [h1], by rw [h1], ?_⟩
  intro r hr
  have h2 : continueAfterSETUP (continueAfterSETUP c 461) r =
      setupNextSubsession (continueAfterSETUP c 461) := by
    rw [h1]
    simp [continueAfterSETUP, hs, hi, hr]
  refine ⟨h2, ?_⟩
  rw [h2]
  obtain ⟨a, ha, hcase⟩ := setupNextSubsession_log (continueAfterSETUP c 461) ses j
    (by rw [h1]; exact hs) (by rw [h1]; exact hit)
  have htrue : (continueAfterSETUP c 461).scs.streamUsingTcp = true := by rw [h1]
  rw [htrue] at hcase
  refine ⟨a, ha, ?_, hcase⟩
  intro tcp heq
  rcases hcase with ⟨k, hk, hak⟩ | ⟨b, hb⟩
  · rw [hak] at heq
    injection heq with hki _
    omega
  · rw [hb] at heq
    cases heq

/-- Witness of C6: the first setup response of a session of one subsession. -/
theorem C6_retry_once_over_tcp_witness :
    (continueAfterSETUP settingUpOne 461).log =
      settingUpOne.log ++ [Action.sendSetupCommand 0 true] ∧
    (continueAfterSETUP settingUpOne 461).scs.streamUsingTcp = true ∧
    ∀ r : Int, r ≠ 0 →
      continueAfterSETUP (continueAfterSETUP settingUpOne 461) r =
        setupNextSubsession (continueAfterSETUP settingUpOne 461) ∧
      ∃ a, (continueAfterSETUP (continueAfterSETUP settingUpOne 461) r).log =
          (continueAfterSETUP settingUpOne 461).log ++ [a] ∧
        (∀ tcp, a ≠ Action.sendSetupCommand 0 tcp) ∧
        ((∃ k, 1 ≤ k ∧ a = Action.sendSetupCommand k true) ∨
          ∃ b, a = Action.sendPlayCommand b) :=
  C6_retry_once_over_tcp settingUpOne oneSub 0 1 (by decide) (by decide) (by decide)
    (by decide) (by decide)

/-- C6 as stated fails: in a session of two subsessions whose first
subsession was refused with 461 and set up over TCP, the first setup response
for the second subsession carries 461 and no further setup request is issued
for it; the play request follows. -/
theorem C6_no_retry_when_tcp_in_use :
    secondSetupOut.scs.subsession = some 1 ∧
    secondSetupOut.log =
      [Action.sendDescribeCommand,
       Action.scheduleDelayedTask 1000000 TaskFunc.checkDisconnectHandler,
       Action.sendSetupCommand 0 false, Action.sendSetupCommand 0 true,
       Action.startPlaying 0, Action.sendSetupCommand 1 true] ∧
    (continueAfterSETUP secondSetupOut 461).log =
      secondSetupOut.log ++ [Action.sendPlayCommand false] := by
  decide

/-- A heartbeat fire below the threshold counts and reschedules. -/
theorem checkDisconnectHandler_lt (c : ourRTSPClient) (h : c.scs.disconnectCounter + 1 < 5) :
    checkDisconnectHandler c =
      { c with
        scs := { c.scs with
          disconnectCounter := c.scs.disconnectCounter + 1, checkDisconnectTask := true },
        log := c.log ++
          [Action.scheduleDelayedTask 1000000 TaskFunc.checkDisconnectHandler] } := by
  simp [checkDisconnectHandler, h]

/-- A heartbeat fire that reaches the threshold shuts the stream down. -/
theorem checkDisconnectHandler_ge (c : ourRTSPClient) (h : ¬ c.scs.disconnectCounter + 1 < 5) :
    checkDisconnectHandler c =
      shutdownStream
        { c with scs := { c.scs with disconnectCounter := c.scs.disconnectCounter + 1 } } := by
  simp [checkDisconnectHandler, h]

/-- The client after `k` silent fires, for `k` up to four. -/
theorem checkDisconnectHandler_iterate (c : ourRTSPClient) (h0 : c.scs.disconnectCounter = 0) :
    ∀ k, k ≤ 4 →
      (checkDisconnectHandler^[k] c).scs.disconnectCounter = k ∧
      (checkDisconnectHandler^[k] c).scs.session = c.scs.session ∧
      (checkDisconnectHandler^[k] c).closed = c.closed ∧
      (checkDisconnectHandler^[k] c).eventLoopWatchVariable = c.eventLoopWatchVariable := by
  intro k
  induction k with
  | zero => intro _; simp [h0]
  | succ k ih =>
    intro hk
    obtain ⟨h1, h2, h3, h4⟩ := ih (by omega)
    rw [Function.iterate_succ_apply', checkDisconnectHandler_lt _ (by rw [h1]; omega)]
    refine ⟨?_, h2, h3, h4⟩
    simp [h1]

/-- C5: from a disconnect counter of zero, each of the first four heartbeat
fires without a delivery in between reschedules the heartbeat and leaves the
session open, and the fifth shuts the stream down; a delivery after the
fourth fire resets the counter to zero, and the fire that follows reschedules
and does not shut down. -/
theorem C5_five_silent_fires (env : Env) (c : ourRTSPClient) (ses : MediaSession)
    (i : Nat) (sub : MediaSubsession) (sink : DummySink) (d : Delivery)
    (h0 : c.scs.disconnectCounter = 0) (hcl : c.closed = false)
    (hw : c.eventLoopWatchVariable = 0)
    (hs : c.scs.session = some ses) (hi : ses.subsessions[i]? = some sub)
    (hk : sub.sink = some sink) :
    (∀ k, k < 4 →
      (checkDisconnectHandler^[k + 1] c).closed = false ∧
      (checkDisconnectHandler^[k + 1] c).eventLoopWatchVariable = 0 ∧
      (checkDisconnectHandler^[k + 1] c).log = (checkDisconnectHandler^[k] c).log ++
        [Action.scheduleDelayedTask 1000000 TaskFunc.checkDisconnectHandler]) ∧
    ((checkDisconnectHandler^[5] c).closed = true ∧
      (checkDisconnectHandler^[5] c).eventLoopWatchVariable = 1 ∧
      Action.closeClient ∈ (checkDisconnectHandler^[5] c).log) ∧
    ((ourRTSPClient.afterGettingFrame env (checkDisconnectHandler^[4] c) i d).1.scs.disconnectCounter
        = 0 ∧
      (checkDisconnectHandler
        (ourRTSPClient.afterGettingFrame env (checkDisconnectHandler^[4] c) i d).1).closed
        = false ∧
      (checkDisconnectHandler
        (ourRTSPClient.afterGettingFrame env
          (checkDisconnectHandler^[4] c) i d).1).eventLoopWatchVariable = 0 ∧
      (checkDisconnectHandler
        (ourRTSPClient.afterGettingFrame env (checkDisconnectHandler^[4] c) i d).1).log =
        (checkDisconnectHandler^[4] c).log ++
          [Action.scheduleDelayedTask 1000000 TaskFunc.checkDisconnectHandler]) := by
  have hit := checkDisconnectHandler_iterate c h0
  refine ⟨?_, ?_, ?_⟩
  · intro k hk4
    obtain ⟨h1, _, h3, h4⟩ := hit k (by omega)
    obtain ⟨_, _, h3', h4'⟩ := hit (k + 1) (by omega)
    refine ⟨by rw [h3', hcl], by rw [h4', hw], ?_⟩
    rw [Function.iterate_succ_apply', checkDisconnectHandler_lt _ (by rw [h1]; omega)]
  · obtain ⟨h1, h2, _, _⟩ := hit 4 (by omega)
    have e : checkDisconnectHandler^[5] c = checkDisconnectHandler (checkDisconnectHandler^[4] c) :=
      Function.iterate_succ_apply' _ 4 c
    rw [e]
    generalize checkDisconnectHandler^[4] c = c4 at h1 h2
    rw [checkDisconnectHandler_ge _ (by rw [h1]; omega)]
    refine ⟨(shutdownStream_closed _).1, (shutdownStream_closed _).2, ?_⟩
    obtain ⟨extra, ses1, hlog, hmem, _⟩ := shutdownStream_some
      { c4 with scs := { c4.scs with disconnectCounter := c4.scs.disconnectCounter + 1 } }
      ses (by show c4.scs.session = some ses; rw [h2, hs])
    rw [hlog]
    exact List.mem_append_right _ hmem
  · obtain ⟨_, h2, h3, h4⟩ := hit 4 (by omega)
    generalize checkDisconnectHandler^[4] c = c4 at h2 h3 h4
    have h2s : c4.scs.session = some ses := by rw [h2, hs]
    have hd : (ourRTSPClient.afterGettingFrame env c4 i d).1 =
        { c4 with
          scs := { c4.scs with
            disconnectCounter := 0,
            session := some { ses with
              subsessions := updateAt
                (fun sb => { sb with sink := some (sink.afterGettingFrame env d).1 })
                ses.subsessions i } } } := by
      simp [ourRTSPClient.afterGettingFrame, h2s, hi, hk]
    rw [hd, checkDisconnectHandler_lt _ (by simp)]
    simp [h3, h4, hcl, hw]

/-- Witness of C5: a client whose subsession is set up, with its sink
attached, and a complete slice unit as the delivery. -/
theorem C5_five_silent_fires_witness :
    (∀ k, k < 4 →
      (checkDisconnectHandler^[k + 1] readyToPlayOne).closed = false ∧
      (checkDisconnectHandler^[k + 1] readyToPlayOne).eventLoopWatchVariable = 0 ∧
      (checkDisconnectHandler^[k + 1] readyToPlayOne).log =
        (checkDisconnectHandler^[k] readyToPlayOne).log ++
        [Action.scheduleDelayedTask 1000000 TaskFunc.checkDisconnectHandler]) ∧
    ((checkDisconnectHandler^[5] readyToPlayOne).closed = true ∧
      (checkDisconnectHandler^[5] readyToPlayOne).eventLoopWatchVariable = 1 ∧
      Action.closeClient ∈ (checkDisconnectHandler^[5] readyToPlayOne).log) ∧
    ((ourRTSPClient.afterGettingFrame h264Env (checkDisconnectHandler^[4] readyToPlayOne) 0
        sliceDelivery).1.scs.disconnectCounter = 0 ∧
      (checkDisconnectHandler
        (ourRTSPClient.afterGettingFrame h264Env (checkDisconnectHandler^[4] readyToPlayOne) 0
          sliceDelivery).1).closed = false ∧
      (checkDisconnectHandler
        (ourRTSPClient.afterGettingFrame h264Env (checkDisconnectHandler^[4] readyToPlayOne) 0
          sliceDelivery).1).eventLoopWatchVariable = 0 ∧
      (checkDisconnectHandler
        (ourRTSPClient.afterGettingFrame h264Env (checkDisconnectHandler^[4] readyToPlayOne) 0
          sliceDelivery).1).log =
        (checkDisconnectHandler^[4] readyToPlayOne).log ++
          [Action.scheduleDelayedTask 1000000 TaskFunc.checkDisconnectHandler]) :=
  C5_five_silent_fires h264Env readyToPlayOne
    { oneSub with subsessions := [attachSink true videoSub] } 0 (attachSink true videoSub)
    h264Sink sliceDelivery (by decide) (by decide) (by decide) (by decide) (by decide)
    (by decide)

/-- C9, as the code has it: when the describe response fails, or no session
can be built from the description, or the session has no subsessions, the
client is closed and the watch variable set without a teardown request; when
the play response fails, every sink is closed, the client is closed and the
watch variable set, and a teardown request is sent exactly when some
subsession had a sink attached. -/
theorem C9_failed_paths (c : ourRTSPClient) :
    (c.scs.session = none → ∀ (resultCode : Int) (parsed : Option MediaSession),
      (resultCode ≠ 0 ∨ parsed = none ∨ ∃ ses, parsed = some ses ∧ ses.subsessions = []) →
      (continueAfterDESCRIBE c resultCode parsed).closed = true ∧
      (continueAfterDESCRIBE c resultCode parsed).eventLoopWatchVariable = 1 ∧
      ∃ extra, (continueAfterDESCRIBE c resultCode parsed).log = c.log ++ extra ∧
        Action.closeClient ∈ extra ∧ Action.sendTeardownCommand ∉ extra) ∧
    (∀ ses, c.scs.session = some ses → ∀ resultCode : Int, resultCode ≠ 0 →
      (continueAfterPLAY c resultCode).closed = true ∧
      (continueAfterPLAY c resultCode).eventLoopWatchVariable = 1 ∧
      ∃ extra ses1, (continueAfterPLAY c resultCode).log = c.log ++ extra ∧
        Action.closeClient ∈ extra ∧
        (Action.sendTeardownCommand ∈ extra ↔ anySink ses.subsessions = true) ∧
        (continueAfterPLAY c resultCode).scs.session = some ses1 ∧
        anySink ses1.subsessions = false) := by
  constructor
  · intro hnone resultCode parsed hfail
    have hclosed : continueAfterDESCRIBE c resultCode parsed = shutdownStream c ∨
        ∃ ses, ses.subsessions = [] ∧ continueAfterDESCRIBE c resultCode parsed =
          shutdownStream { c with scs := { c.scs with session := some ses } } := by
      by_cases hr : resultCode ≠ 0
      · left; simp [continueAfterDESCRIBE, hr]
      · rcases hfail with h | h | ⟨ses, hp, he⟩
        · exact absurd h hr
        · left; simp [continueAfterDESCRIBE, h]
        · right
          refine ⟨ses, he, ?_⟩
          simp [continueAfterDESCRIBE, hr, hp, MediaSession.hasSubsessions, he]
    rcases hclosed with h | ⟨ses, he, h⟩
    · rw [h]
      refine ⟨(shutdownStream_closed c).1, (shutdownStream_closed c).2,
        [Action.closeClient], shutdownStream_none c hnone, by simp, by simp⟩
    · rw [h]
      refine ⟨(shutdownStream_closed _).1, (shutdownStream_closed _).2, ?_⟩
      obtain ⟨extra, ses1, hlog, hmem, hiff, _⟩ := shutdownStream_some
        { c with scs := { c.scs with session := some ses } } ses rfl
      refine ⟨extra, hlog, hmem, ?_⟩
      rw [hiff, he]
      simp [anySink]
  · intro ses hs resultCode hr
    have h : continueAfterPLAY c resultCode = shutdownStream c := by
      simp [continueAfterPLAY, hr]
    rw [h]
    exact ⟨(shutdownStream_closed c).1, (shutdownStream_closed c).2, shutdownStream_some c ses hs⟩

/-- Witness of C9: a describe response with status 404 on a fresh client, and
a play response with status 404 on a client whose subsession is set up. -/
theorem C9_failed_paths_witness :
    ((continueAfterDESCRIBE (openURL true) 404 none).closed = true ∧
      (continueAfterDESCRIBE (openURL true) 404 none).eventLoopWatchVariable = 1 ∧
      ∃ extra, (continueAfterDESCRIBE (openURL true) 404 none).log = (openURL true).log ++ extra ∧
        Action.closeClient ∈ extra ∧ Action.sendTeardownCommand ∉ extra) ∧
    ((continueAfterPLAY readyToPlayOne 404).closed = true ∧
      (continueAfterPLAY readyToPlayOne 404).eventLoopWatchVariable = 1 ∧
      ∃ extra ses1, (continueAfterPLAY readyToPlayOne 404).log = readyToPlayOne.log ++ extra ∧
        Action.closeClient ∈ extra ∧
        (Action.sendTeardownCommand ∈ extra ↔
          anySink [attachSink true videoSub] = true) ∧
        (continueAfterPLAY readyToPlayOne 404).scs.session = some ses1 ∧
        anySink ses1.subsessions = false) :=
  ⟨(C9_failed_paths (openURL true)).1 rfl 404 none (Or.inl (by decide)),
   (C9_failed_paths readyToPlayOne).2 { oneSub with subsessions := [attachSink true videoSub] }
     (by decide) 404 (by decide)⟩

/-- C9 as stated fails: a failed play response on a client whose subsession
is set up sends a teardown request. -/
theorem C9_teardown_on_failed_play :
    readyToPlayOne.log.getLast? = some (Action.sendPlayCommand false) ∧
    (continueAfterPLAY readyToPlayOne 404).log =
      readyToPlayOne.log ++
        [Action.closeSink 0, Action.sendTeardownCommand, Action.closeClient,
         Action.unscheduleDelayedTask TaskFunc.streamTimerHandler,
         Action.unscheduleDelayedTask TaskFunc.checkDisconnectHandler,
         Action.closeSession] := by
  decide

/-- After the sink of subsession `i` is released, some subsession has a sink
exactly when a subsession other than `i` has one. -/
theorem anySink_updateAt (subs : List MediaSubsession) :
    ∀ i, anySink (updateAt (fun sub => { sub with sink := none }) subs i) = false ↔
      ∀ j sub, j ≠ i → subs[j]? = some sub → sub.sink = none := by
  induction subs with
  | nil => intro i; simp [updateAt, anySink]
  | cons s rest ih =>
    intro i
    cases i with
    | zero =>
      simp only [updateAt, anySink, List.any_cons, Option.isSome_none, Bool.false_or]
      constructor
      · intro h j sub hj hget
        cases j with
        | zero => exact absurd rfl hj
        | succ j =>
          simp only [List.getElem?_cons_succ] at hget
          have hm : sub ∈ rest := List.getElem?_mem hget
          have := (List.any_eq_false.1 h) sub hm
          simpa using this
      · intro h
        rw [List.any_eq_false]
        intro sub hm
        obtain ⟨j, hj⟩ := List.getElem?_of_mem hm
        have := h (j + 1) sub (by omega) (by simpa using hj)
        simp [this]
    | succ i =>
      have ih1 := ih i
      unfold anySink at ih1
      simp only [updateAt, anySink, List.any_cons, Bool.or_eq_false_iff, ih1]
      constructor
      · rintro ⟨h0, h⟩ j sub hj hget
        cases j with
        | zero =>
          simp only [List.getElem?_cons_zero, Option.some.injEq] at hget
          subst hget
          simpa using h0
        | succ j =>
          simp only [List.getElem?_cons_succ] at hget
          exact h j sub (by omega) hget
      · intro h
        refine ⟨?_, ?_⟩
        · have := h 0 s (by omega) (by simp)
          simp [this]
        · intro j sub hj hget
          exact h (j + 1) sub (by omega) (by simpa using hget)

theorem anySink_false_get (l : List MediaSubsession) (h : anySink l = false) (i : Nat)
    (sub : MediaSubsession) (hget : l[i]? = some sub) : sub.sink = none := by
  have := (List.any_eq_false.1 h) sub (List.getElem?_mem hget)
  simpa using this

theorem updateAt_released (subs : List MediaSubsession) :
    ∀ i sub, (updateAt (fun sb => { sb with sink := none }) subs i)[i]? = some sub →
      sub.sink = none := by
  induction subs with
  | nil => intro i sub h; simp [updateAt] at h
  | cons s rest ih =>
    intro i sub h
    cases i with
    | zero =>
      simp only [updateAt, List.getElem?_cons_zero, Option.some.injEq] at h
      rw [← h]
    | succ i =>
      simp only [updateAt, List.getElem?_cons_succ] at h
      exact ih i sub h

/-- C10, as the code has it: when a BYE arrives for subsession `i` of an
open session, the sink of that subsession is released, and `shutdownStream`
runs, closing the client and setting the watch variable, exactly when no
other subsession of the session still has a sink. -/
theorem C10_bye_of_last_subsession (c : ourRTSPClient) (ses : MediaSession) (i : Nat)
    (hs : c.scs.session = some ses) (hcl : c.closed = false) :
    (((subsessionByeHandler c i).closed = true ∧
        (subsessionByeHandler c i).eventLoopWatchVariable = 1) ↔
      ∀ j sub, j ≠ i → ses.subsessions[j]? = some sub → sub.sink = none) ∧
    (∃ ses1, (subsessionByeHandler c i).scs.session = some ses1 ∧
      ∀ sub, ses1.subsessions[i]? = some sub → sub.sink = none) := by
  have hiff := anySink_updateAt ses.subsessions i
  by_cases ha : anySink (updateAt (fun sub => { sub with sink := none }) ses.subsessions i) = true
  · have hb : subsessionByeHandler c i =
        { c with
          scs := { c.scs with session := some { ses with
            subsessions := updateAt (fun sub => { sub with sink := none }) ses.subsessions i } },
          log := c.log ++ [Action.closeSink i] } := by
      simp [subsessionByeHandler, subsessionAfterPlaying, hs, ha]
    rw [hb]
    refine ⟨?_, _, rfl, fun sub h => updateAt_released _ i sub h⟩
    constructor
    · intro h
      simp [hcl] at h
    · intro h
      rw [hiff.2 h] at ha
      cases ha
  · simp only [Bool.not_eq_true] at ha
    have hb : subsessionByeHandler c i =
        shutdownStream { c with
          scs := { c.scs with session := some { ses with
            subsessions := updateAt (fun sub => { sub with sink := none }) ses.subsessions i } },
          log := c.log ++ [Action.closeSink i] } := by
      simp [subsessionByeHandler, subsessionAfterPlaying, hs, ha]
    rw [hb]
    obtain ⟨extra, ses1, _, _, _, hses, hno⟩ := shutdownStream_some
      { c with
        scs := { c.scs with session := some { ses with
          subsessions := updateAt (fun sub => { sub with sink := none }) ses.subsessions i } },
        log := c.log ++ [Action.closeSink i] } _ rfl
    refine ⟨?_, ses1, hses, fun sub h => anySink_false_get _ hno i sub h⟩
    constructor
    · intro _
      exact hiff.1 ha
    · intro _
      exact shutdownStream_closed _

/-- The play response of a session without a duration changes nothing. -/
theorem playingOne_eq : playingOne = readyToPlayOne := by
  have hd : readyToPlayOne.scs.duration = 0 := by
    simp [readyToPlayOne, settingUpOne, continueAfterSETUP, continueAfterDESCRIBE,
      setupNextSubsession, openURL, oneSub, videoSub, nextInitiated, StreamClientState.new,
      MediaSession.hasSubsessions, updateAt, attachSink, roundDouble_zero]
  simp [playingOne, continueAfterPLAY, hd]

/-- Witness of C10: a BYE for the only subsession of a playing session. -/
theorem C10_bye_of_last_subsession_witness :
    (((subsessionByeHandler playingOne 0).closed = true ∧
        (subsessionByeHandler playingOne 0).eventLoopWatchVariable = 1) ↔
      ∀ j sub, j ≠ 0 → [attachSink true videoSub][j]? = some sub → sub.sink = none) ∧
    (∃ ses1, (subsessionByeHandler playingOne 0).scs.session = some ses1 ∧
      ∀ sub, ses1.subsessions[0]? = some sub → sub.sink = none) :=
  C10_bye_of_last_subsession playingOne
    { oneSub with subsessions := [attachSink true videoSub] } 0
    (by rw [playingOne_eq]; decide) (by rw [playingOne_eq]; decide)

/-- The play response of a session of two subsessions without a duration
changes nothing. -/
theorem playingTwo_eq :
    playingTwo = continueAfterSETUP (continueAfterSETUP
      (continueAfterDESCRIBE (openURL true) 0 (some twoSubs)) 0) 0 := by
  have hd : (continueAfterSETUP (continueAfterSETUP
      (continueAfterDESCRIBE (openURL true) 0 (some twoSubs)) 0) 0).scs.duration = 0 := by
    simp [continueAfterSETUP, continueAfterDESCRIBE, setupNextSubsession, openURL, twoSubs,
      videoSub, nextInitiated, StreamClientState.new, MediaSession.hasSubsessions, updateAt,
      attachSink, roundDouble_zero]
  simp [playingTwo, continueAfterPLAY, hd]

/-- C10 as stated fails: in a playing session with two sinks attached, a BYE
for the first subsession releases its sink only; `shutdownStream` does not
run and the watch variable stays 0. -/
theorem C10_bye_with_other_sink_attached :
    (subsessionByeHandler playingTwo 0).closed = false ∧
    (subsessionByeHandler playingTwo 0).eventLoopWatchVariable = 0 ∧
    (subsessionByeHandler playingTwo 0).log = playingTwo.log ++ [Action.closeSink 0] := by
  rw [playingTwo_eq]
  decide

/-! ## Frame reassembly: placement, caching, other units -/

/-- The image branch of `createFrame` in closed form. -/
theorem createFrame_jpeg (env : Env) (s : DummySink) (d : Delivery)
    (hm : s.mediumName = "video") (hc : s.codecName = "JPEG") :
    s.createFrame env d =
      { s with
        mFrame := some
          { channel := 0, streamid := 0, pts := d.pts, sequence := s.mSequence,
            info := FrameInfo.image s.videoWidth s.videoHeight,
            data := d.bytes ++
              (env.alloc (d.frameSize + d.numTruncatedBytes)).drop d.frameSize } } := by
  unfold DummySink.createFrame
  rw [if_pos hm, if_pos hc]
  simp only [createImageFrame]
  congr 3
  have e1 := memcpy_append [] (env.alloc (d.frameSize + d.numTruncatedBytes)) d.bytes 0 rfl
  simp only [List.nil_append] at e1
  rw [e1, Delivery.bytes_length]

/-- A continuation delivery that does not fit the frame is dropped. -/
theorem pushRemain_out_of_bounds (s : DummySink) (f : CFrame) (d : Delivery)
    (h : f.size < d.frameSize + d.numTruncatedBytes) : s.pushRemain f d = s := by
  unfold DummySink.pushRemain
  rw [if_neg]
  omega

/-- C13, at a slice frame of 9 bytes under construction and a delivery of 2
bytes with none missing: the offset 9 - (2 + 0) = 7 is non-negative and
7 + 2 does not exceed 9, yet the delivery is dropped and the frame keeps its
bytes. -/
theorem C13_in_bounds_delivery_dropped :
    ∃ f, sliceStarted.mFrame = some f ∧ f.size = 9 ∧
      f.data = [0, 0, 0, 1, 0x41, 9, 9, 0, 0] ∧
      lastPart.frameSize = 2 ∧ lastPart.numTruncatedBytes = 0 ∧
      (0 : Int) ≤ (f.size : Int) - ((lastPart.frameSize : Int) + lastPart.numTruncatedBytes) ∧
      (f.size : Int) - ((lastPart.frameSize : Int) + lastPart.numTruncatedBytes)
        + lastPart.frameSize ≤ f.size ∧
      (sliceStarted.processDelivery h264Env lastPart).mFrame = some f := by
  refine ⟨_, rfl, ?_, ?_, ?_, ?_, ?_, ?_, ?_⟩ <;> decide

/-- C14, as the code has it: a continuation delivery that does not fit the
frame under construction is discarded and the frame is left as it is;
construction is not abandoned: when the delivery reports missing bytes the
frame stays in the slot and nothing is emitted, and when it reports none the
frame is emitted as it stands and the slot is emptied. -/
theorem C14_rejected_delivery (env : Env) (s : DummySink) (f : CFrame) (d : Delivery)
    (hcb : s.mCallback = true) (hF : s.mFrame = some f)
    (hout : f.size < d.frameSize + d.numTruncatedBytes) :
    s.processDelivery env d = s ∧
    (d.numTruncatedBytes ≠ 0 → s.afterGettingFrame env d = (s, none)) ∧
    (d.numTruncatedBytes = 0 →
      s.afterGettingFrame env d = ({ s with mFrame := none }, some f)) := by
  have hp : s.processDelivery env d = s := by
    simp only [DummySink.processDelivery, hF]
    exact pushRemain_out_of_bounds s f d hout
  refine ⟨hp, ?_, ?_⟩
  · intro h0
    rw [afterGettingFrame_eq env s d hcb, hp, hF]
    simp [h0]
  · intro h0
    rw [afterGettingFrame_eq env s d hcb, hp, hF]
    simp [h0]

/-- Witness of C14: ten bytes with one more missing, and ten bytes with none
missing, delivered while a frame of nine bytes is under construction. -/
theorem C14_rejected_delivery_witness :
    (sliceStarted.processDelivery h264Env oversizedMore = sliceStarted ∧
      sliceStarted.afterGettingFrame h264Env oversizedMore = (sliceStarted, none)) ∧
    (sliceStarted.processDelivery h264Env oversized = sliceStarted ∧
      sliceStarted.afterGettingFrame h264Env oversized =
        ({ sliceStarted with mFrame := none },
          some { channel := 0, streamid := 0, pts := 0, sequence := 0,
                 info := FrameInfo.video false 'P',
                 data := [0, 0, 0, 1, 0x41, 9, 9, 0, 0] })) :=
  ⟨⟨(C14_rejected_delivery h264Env sliceStarted _ oversizedMore rfl rfl (by decide)).1,
    (C14_rejected_delivery h264Env sliceStarted _ oversizedMore rfl rfl (by decide)).2.1
      (by decide)⟩,
   ⟨(C14_rejected_delivery h264Env sliceStarted _ oversized rfl rfl (by decide)).1,
    (C14_rejected_delivery h264Env sliceStarted _ oversized rfl rfl (by decide)).2.2
      (by decide)⟩⟩

/-- C14 as stated fails: after a rejected delivery that reports a missing
byte the slot still holds the frame, and an SPS unit that follows is not
classified (the SPS cache stays empty); after a rejected delivery that
reports no missing byte the frame is emitted. -/
theorem C14_frame_not_abandoned :
    (sliceStarted.afterGettingFrame h264Env oversizedMore).1.mFrame.isSome = true ∧
    (sliceStarted.run h264Env [oversizedMore, spsDelivery]).1.mSPS = [] ∧
    (sliceStarted.afterGettingFrame h264Env oversized).2.isSome = true := by
  decide

/-- C15: an SPS, PPS or SEI unit delivered to an H.264 video sink (one with a
subscriber callback) with no frame under construction replaces the cache of
its category by the marker 00 00 00 01 followed by the delivered bytes, and
nothing else changes: the other two caches, the empty slot and the sequence
counter stay as they were, and no frame is emitted. -/
theorem C15_parameter_set_cached (env : Env) (s : DummySink) (d : Delivery)
    (hcb : s.mCallback = true) (hm : s.mediumName = "video") (hc : s.codecName = "H264")
    (hF : s.mFrame = none) :
    (d.nalType = env.NALU_TYPE_SPS →
      s.afterGettingFrame env d = ({ s with mSPS := [0, 0, 0, 1] ++ d.bytes }, none)) ∧
    (d.nalType ≠ env.NALU_TYPE_SPS → d.nalType = env.NALU_TYPE_PPS →
      s.afterGettingFrame env d = ({ s with mPPS := [0, 0, 0, 1] ++ d.bytes }, none)) ∧
    (d.nalType ≠ env.NALU_TYPE_SPS → d.nalType ≠ env.NALU_TYPE_PPS →
      d.nalType = env.NALU_TYPE_SEI →
      s.afterGettingFrame env d = ({ s with mSEI := [0, 0, 0, 1] ++ d.bytes }, none)) := by
  have hj : ¬ (s.codecName = "JPEG") := by rw [hc]; decide
  have hp : s.processDelivery env d = s.createFrame env d := by
    simp [DummySink.processDelivery, hF]
  refine ⟨?_, ?_, ?_⟩
  · intro h1
    have hcf : s.createFrame env d = { s with mSPS := nalHead ++ d.bytes } := by
      unfold DummySink.createFrame
      rw [if_pos hm, if_neg hj, if_pos hc, if_pos h1]
    rw [afterGettingFrame_eq env s d hcb, hp, hcf]
    simp [hF, nalHead]
  · intro h1 h2
    have hcf : s.createFrame env d = { s with mPPS := nalHead ++ d.bytes } := by
      unfold DummySink.createFrame
      rw [if_pos hm, if_neg hj, if_pos hc, if_neg h1, if_pos h2]
    rw [afterGettingFrame_eq env s d hcb, hp, hcf]
    simp [hF, nalHead]
  · intro h1 h2 h3
    have hcf : s.createFrame env d = { s with mSEI := nalHead ++ d.bytes } := by
      unfold DummySink.createFrame
      rw [if_pos hm, if_neg hj, if_pos hc, if_neg h1, if_neg h2, if_pos h3]
    rw [afterGettingFrame_eq env s d hcb, hp, hcf]
    simp [hF, nalHead]

/-- Witness of C15: an SPS, a PPS and an SEI unit delivered to a sink that
holds older parameter sets. -/
theorem C15_parameter_set_cached_witness :
    cachedSink.afterGettingFrame h264Env spsDelivery =
      ({ cachedSink with mSPS := [0, 0, 0, 1] ++ spsDelivery.bytes }, none) ∧
    cachedSink.afterGettingFrame h264Env ppsDelivery =
      ({ cachedSink with mPPS := [0, 0, 0, 1] ++ ppsDelivery.bytes }, none) ∧
    cachedSink.afterGettingFrame h264Env seiDelivery =
      ({ cachedSink with mSEI := [0, 0, 0, 1] ++ seiDelivery.bytes }, none) :=
  ⟨(C15_parameter_set_cached h264Env cachedSink spsDelivery rfl rfl rfl rfl).1 (by decide),
   (C15_parameter_set_cached h264Env cachedSink ppsDelivery rfl rfl rfl rfl).2.1
     (by decide) (by decide),
   (C15_parameter_set_cached h264Env cachedSink seiDelivery rfl rfl rfl rfl).2.2
     (by decide) (by decide) (by decide)⟩

/-- C16: a unit delivered to a JPEG video sink (one with a subscriber
callback) with no frame under construction yields a frame of size delivered +
missing bytes that holds the delivered bytes from offset 0 on, followed by
room for the missing bytes, with no marker and no cached byte in front; the
three caches are left as they were. -/
theorem C16_image_frame (env : Env) (s : DummySink) (d : Delivery)
    (hcb : s.mCallback = true) (hm : s.mediumName = "video") (hc : s.codecName = "JPEG")
    (hF : s.mFrame = none) :
    ∃ f rest,
      (s.processDelivery env d).mFrame = some f ∧
      f.data = d.bytes ++ rest ∧
      rest.length = d.numTruncatedBytes ∧
      f.size = d.frameSize + d.numTruncatedBytes ∧
      f.info = FrameInfo.image s.videoWidth s.videoHeight ∧
      (d.numTruncatedBytes = 0 → (s.afterGettingFrame env d).2 = some f) ∧
      (d.numTruncatedBytes ≠ 0 → (s.afterGettingFrame env d).1.mFrame = some f) ∧
      (s.afterGettingFrame env d).1.mSPS = s.mSPS ∧
      (s.afterGettingFrame env d).1.mPPS = s.mPPS ∧
      (s.afterGettingFrame env d).1.mSEI = s.mSEI := by
  have hp : s.processDelivery env d = s.createFrame env d := by
    simp [DummySink.processDelivery, hF]
  have ha := afterGettingFrame_eq env s d hcb
  rw [hp, createFrame_jpeg env s d hm hc] at ha
  rw [hp, createFrame_jpeg env s d hm hc, ha]
  refine ⟨_, _, rfl, rfl, ?_, ?_, rfl, ?_, ?_, ?_, ?_, ?_⟩
  · simp [Env.alloc_length]
  · simp [CFrame.size, Env.alloc_length, Delivery.bytes_length]
  · intro h0; simp [h0]
  · intro h0; simp [h0]
  · by_cases h0 : d.numTruncatedBytes = 0 <;> simp [h0]
  · by_cases h0 : d.numTruncatedBytes = 0 <;> simp [h0]
  · by_cases h0 : d.numTruncatedBytes = 0 <;> simp [h0]

/-- Witness of C16: three bytes with two more missing delivered to a fresh
JPEG sink. -/
theorem C16_image_frame_witness :
    ∃ f rest,
      (jpegSink.processDelivery h264Env jpegDelivery).mFrame = some f ∧
      f.data = jpegDelivery.bytes ++ rest ∧
      rest.length = jpegDelivery.numTruncatedBytes ∧
      f.size = jpegDelivery.frameSize + jpegDelivery.numTruncatedBytes ∧
      f.info = FrameInfo.image jpegSink.videoWidth jpegSink.videoHeight ∧
      (jpegDelivery.numTruncatedBytes = 0 →
        (jpegSink.afterGettingFrame h264Env jpegDelivery).2 = some f) ∧
      (jpegDelivery.numTruncatedBytes ≠ 0 →
        (jpegSink.afterGettingFrame h264Env jpegDelivery).1.mFrame = some f) ∧
      (jpegSink.afterGettingFrame h264Env jpegDelivery).1.mSPS = jpegSink.mSPS ∧
      (jpegSink.afterGettingFrame h264Env jpegDelivery).1.mPPS = jpegSink.mPPS ∧
      (jpegSink.afterGettingFrame h264Env jpegDelivery).1.mSEI = jpegSink.mSEI :=
  C16_image_frame h264Env jpegSink jpegDelivery rfl rfl rfl rfl

/-- C17: an H.264 unit whose type tag is none of SPS, PPS, SEI, IDR and
slice, delivered to a video sink (one with a subscriber callback) with no
frame under construction, changes nothing in the sink (caches, slot and
sequence counter) and emits no frame. -/
theorem C17_other_unit_ignored (env : Env) (s : DummySink) (d : Delivery)
    (hcb : s.mCallback = true) (hm : s.mediumName = "video") (hc : s.codecName = "H264")
    (hF : s.mFrame = none)
    (h1 : d.nalType ≠ env.NALU_TYPE_SPS) (h2 : d.nalType ≠ env.NALU_TYPE_PPS)
    (h3 : d.nalType ≠ env.NALU_TYPE_SEI) (h4 : d.nalType ≠ env.NALU_TYPE_IDR)
    (h5 : d.nalType ≠ env.NALU_TYPE_SLICE) :
    s.afterGettingFrame env d = (s, none) ∧
    (s.afterGettingFrame env d).1.mSPS = s.mSPS ∧
    (s.afterGettingFrame env d).1.mPPS = s.mPPS ∧
    (s.afterGettingFrame env d).1.mSEI = s.mSEI ∧
    (s.afterGettingFrame env d).1.mFrame = none ∧
    (s.afterGettingFrame env d).1.mSequence = s.mSequence := by
  have hj : ¬ (s.codecName = "JPEG") := by rw [hc]; decide
  have hp : s.processDelivery env d = s := by
    simp only [DummySink.processDelivery, hF]
    unfold DummySink.createFrame
    rw [if_pos hm, if_neg hj, if_pos hc, if_neg h1, if_neg h2, if_neg h3, if_neg h4, if_neg h5]
  have ha : s.afterGettingFrame env d = (s, none) := by
    rw [afterGettingFrame_eq env s d hcb, hp, hF]
  rw [ha]
  exact ⟨rfl, rfl, rfl, rfl, hF, rfl⟩

/-- Witness of C17: an access unit delimiter delivered to a sink that holds
parameter sets. -/
theorem C17_other_unit_ignored_witness :
    cachedSink.afterGettingFrame h264Env audDelivery = (cachedSink, none) ∧
    (cachedSink.afterGettingFrame h264Env audDelivery).1.mSPS = cachedSink.mSPS ∧
    (cachedSink.afterGettingFrame h264Env audDelivery).1.mPPS = cachedSink.mPPS ∧
    (cachedSink.afterGettingFrame h264Env audDelivery).1.mSEI = cachedSink.mSEI ∧
    (cachedSink.afterGettingFrame h264Env audDelivery).1.mFrame = none ∧
    (cachedSink.afterGettingFrame h264Env audDelivery).1.mSequence = cachedSink.mSequence :=
  C17_other_unit_ignored h264Env cachedSink audDelivery rfl rfl rfl rfl
    (by decide) (by decide) (by decide) (by decide) (by decide)

/-! ## Reconnect loop: the backoff rule -/

/-- The delay awaited after an attempt, from the delay awaited before
(line 814). -/
theorem body_sleepms (E : Int) (st : ThreadState) (a : Attempt) :
    (threadProc.body E st a).sleepms = (if st.sleepms ≥ 8000 then 2000 else st.sleepms * 2) ∧
    waits (threadProc.body E st a).trace =
      waits st.trace ++ [if st.sleepms ≥ 8000 then 2000 else st.sleepms * 2] := by
  by_cases h : a.sig = E
  · rw [body_exit E st a h]
    simp [waits_append, waits]
  · rw [body_continue E st a h]
    simp [waits_append, waits]

/-- The waits the loop adds to a trace follow the backoff rule, starting
from the delay of the state. -/
theorem loop_waits (E : Int) (attempts : List Attempt) :
    ∀ st : ThreadState, ∃ ws,
      waits (threadProc.loop E st attempts).trace = waits st.trace ++ ws ∧
      List.Chain (fun a b : Int => b = if a ≥ 8000 then 2000 else a * 2) st.sleepms ws := by
  induction attempts with
  | nil => intro st; exact ⟨[], by simp [threadProc.loop], List.Chain.nil⟩
  | cons a rest ih =>
    intro st
    obtain ⟨hs, hw⟩ := body_sleepms E st a
    by_cases hf : (threadProc.body E st a).finished = true
    · refine ⟨[if st.sleepms ≥ 8000 then 2000 else st.sleepms * 2], ?_, ?_⟩
      · simp [threadProc.loop, hf, hw]
      · exact List.Chain.cons rfl List.Chain.nil
    · simp only [Bool.not_eq_true] at hf
      obtain ⟨ws, h1, h2⟩ := ih (threadProc.body E st a)
      refine ⟨(if st.sleepms ≥ 8000 then 2000 else st.sleepms * 2) :: ws, ?_, ?_⟩
      · rw [loop_cons E st a rest hf, h1, hw]
        simp
      · rw [hs] at h2
        exact List.Chain.cons rfl h2

/-- The waits of the loop depend on what the waits return only, not on what
the sessions delivered. -/
theorem loop_waits_sig (E : Int) (attempts : List Attempt) :
    ∀ (attempts2 : List Attempt) (st st2 : ThreadState),
      attempts.map Attempt.sig = attempts2.map Attempt.sig →
      st.sleepms = st2.sleepms → waits st.trace = waits st2.trace →
      waits (threadProc.loop E st attempts).trace =
        waits (threadProc.loop E st2 attempts2).trace := by
  induction attempts with
  | nil =>
    intro attempts2 st st2 hsig _ hw
    cases attempts2 with
    | nil => simpa [threadProc.loop] using hw
    | cons b bs => simp at hsig
  | cons a rest ih =>
    intro attempts2 st st2 hsig hsl hw
    cases attempts2 with
    | nil => simp at hsig
    | cons b bs =>
      simp only [List.map_cons, List.cons.injEq] at hsig
      obtain ⟨hab, hrest⟩ := hsig
      obtain ⟨hs1, hw1⟩ := body_sleepms E st a
      obtain ⟨hs2, hw2⟩ := body_sleepms E st2 b
      have hsl1 : (threadProc.body E st a).sleepms = (threadProc.body E st2 b).sleepms := by
        rw [hs1, hs2, hsl]
      have hww : waits (threadProc.body E st a).trace =
          waits (threadProc.body E st2 b).trace := by
        rw [hw1, hw2, hsl, hw]
      by_cases hE : a.sig = E
      · have hbE : b.sig = E := by rw [← hab]; exact hE
        have hf1 : (threadProc.body E st a).finished = true := by rw [body_exit E st a hE]
        have hf2 : (threadProc.body E st2 b).finished = true := by rw [body_exit E st2 b hbE]
        simp only [threadProc.loop, hf1, hf2, if_true]
        exact hww
      · have hbE : b.sig ≠ E := by rw [← hab]; exact hE
        have hf1 : (threadProc.body E st a).finished = false := by
          rw [body_continue E st a hE]
        have hf2 : (threadProc.body E st2 b).finished = false := by
          rw [body_continue E st2 b hbE]
        rw [loop_cons E st a rest hf1, loop_cons E st2 b bs hf2]
        exact ih bs _ _ hrest hsl1 hww

/-- C12: in the waits of `threadProc`, every delay after the first is 2000 ms
when the delay before it was at least 8000 ms and twice the delay before it
otherwise; and the delays depend only on what the waits returned: two runs
whose sessions delivered different frames (ended well or not) await the same
delays. -/
theorem C12_backoff_rule (E watch watch2 : Int) (attempts attempts2 : List Attempt)
    (hsig : attempts.map Attempt.sig = attempts2.map Attempt.sig) :
    List.Chain' (fun a b : Int => b = if a ≥ 8000 then 2000 else a * 2)
      (waits (threadProc E watch attempts).trace) ∧
    waits (threadProc E watch attempts).trace = waits (threadProc E watch2 attempts2).trace := by
  constructor
  · obtain ⟨ws, h1, h2⟩ := loop_waits E attempts
      { sleepms := 1000, mEventLoopWatchVariable := watch, trace := [], finished := false }
    have e : waits (threadProc E watch attempts).trace = ws := by
      simpa [threadProc, waits] using h1
    rw [e]
    have h3 : List.Chain' (fun a b : Int => b = if a ≥ 8000 then 2000 else a * 2)
        ((1000 : Int) :: ws) := h2
    exact h3.tail
  · exact loop_waits_sig E attempts attempts2 _ _ hsig rfl rfl

/-- Witness of C12: six attempts that deliver nothing against six attempts
that each deliver a frame. -/
theorem C12_backoff_rule_witness :
    List.Chain' (fun a b : Int => b = if a ≥ 8000 then 2000 else a * 2)
      (waits (threadProc 1 0 sixAttempts).trace) ∧
    waits (threadProc 1 0 sixAttempts).trace =
      waits (threadProc 1 0 (sixAttempts.map fun _ => frameAttempt)).trace :=
  C12_backoff_rule 1 0 0 sixAttempts (sixAttempts.map fun _ => frameAttempt) (by decide)

/-! ## Session state machine: failed negotiation, heartbeat, timer, ending -/

/-- Without a sink to close, the loop of `shutdownStream` changes nothing. -/
theorem closeSinks_of_no_sink (subs : List MediaSubsession) :
    ∀ i, anySink subs = false → closeSinks subs i = (subs, []) := by
  induction subs with
  | nil => intro i _; rfl
  | cons sub rest ih =>
    intro i h
    simp only [anySink, List.any_cons, Bool.or_eq_false_iff] at h
    have hr := ih (i + 1) h.2
    simp [closeSinks, h.1, hr]

/-- The log of `shutdownStream`: the sinks closed, a teardown request when
some subsession had a sink, then the closing of the client. -/
theorem shutdownStream_log (c : ourRTSPClient) (ses : MediaSession)
    (h : c.scs.session = some ses) :
    (shutdownStream c).log =
      c.log ++ (closeSinks ses.subsessions 0).2 ++
        (if anySink ses.subsessions then [Action.sendTeardownCommand] else []) ++
        [Action.closeClient,
         Action.unscheduleDelayedTask TaskFunc.streamTimerHandler,
         Action.unscheduleDelayedTask TaskFunc.checkDisconnectHandler,
         Action.closeSession] := by
  simp [shutdownStream, h]

/-- The function `shutdownStream` sends no setup or play request and
schedules no task. -/
theorem shutdownStream_quiet (c : ourRTSPClient) :
    ∃ extra, (shutdownStream c).log = c.log ++ extra ∧
      (∀ i tcp, Action.sendSetupCommand i tcp ∉ extra) ∧
      (∀ b, Action.sendPlayCommand b ∉ extra) ∧
      (∀ us t, Action.scheduleDelayedTask us t ∉ extra) := by
  cases hs : c.scs.session with
  | none =>
    exact ⟨[Action.closeClient], shutdownStream_none c hs, by simp, by simp, by simp⟩
  | some ses =>
    have hcl : ∀ a, a ∈ (closeSinks ses.subsessions 0).2 → ∃ k, a = Action.closeSink k :=
      closeSinks_actions _ _
    refine ⟨(closeSinks ses.subsessions 0).2 ++
        (if anySink ses.subsessions then [Action.sendTeardownCommand] else []) ++
        [Action.closeClient,
         Action.unscheduleDelayedTask TaskFunc.streamTimerHandler,
         Action.unscheduleDelayedTask TaskFunc.checkDisconnectHandler,
         Action.closeSession], ?_, ?_, ?_, ?_⟩
    · rw [shutdownStream_log c ses hs]
      simp
    · intro i tcp hmem
      simp only [List.mem_append, List.mem_cons, List.mem_singleton] at hmem
      rcases hmem with (hmem | hmem) | hmem
      · obtain ⟨k, hk⟩ := hcl _ hmem
        cases hk
      · by_cases ha : anySink ses.subsessions = true <;> simp [ha] at hmem
      · simp at hmem
    · intro b hmem
      simp only [List.mem_append, List.mem_cons, List.mem_singleton] at hmem
      rcases hmem with (hmem | hmem) | hmem
      · obtain ⟨k, hk⟩ := hcl _ hmem
        cases hk
      · by_cases ha : anySink ses.subsessions = true <;> simp [ha] at hmem
      · simp at hmem
    · intro us t hmem
      simp only [List.mem_append, List.mem_cons, List.mem_singleton] at hmem
      rcases hmem with (hmem | hmem) | hmem
      · obtain ⟨k, hk⟩ := hcl _ hmem
        cases hk
      · by_cases ha : anySink ses.subsessions = true <;> simp [ha] at hmem
      · simp at hmem

/-- The function `shutdownStream` leaves the heartbeat token as it is. -/
theorem shutdownStream_token (c : ourRTSPClient) :
    (shutdownStream c).scs.checkDisconnectTask = c.scs.checkDisconnectTask := by
  unfold shutdownStream
  cases c.scs.session <;> rfl

/-- C11: when the describe response carries a non-zero result code, or no
media session can be built from the description, or the session built has no
subsessions, `continueAfterDESCRIBE` issues no setup request and no play
request, schedules no task (so no heartbeat), and ends the attempt: the
client is closed and the watch variable is 1. -/
theorem C11_failed_describe (c : ourRTSPClient) (resultCode : Int)
    (parsed : Option MediaSession)
    (hfail : resultCode ≠ 0 ∨ parsed = none ∨
      ∃ ses, parsed = some ses ∧ ses.hasSubsessions = false) :
    (continueAfterDESCRIBE c resultCode parsed).eventLoopWatchVariable = 1 ∧
    (continueAfterDESCRIBE c resultCode parsed).closed = true ∧
    (continueAfterDESCRIBE c resultCode parsed).scs.checkDisconnectTask =
      c.scs.checkDisconnectTask ∧
    ∃ extra, (continueAfterDESCRIBE c resultCode parsed).log = c.log ++ extra ∧
      (∀ i tcp, Action.sendSetupCommand i tcp ∉ extra) ∧
      (∀ b, Action.sendPlayCommand b ∉ extra) ∧
      (∀ us t, Action.scheduleDelayedTask us t ∉ extra) := by
  have hshut : continueAfterDESCRIBE c resultCode parsed = shutdownStream c ∨
      ∃ ses, continueAfterDESCRIBE c resultCode parsed =
        shutdownStream { c with scs := { c.scs with session := some ses } } := by
    by_cases hr : resultCode ≠ 0
    · left; simp [continueAfterDESCRIBE, hr]
    · rcases hfail with h | h | ⟨ses, hp, he⟩
      · exact absurd h hr
      · left; simp [continueAfterDESCRIBE, h]
      · right
        refine ⟨ses, ?_⟩
        simp [continueAfterDESCRIBE, hr, hp, he]
  rcases hshut with h | ⟨ses, h⟩
  · rw [h]
    exact ⟨(shutdownStream_closed c).2, (shutdownStream_closed c).1, shutdownStream_token c,
      shutdownStream_quiet c⟩
  · rw [h]
    exact ⟨(shutdownStream_closed _).2, (shutdownStream_closed _).1, shutdownStream_token _,
      shutdownStream_quiet _⟩

/-- Witness of C11: a describe response with status 404 on a fresh client. -/
theorem C11_failed_describe_witness :
    (continueAfterDESCRIBE (openURL true) 404 none).eventLoopWatchVariable = 1 ∧
    (continueAfterDESCRIBE (openURL true) 404 none).closed = true ∧
    (continueAfterDESCRIBE (openURL true) 404 none).scs.checkDisconnectTask =
      (openURL true).scs.checkDisconnectTask ∧
    ∃ extra, (continueAfterDESCRIBE (openURL true) 404 none).log = (openURL true).log ++ extra ∧
      (∀ i tcp, Action.sendSetupCommand i tcp ∉ extra) ∧
      (∀ b, Action.sendPlayCommand b ∉ extra) ∧
      (∀ us t, Action.scheduleDelayedTask us t ∉ extra) :=
  C11_failed_describe (openURL true) 404 none (Or.inl (by decide))

/-- The function `setupNextSubsession` leaves the heartbeat token as it
is. -/
theorem setupNextSubsession_token (c : ourRTSPClient) :
    (setupNextSubsession c).scs.checkDisconnectTask = c.scs.checkDisconnectTask := by
  unfold setupNextSubsession
  cases c.scs.session with
  | none => rfl
  | some ses =>
    cases c.scs.iter with
    | none => rfl
    | some it =>
      simp only
      cases hn : nextInitiated (List.drop it ses.subsessions) it with
      | mk o it1 =>
        cases o with
        | some k => rfl
        | none =>
          by_cases ha : ses.absStartTime.isSome = true
          · simp only [ha, if_true]
          · simp only [ha]
            rfl

/-- C18, as the code has it: the heartbeat is first scheduled by
`continueAfterDESCRIBE`, when the describe response succeeds with a session
that has subsessions, and before the first setup (or play) request is sent;
`continueAfterPLAY` schedules no heartbeat. -/
theorem C18_heartbeat_from_describe (c : ourRTSPClient) (ses : MediaSession)
    (hsub : ses.hasSubsessions = true) :
    (∃ a, (continueAfterDESCRIBE c 0 (some ses)).log =
        c.log ++ [Action.scheduleDelayedTask 1000000 TaskFunc.checkDisconnectHandler, a] ∧
      ((∃ k tcp, a = Action.sendSetupCommand k tcp) ∨ ∃ b, a = Action.sendPlayCommand b)) ∧
    (continueAfterDESCRIBE c 0 (some ses)).scs.checkDisconnectTask = true ∧
    (∀ (c2 : ourRTSPClient) (resultCode : Int), ∃ extra,
      (continueAfterPLAY c2 resultCode).log = c2.log ++ extra ∧
      ∀ us, Action.scheduleDelayedTask us TaskFunc.checkDisconnectHandler ∉ extra) := by
  have hd : continueAfterDESCRIBE c 0 (some ses) =
      setupNextSubsession
        { c with
          scs := { c.scs with session := some ses, checkDisconnectTask := true, iter := some 0 },
          log := c.log ++
            [Action.scheduleDelayedTask 1000000 TaskFunc.checkDisconnectHandler] } := by
    simp [continueAfterDESCRIBE, hsub]
  refine ⟨?_, ?_, ?_⟩
  · obtain ⟨a, ha, hcase⟩ := setupNextSubsession_log
      { c with
        scs := { c.scs with session := some ses, checkDisconnectTask := true, iter := some 0 },
        log := c.log ++
          [Action.scheduleDelayedTask 1000000 TaskFunc.checkDisconnectHandler] } ses 0 rfl rfl
    refine ⟨a, ?_, ?_⟩
    · rw [hd, ha]
      simp
    · rcases hcase with ⟨k, _, hk⟩ | hb
      · exact Or.inl ⟨k, _, hk⟩
      · exact Or.inr hb
  · rw [hd, setupNextSubsession_token]
  · intro c2 resultCode
    by_cases hr : resultCode ≠ 0
    · have h : continueAfterPLAY c2 resultCode = shutdownStream c2 := by
        simp [continueAfterPLAY, hr]
      obtain ⟨extra, hlog, _, _, hno⟩ := shutdownStream_quiet c2
      exact ⟨extra, by rw [h, hlog], fun us => hno us _⟩
    · by_cases hdur : c2.scs.duration > 0
      · refine ⟨[Action.scheduleDelayedTask
          (toUnsigned (roundDouble (roundDouble (c2.scs.duration + 2) * 1000000)))
          TaskFunc.streamTimerHandler], ?_, ?_⟩
        · simp [continueAfterPLAY, hr, hdur]
        · intro us hmem
          simp at hmem
      · refine ⟨[], ?_, by simp⟩
        simp [continueAfterPLAY, hr, hdur]

/-- Witness of C18: the describe response of a session of one subsession. -/
theorem C18_heartbeat_from_describe_witness :
    (∃ a, (continueAfterDESCRIBE (openURL true) 0 (some oneSub)).log =
        (openURL true).log ++
          [Action.scheduleDelayedTask 1000000 TaskFunc.checkDisconnectHandler, a] ∧
      ((∃ k tcp, a = Action.sendSetupCommand k tcp) ∨ ∃ b, a = Action.sendPlayCommand b)) ∧
    (continueAfterDESCRIBE (openURL true) 0 (some oneSub)).scs.checkDisconnectTask = true ∧
    (∀ (c2 : ourRTSPClient) (resultCode : Int), ∃ extra,
      (continueAfterPLAY c2 resultCode).log = c2.log ++ extra ∧
      ∀ us, Action.scheduleDelayedTask us TaskFunc.checkDisconnectHandler ∉ extra) :=
  C18_heartbeat_from_describe (openURL true) oneSub (by decide)

/-- C18 as stated fails: while the first setup request is out and no play
request has been sent, the heartbeat is scheduled, and five fires of it shut
the session down. -/
theorem C18_heartbeat_pending_during_setup :
    settingUpOne.log =
      [Action.sendDescribeCommand,
       Action.scheduleDelayedTask 1000000 TaskFunc.checkDisconnectHandler,
       Action.sendSetupCommand 0 false] ∧
    settingUpOne.scs.checkDisconnectTask = true ∧
    (checkDisconnectHandler^[5] settingUpOne).closed = true ∧
    (checkDisconnectHandler^[5] settingUpOne).eventLoopWatchVariable = 1 := by
  decide

/-- The conversion `(unsigned)x` is the integer part of `x` when `x` is
non-negative and below 2^32. -/
theorem toUnsigned_spec (x : ℚ) (h0 : 0 ≤ x) (h1 : x < 4294967296) :
    (toUnsigned x : ℚ) ≤ x ∧ x < (toUnsigned x : ℚ) + 1 := by
  have hf : Rat.floor x = ⌊x⌋ := rfl
  have hnn : 0 ≤ ⌊x⌋ := Int.floor_nonneg.2 h0
  have hlt : ⌊x⌋ < 4294967296 := Int.floor_lt.2 (by exact_mod_cast h1)
  have hmod : toUnsigned x = ⌊x⌋.toNat := by
    unfold toUnsigned
    rw [hf]
    apply Nat.mod_eq_of_lt
    omega
  have hcast : ((⌊x⌋.toNat : ℕ) : ℚ) = ((⌊x⌋ : ℤ) : ℚ) := by
    have : ((⌊x⌋.toNat : ℕ) : ℤ) = ⌊x⌋ := Int.toNat_of_nonneg hnn
    exact_mod_cast congrArg (fun z : ℤ => (z : ℚ)) this
  rw [hmod, hcast]
  exact ⟨Int.floor_le x, Int.lt_floor_add_one x⟩

/-- The conversion `(unsigned)x` is `k` when `k <= x < k + 1` and `k` is
below 2^32. -/
theorem toUnsigned_eq (x : ℚ) (k : Nat) (h1 : (k : ℚ) ≤ x) (h2 : x < (k : ℚ) + 1)
    (hk : k < 4294967296) : toUnsigned x = k := by
  have hf : Rat.floor x = ⌊x⌋ := rfl
  have hfl : ⌊x⌋ = (k : Int) := by
    rw [Int.floor_eq_iff]
    exact ⟨by exact_mod_cast h1, by exact_mod_cast h2⟩
  unfold toUnsigned
  rw [hf, hfl, Int.toNat_ofNat]
  exact Nat.mod_eq_of_lt hk

/-- The delay computed in `double` from a positive duration `d`, with
`(d + 2) * 1000000` at most 2^32 - 1, is at most `2 ^ -19` above
`(d + 2) * 1000000` and less than `1 + 2 ^ -19` below it. -/
theorem delay_near (d : ℚ) (hd : 0 < d) (hx : (d + 2) * 1000000 ≤ 4294967295) :
    (toUnsigned (roundDouble (roundDouble (d + 2) * 1000000)) : ℚ) ≤
        (d + 2) * 1000000 + 1 / 524288 ∧
      (d + 2) * 1000000 <
        (toUnsigned (roundDouble (roundDouble (d + 2) * 1000000)) : ℚ) + 1 + 1 / 524288 := by
  have h53 : (2 : ℚ) ^ 53 = 9007199254740992 := by norm_num
  have e1 := roundDouble_err (d + 2) (one_le_scaled _ (by linarith))
  rw [h53, abs_le] at e1
  obtain ⟨e1a, e1b⟩ := e1
  have hs1 : 1 ≤ roundDouble (d + 2) * 1000000 := by linarith
  have e2 := roundDouble_err (roundDouble (d + 2) * 1000000) (one_le_scaled _ hs1)
  rw [h53, abs_le] at e2
  obtain ⟨e2a, e2b⟩ := e2
  generalize roundDouble (roundDouble (d + 2) * 1000000) = p at e2a e2b ⊢
  generalize roundDouble (d + 2) = s at e1a e1b e2a e2b hs1
  obtain ⟨u1, u2⟩ := toUnsigned_spec p (by linarith) (by linarith)
  constructor <;> linarith

/-- The duration of `readyToPlayClip` is the end time of `clip`: the
difference of the two times is a `double`. -/
theorem readyToPlayClip_duration :
    readyToPlayClip.scs.duration = 4728779608739021 / 2251799813685248 := by
  have h : readyToPlayClip.scs.duration =
      roundDouble (4728779608739021 / 2251799813685248 - 0) := by
    simp [readyToPlayClip, continueAfterSETUP, continueAfterDESCRIBE, setupNextSubsession,
      openURL, clip, videoSub, nextInitiated, StreamClientState.new,
      MediaSession.hasSubsessions, updateAt, attachSink]
  rw [h, roundDouble_eval (4728779608739021 / 2251799813685248 - 0) 4728779608739021
    2251799813685248 51 4728779608739021 1 (by norm_num) (by norm_num) (by norm_num)
    (by norm_num) (by norm_num) (by norm_num) (by norm_num) (by decide)]
  norm_num

/-- The duration of `readyToPlayTen` is 10 s. -/
theorem readyToPlayTen_duration : readyToPlayTen.scs.duration = ((10 : ℕ) : ℚ) := by
  have h : readyToPlayTen.scs.duration = roundDouble ((10 : ℕ) : ℚ) := by
    simp [readyToPlayTen, continueAfterSETUP, continueAfterDESCRIBE, setupNextSubsession,
      openURL, tenSeconds, videoSub, nextInitiated, StreamClientState.new,
      MediaSession.hasSubsessions, updateAt, attachSink]
  rw [h, roundDouble_natCast 10 (by norm_num)]

/-- The duration of `readyToPlayOne` is 0: the session has no end time. -/
theorem readyToPlayOne_duration : readyToPlayOne.scs.duration = 0 := by
  simp [readyToPlayOne, settingUpOne, continueAfterSETUP, continueAfterDESCRIBE,
    setupNextSubsession, openURL, oneSub, videoSub, nextInitiated, StreamClientState.new,
    MediaSession.hasSubsessions, updateAt, attachSink, roundDouble_zero]

/-- A successful play response with a positive duration schedules the
duration timer, with the delay computed in `double`. -/
theorem continueAfterPLAY_timer (c : ourRTSPClient) (hd : c.scs.duration > 0) :
    (continueAfterPLAY c 0).log = c.log ++
      [Action.scheduleDelayedTask
        (toUnsigned (roundDouble (roundDouble (c.scs.duration + 2) * 1000000)))
        TaskFunc.streamTimerHandler] ∧
    (continueAfterPLAY c 0).scs.streamTimerTask = true ∧
    (continueAfterPLAY c 0).scs.duration = roundDouble (c.scs.duration + 2) := by
  simp [continueAfterPLAY, hd]

/-- The delay computed in `double` from a whole number of seconds `n`, with
`n + 2` at most 4294, is `(n + 2) * 1000000`. -/
theorem delay_whole_seconds (n : Nat) (hn : n + 2 ≤ 4294) :
    toUnsigned (roundDouble (roundDouble ((n : ℚ) + 2) * 1000000)) = (n + 2) * 1000000 := by
  have e1 : (n : ℚ) + 2 = ((n + 2 : ℕ) : ℚ) := by push_cast; ring
  have h53 : (2 : ℕ) ^ 53 = 9007199254740992 := by norm_num
  rw [e1, roundDouble_natCast (n + 2) (by rw [h53]; omega)]
  have e2 : ((n + 2 : ℕ) : ℚ) * 1000000 = (((n + 2) * 1000000 : ℕ) : ℚ) := by push_cast; ring
  rw [e2, roundDouble_natCast ((n + 2) * 1000000) (by rw [h53]; omega)]
  exact toUnsigned_eq _ _ le_rfl (by linarith) (by omega)

/-- C19, as the code has it: on a successful play response
`continueAfterPLAY` schedules the duration timer exactly when the duration
recorded in the state is positive. The delay passed to the scheduler is
computed in `double`: the sum d + 2 is rounded, its product with 1000000 is
rounded, and the result is truncated to whole microseconds. For
(d + 2) * 1000000 up to 2^32 - 1 that delay is at most `2 ^ -19` above
(d + 2) * 1000000 and less than `1 + 2 ^ -19` below it; it is the integer
part of (d + 2) * 1000000 when neither operation rounds, and it is exactly
(n + 2) * 1000000 for a duration of n whole seconds with n + 2 at most
4294. -/
theorem C19_duration_timer (c : ourRTSPClient) :
    (c.scs.duration > 0 →
      (continueAfterPLAY c 0).log = c.log ++
        [Action.scheduleDelayedTask
          (toUnsigned (roundDouble (roundDouble (c.scs.duration + 2) * 1000000)))
          TaskFunc.streamTimerHandler] ∧
      (continueAfterPLAY c 0).scs.streamTimerTask = true ∧
      ((c.scs.duration + 2) * 1000000 ≤ 4294967295 →
        (toUnsigned (roundDouble (roundDouble (c.scs.duration + 2) * 1000000)) : ℚ) ≤
          (c.scs.duration + 2) * 1000000 + 1 / 524288 ∧
        (c.scs.duration + 2) * 1000000 <
          (toUnsigned (roundDouble (roundDouble (c.scs.duration + 2) * 1000000)) : ℚ) +
            1 + 1 / 524288) ∧
      (roundDouble (c.scs.duration + 2) = c.scs.duration + 2 →
        roundDouble ((c.scs.duration + 2) * 1000000) = (c.scs.duration + 2) * 1000000 →
        (c.scs.duration + 2) * 1000000 < 4294967296 →
        (toUnsigned (roundDouble (roundDouble (c.scs.duration + 2) * 1000000)) : ℚ) ≤
          (c.scs.duration + 2) * 1000000 ∧
        (c.scs.duration + 2) * 1000000 <
          (toUnsigned (roundDouble (roundDouble (c.scs.duration + 2) * 1000000)) : ℚ) + 1) ∧
      (∀ n : Nat, c.scs.duration = (n : ℚ) → n + 2 ≤ 4294 →
        toUnsigned (roundDouble (roundDouble (c.scs.duration + 2) * 1000000)) =
          (n + 2) * 1000000)) ∧
    (¬ c.scs.duration > 0 →
      continueAfterPLAY c 0 = c ∧
      ∀ us, Action.scheduleDelayedTask us TaskFunc.streamTimerHandler ∉
        (continueAfterPLAY c 0).log.drop c.log.length) := by
  constructor
  · intro hd
    have hpos : (0 : ℚ) < c.scs.duration := hd
    obtain ⟨hlog, htask, _⟩ := continueAfterPLAY_timer c hd
    refine ⟨hlog, htask, fun hx => delay_near c.scs.duration hpos hx, ?_, ?_⟩
    · intro h1 h2 hlt
      rw [h1, h2]
      exact toUnsigned_spec _ (by positivity) hlt
    · intro n hn hle
      rw [hn]
      exact delay_whole_seconds n hle
  · intro hd
    have h : continueAfterPLAY c 0 = c := by simp [continueAfterPLAY, hd]
    refine ⟨h, fun us => ?_⟩
    rw [h]
    simp

/-- Witness of C19: a clip of 2.1 s, whose delay lies within the bounds, a
clip of 10 s, whose delay is exactly 12000000 microseconds, and a session
without a duration, for which no timer is scheduled. -/
theorem C19_duration_timer_witness :
    ((continueAfterPLAY readyToPlayClip 0).log = readyToPlayClip.log ++
        [Action.scheduleDelayedTask
          (toUnsigned (roundDouble (roundDouble (readyToPlayClip.scs.duration + 2) * 1000000)))
          TaskFunc.streamTimerHandler] ∧
      (continueAfterPLAY readyToPlayClip 0).scs.streamTimerTask = true ∧
      (toUnsigned (roundDouble (roundDouble (readyToPlayClip.scs.duration + 2) * 1000000)) : ℚ) ≤
        (readyToPlayClip.scs.duration + 2) * 1000000 + 1 / 524288 ∧
      (readyToPlayClip.scs.duration + 2) * 1000000 <
        (toUnsigned (roundDouble (roundDouble (readyToPlayClip.scs.duration + 2) * 1000000)) : ℚ) +
          1 + 1 / 524288) ∧
    toUnsigned (roundDouble (roundDouble (readyToPlayTen.scs.duration + 2) * 1000000)) =
      12000000 ∧
    continueAfterPLAY readyToPlayOne 0 = readyToPlayOne :=
  ⟨⟨((C19_duration_timer readyToPlayClip).1
        (by rw [readyToPlayClip_duration]; norm_num)).1,
      ((C19_duration_timer readyToPlayClip).1
        (by rw [readyToPlayClip_duration]; norm_num)).2.1,
      ((C19_duration_timer readyToPlayClip).1
        (by rw [readyToPlayClip_duration]; norm_num)).2.2.1
        (by rw [readyToPlayClip_duration]; norm_num)⟩,
    ((C19_duration_timer readyToPlayTen).1
      (by rw [readyToPlayTen_duration]; norm_num)).2.2.2.2 10 readyToPlayTen_duration
      (by norm_num),
    ((C19_duration_timer readyToPlayOne).2
      (by rw [readyToPlayOne_duration]; norm_num)).1⟩

/-- C19 as stated fails: for a clip whose duration is the `double` nearest to
2.1 s the delay passed to the scheduler is 4099999 microseconds, while
(d + 2) * 1000000 is above 4100000: the delay is neither (d + 2) * 1000000
nor its integer part. -/
theorem C19_delay_inexact :
    readyToPlayClip.scs.duration = 4728779608739021 / 2251799813685248 ∧
    (continueAfterPLAY readyToPlayClip 0).log = readyToPlayClip.log ++
      [Action.scheduleDelayedTask 4099999 TaskFunc.streamTimerHandler] ∧
    ((4099999 : ℕ) : ℚ) ≠ (readyToPlayClip.scs.duration + 2) * 1000000 ∧
    (4100000 : ℚ) < (readyToPlayClip.scs.duration + 2) * 1000000 := by
  have hd := readyToPlayClip_duration
  have hpos : readyToPlayClip.scs.duration > 0 := by rw [hd]; norm_num
  have hs : roundDouble (4728779608739021 / 2251799813685248 + 2) =
      2308094809027379 / 562949953421312 := by
    rw [roundDouble_eval (4728779608739021 / 2251799813685248 + 2) 9232379236109517
      2251799813685248 50 4616189618054758 2 (by norm_num) (by norm_num) (by norm_num)
      (by norm_num) (by norm_num) (by norm_num) (by norm_num) (by decide)]
    norm_num
  have hp : roundDouble (2308094809027379 / 562949953421312 * 1000000) =
      8804682956799999 / 2147483648 := by
    rw [roundDouble_eval (2308094809027379 / 562949953421312 * 1000000) 36063981391052796875
      8796093022208 31 8804682956799999 21 (by norm_num) (by norm_num) (by norm_num)
      (by norm_num) (by norm_num) (by norm_num) (by norm_num) (by decide)]
    norm_num
  have hu : toUnsigned (8804682956799999 / 2147483648) = 4099999 :=
    toUnsigned_eq _ 4099999 (by norm_num) (by norm_num) (by norm_num)
  refine ⟨hd, ?_, ?_, ?_⟩
  · rw [(continueAfterPLAY_timer readyToPlayClip hpos).1, hd, hs, hp, hu]
  · rw [hd]; norm_num
  · rw [hd]; norm_num

/-- C20, as the code has it: whenever `shutdownStream` runs for a session,
every subsession is left without a sink, and a teardown request is sent,
before the client is closed, exactly when some subsession still had a sink.
On the duration timer and on the fifth silent heartbeat this is the case
when a sink is attached; when the last sink is released by
`subsessionAfterPlaying`, also on a BYE, no sink is left and no teardown
request is sent. -/
theorem C20_ending (c : ourRTSPClient) (ses : MediaSession)
    (hs : c.scs.session = some ses) :
    ((streamTimerHandler c).log =
        c.log ++ (closeSinks ses.subsessions 0).2 ++
          (if anySink ses.subsessions then [Action.sendTeardownCommand] else []) ++
          [Action.closeClient,
           Action.unscheduleDelayedTask TaskFunc.streamTimerHandler,
           Action.unscheduleDelayedTask TaskFunc.checkDisconnectHandler,
           Action.closeSession] ∧
      ∃ ses1, (streamTimerHandler c).scs.session = some ses1 ∧
        anySink ses1.subsessions = false) ∧
    (¬ c.scs.disconnectCounter + 1 < 5 →
      (checkDisconnectHandler c).log =
        c.log ++ (closeSinks ses.subsessions 0).2 ++
          (if anySink ses.subsessions then [Action.sendTeardownCommand] else []) ++
          [Action.closeClient,
           Action.unscheduleDelayedTask TaskFunc.streamTimerHandler,
           Action.unscheduleDelayedTask TaskFunc.checkDisconnectHandler,
           Action.closeSession] ∧
      ∃ ses1, (checkDisconnectHandler c).scs.session = some ses1 ∧
        anySink ses1.subsessions = false) ∧
    (∀ i, anySink (updateAt (fun sub => { sub with sink := none }) ses.subsessions i) = false →
      (subsessionAfterPlaying c i).log =
        c.log ++
          [Action.closeSink i, Action.closeClient,
           Action.unscheduleDelayedTask TaskFunc.streamTimerHandler,
           Action.unscheduleDelayedTask TaskFunc.checkDisconnectHandler,
           Action.closeSession] ∧
      subsessionByeHandler c i = subsessionAfterPlaying c i ∧
      ∃ ses1, (subsessionAfterPlaying c i).scs.session = some ses1 ∧
        anySink ses1.subsessions = false) := by
  refine ⟨?_, ?_, ?_⟩
  · have hs1 : ({ c with scs := { c.scs with streamTimerTask := false } } :
        ourRTSPClient).scs.session = some ses := hs
    refine ⟨?_, ?_⟩
    · unfold streamTimerHandler
      rw [shutdownStream_log _ ses hs1]
    · obtain ⟨_, ses1, _, _, _, h1, h2⟩ := shutdownStream_some _ ses hs1
      exact ⟨ses1, h1, h2⟩
  · intro hge
    have hs1 : ({ c with scs := { c.scs with
        disconnectCounter := c.scs.disconnectCounter + 1 } } :
        ourRTSPClient).scs.session = some ses := hs
    rw [checkDisconnectHandler_ge c hge]
    refine ⟨?_, ?_⟩
    · rw [shutdownStream_log _ ses hs1]
    · obtain ⟨_, ses1, _, _, _, h1, h2⟩ := shutdownStream_some _ ses hs1
      exact ⟨ses1, h1, h2⟩
  · intro i hno
    have hb : subsessionAfterPlaying c i =
        shutdownStream { c with
          scs := { c.scs with session := some { ses with
            subsessions := updateAt (fun sub => { sub with sink := none }) ses.subsessions i } },
          log := c.log ++ [Action.closeSink i] } := by
      simp [subsessionAfterPlaying, hs, hno]
    refine ⟨?_, rfl, ?_⟩
    · rw [hb, shutdownStream_log _ _ rfl]
      simp [closeSinks_of_no_sink _ 0 hno, hno]
    · rw [hb]
      obtain ⟨_, ses1, _, _, _, h1, h2⟩ := shutdownStream_some
        { c with
          scs := { c.scs with session := some { ses with
            subsessions := updateAt (fun sub => { sub with sink := none }) ses.subsessions i } },
          log := c.log ++ [Action.closeSink i] } _ rfl
      exact ⟨ses1, h1, h2⟩

/-- Witness of C20: the duration timer of a playing session of one
subsession. -/
theorem C20_ending_witness :
    (streamTimerHandler playingOne).log =
      playingOne.log ++ (closeSinks [attachSink true videoSub] 0).2 ++
        (if anySink [attachSink true videoSub] then [Action.sendTeardownCommand] else []) ++
        [Action.closeClient,
         Action.unscheduleDelayedTask TaskFunc.streamTimerHandler,
         Action.unscheduleDelayedTask TaskFunc.checkDisconnectHandler,
         Action.closeSession] ∧
    ∃ ses1, (streamTimerHandler playingOne).scs.session = some ses1 ∧
      anySink ses1.subsessions = false :=
  (C20_ending playingOne { oneSub with subsessions := [attachSink true videoSub] }
    (by rw [playingOne_eq]; decide)).1

/-- C20 as stated fails: a BYE for the only subsession of a playing session
ends the session without a teardown request. -/
theorem C20_no_teardown_after_bye :
    (subsessionByeHandler playingOne 0).closed = true ∧
    (subsessionByeHandler playingOne 0).eventLoopWatchVariable = 1 ∧
    (subsessionByeHandler playingOne 0).log =
      playingOne.log ++
        [Action.closeSink 0, Action.closeClient,
         Action.unscheduleDelayedTask TaskFunc.streamTimerHandler,
         Action.unscheduleDelayedTask TaskFunc.checkDisconnectHandler,
         Action.closeSession] ∧
    Action.sendTeardownCommand ∉ (subsessionByeHandler playingOne 0).log := by
  rw [playingOne_eq]
  decide

/-! ## Frame reassembly: sequence, timestamp, continuation -/

/-- C22, at a JPEG sink that receives two complete units: both emitted
frames carry the sequence number 0 and the counter of the sink is still 0;
the image branch never increments `mSequence`. -/
theorem C22_image_frames_share_sequence :
    (jpegSink.run h264Env [jpegFirst, jpegSecond]).2.map (Option.map CFrame.sequence) =
      [some 0, some 0] ∧
    (jpegSink.run h264Env [jpegFirst, jpegSecond]).1.mSequence = 0 ∧
    (h264Sink.run h264Env [sliceDelivery, sliceDelivery]).2.map (Option.map CFrame.sequence) =
      [some 0, some 1] := by
  decide

/-- A frame created by `createFrame` carries the timestamp of the
delivery. -/
theorem createFrame_pts (env : Env) (s : DummySink) (d : Delivery) (f : CFrame)
    (hF : s.mFrame = none) (hf : (s.createFrame env d).mFrame = some f) : f.pts = d.pts := by
  unfold DummySink.createFrame at hf
  by_cases hm : s.mediumName = "video"
  · rw [if_pos hm] at hf
    by_cases hj : s.codecName = "JPEG"
    · rw [if_pos hj] at hf
      simp only [createImageFrame, Option.some.injEq] at hf
      rw [← hf]
    · rw [if_neg hj] at hf
      by_cases hc : s.codecName = "H264"
      · rw [if_pos hc] at hf
        by_cases h1 : d.nalType = env.NALU_TYPE_SPS
        · rw [if_pos h1] at hf; rw [hF] at hf; cases hf
        · rw [if_neg h1] at hf
          by_cases h2 : d.nalType = env.NALU_TYPE_PPS
          · rw [if_pos h2] at hf; rw [hF] at hf; cases hf
          · rw [if_neg h2] at hf
            by_cases h3 : d.nalType = env.NALU_TYPE_SEI
            · rw [if_pos h3] at hf; rw [hF] at hf; cases hf
            · rw [if_neg h3] at hf
              by_cases h4 : d.nalType = env.NALU_TYPE_IDR
              · rw [if_pos h4] at hf
                simp only [createVideoFrame, Option.some.injEq] at hf
                rw [← hf]
              · rw [if_neg h4] at hf
                by_cases h5 : d.nalType = env.NALU_TYPE_SLICE
                · rw [if_pos h5] at hf
                  simp only [createVideoFrame, Option.some.injEq] at hf
                  rw [← hf]
                · rw [if_neg h5, hF] at hf; cases hf
      · rw [if_neg hc, hF] at hf; cases hf
  · rw [if_neg hm] at hf
    by_cases ha : s.mediumName = "audio"
    · rw [if_pos ha, hF] at hf; cases hf
    · rw [if_neg ha, hF] at hf; cases hf

/-- Outside the target range `memcpy` leaves the buffer as it is. -/
theorem memcpy_outside (dst src : List Nat) (pos k : Nat)
    (hk : k < pos ∨ pos + src.length ≤ k) (hin : pos + src.length ≤ dst.length) :
    (memcpy dst pos src)[k]? = dst[k]? := by
  unfold memcpy
  rcases hk with hk | hk
  · have h1 : k < (List.take pos dst ++ src).length := by
      simp only [List.length_append, List.length_take]
      omega
    have h2 : k < (List.take pos dst).length := by
      simp only [List.length_take]
      omega
    rw [List.getElem?_append_left h1, List.getElem?_append_left h2, List.getElem?_take, if_pos hk]
  · have h1 : (List.take pos dst ++ src).length = pos + src.length := by
      simp only [List.length_append, List.length_take]
      omega
    rw [List.getElem?_append_right (by omega), List.getElem?_drop, h1]
    congr 1
    omega

/-- A continuation delivery that passes the test of line 717 is copied into
the frame. -/
theorem pushRemain_accepted (s : DummySink) (f : CFrame) (d : Delivery)
    (h : 0 ≤ (f.size : Int) - ((d.frameSize : Int) + (d.numTruncatedBytes : Int)) ∧
      (f.size : Int) - ((d.frameSize : Int) + (d.numTruncatedBytes : Int)) + (d.frameSize : Int)
        < (f.size : Int)) :
    s.pushRemain f d =
      { s with
        mFrame := some
          { f with
            data := memcpy f.data
              ((f.size : Int) - ((d.frameSize : Int) + (d.numTruncatedBytes : Int))).toNat
              d.bytes } } := by
  unfold DummySink.pushRemain
  rw [if_pos h]

/-- A continuation delivery that fails the test of line 717 changes
nothing. -/
theorem pushRemain_rejected (s : DummySink) (f : CFrame) (d : Delivery)
    (h : ¬ (0 ≤ (f.size : Int) - ((d.frameSize : Int) + (d.numTruncatedBytes : Int)) ∧
      (f.size : Int) - ((d.frameSize : Int) + (d.numTruncatedBytes : Int)) + (d.frameSize : Int)
        < (f.size : Int))) :
    s.pushRemain f d = s := by
  unfold DummySink.pushRemain
  rw [if_neg h]

/-- The conversion `(uint64_t)x` of a value in range. -/
theorem toU64_of_range (x : Int) (h0 : 0 ≤ x) (h1 : x < 18446744073709551616) :
    (toU64 x : Int) = x := by
  unfold toU64
  omega

/-- C23: the timestamp stored in a frame when it is constructed is
seconds * 1000 + floor(microseconds / 1000) of the delivery that starts it
(for a time of day that fits 64 bits of milliseconds, with
0 <= microseconds < 1000000), which is the floor of the timestamp in
milliseconds; and a delivery that arrives while the frame is under
construction leaves the timestamp as it is. -/
theorem C23_presentation_timestamp (env : Env) (s : DummySink) (d : Delivery) (f : CFrame)
    (hF : s.mFrame = none) (hf : (s.processDelivery env d).mFrame = some f)
    (hsec : 0 ≤ d.tv_sec) (husec : 0 ≤ d.tv_usec) (hlt : d.tv_usec < 1000000)
    (hfit : d.tv_sec * 1000 + d.tv_usec / 1000 < 18446744073709551616) :
    (f.pts : Int) = d.tv_sec * 1000 + d.tv_usec / 1000 ∧
    (f.pts : Int) = ⌊((d.tv_sec : ℚ) + (d.tv_usec : ℚ) / 1000000) * 1000⌋ ∧
    (∀ (s2 : DummySink) (d2 : Delivery), s2.mFrame = some f →
      ∃ g, (s2.processDelivery env d2).mFrame = some g ∧ g.pts = f.pts) := by
  have hp : s.processDelivery env d = s.createFrame env d := by
    simp [DummySink.processDelivery, hF]
  rw [hp] at hf
  have hpts : f.pts = d.pts := createFrame_pts env s d f hF hf
  have h1 : (f.pts : Int) = d.tv_sec * 1000 + d.tv_usec / 1000 := by
    rw [hpts]
    unfold Delivery.pts
    have hs := toU64_of_range d.tv_sec hsec (by omega)
    have hu := toU64_of_range d.tv_usec husec (by omega)
    omega
  refine ⟨h1, ?_, ?_⟩
  · have e : ((d.tv_sec : ℚ) + (d.tv_usec : ℚ) / 1000000) * 1000 =
        (((d.tv_sec * 1000000 + d.tv_usec : ℤ) : ℚ)) / ((1000 : ℕ) : ℚ) := by
      push_cast
      field_simp
      ring
    rw [e, Rat.floor_intCast_div_natCast, h1]
    push_cast
    omega
  · intro s2 d2 h2
    simp only [DummySink.processDelivery, h2]
    by_cases hacc : 0 ≤ (f.size : Int) - ((d2.frameSize : Int) + (d2.numTruncatedBytes : Int)) ∧
        (f.size : Int) - ((d2.frameSize : Int) + (d2.numTruncatedBytes : Int))
          + (d2.frameSize : Int) < (f.size : Int)
    · rw [pushRemain_accepted s2 f d2 hacc]
      exact ⟨_, rfl, rfl⟩
    · rw [pushRemain_rejected s2 f d2 hacc]
      exact ⟨f, h2, rfl⟩

/-- Witness of C23: a slice unit presented at 12.3456 s. -/
theorem C23_presentation_timestamp_witness :
    ((12345 : ℕ) : Int) = stampedSlice.tv_sec * 1000 + stampedSlice.tv_usec / 1000 ∧
    ((12345 : ℕ) : Int) =
      ⌊((stampedSlice.tv_sec : ℚ) + (stampedSlice.tv_usec : ℚ) / 1000000) * 1000⌋ ∧
    (∀ (s2 : DummySink) (d2 : Delivery),
      s2.mFrame = some
        { channel := 0, streamid := 0, pts := 12345, sequence := 0,
          info := FrameInfo.video false 'P', data := [0, 0, 0, 1, 0x41, 9, 9] } →
      ∃ g, (s2.processDelivery h264Env d2).mFrame = some g ∧ g.pts = 12345) :=
  C23_presentation_timestamp h264Env h264Sink stampedSlice
    { channel := 0, streamid := 0, pts := 12345, sequence := 0,
      info := FrameInfo.video false 'P', data := [0, 0, 0, 1, 0x41, 9, 9] }
    rfl (by decide) (by decide) (by decide) (by decide) (by decide)

/-- C24: a delivery to the sink of a subsession resets the disconnect
counter of the client to zero, whatever the sink holds and does with it:
whether the unit is cached, ignored, an audio unit, truncated, dropped as out
of bounds, or the sink has no subscriber callback; the frame handed to the
callback, if any, is the one the sink hands over. -/
theorem C24_delivery_resets_counter (env : Env) (c : ourRTSPClient) (ses : MediaSession)
    (i : Nat) (sub : MediaSubsession) (sink : DummySink) (d : Delivery)
    (hs : c.scs.session = some ses) (hi : ses.subsessions[i]? = some sub)
    (hk : sub.sink = some sink) :
    (ourRTSPClient.afterGettingFrame env c i d).1.scs.disconnectCounter = 0 ∧
    (ourRTSPClient.afterGettingFrame env c i d).2 = (sink.afterGettingFrame env d).2 ∧
    (sink.mCallback = false → (ourRTSPClient.afterGettingFrame env c i d).2 = none) := by
  have h : ourRTSPClient.afterGettingFrame env c i d =
      ({ c with
         scs := { c.scs with
           disconnectCounter := 0,
           session := some { ses with
             subsessions := updateAt (fun sb => { sb with sink := some (sink.afterGettingFrame env d).1 })
               ses.subsessions i } } }, (sink.afterGettingFrame env d).2) := by
    simp [ourRTSPClient.afterGettingFrame, hs, hi, hk]
  rw [h]
  refine ⟨rfl, rfl, ?_⟩
  intro hcb
  simp [DummySink.afterGettingFrame, hcb]

/-- Witness of C24: an SPS unit, which is only cached, delivered to a client
without a subscriber callback after two silent heartbeat fires. -/
theorem C24_delivery_resets_counter_witness :
    silentOne.scs.disconnectCounter = 2 ∧
    (ourRTSPClient.afterGettingFrame h264Env silentOne 0 spsDelivery).1.scs.disconnectCounter
      = 0 ∧
    (ourRTSPClient.afterGettingFrame h264Env silentOne 0 spsDelivery).2 =
      ((DummySink.createNew false "video" "H264" 0 0).afterGettingFrame h264Env spsDelivery).2 ∧
    ((DummySink.createNew false "video" "H264" 0 0).mCallback = false →
      (ourRTSPClient.afterGettingFrame h264Env silentOne 0 spsDelivery).2 = none) :=
  ⟨by decide,
   C24_delivery_resets_counter h264Env silentOne
     { oneSub with subsessions := [attachSink false videoSub] } 0 (attachSink false videoSub)
     (DummySink.createNew false "video" "H264" 0 0) spsDelivery
     (by decide) (by decide) (by decide)⟩

/-- C25: while a frame is under construction a delivery is not classified:
whatever its first byte, the three caches and the sequence counter of the
sink stay as they are, the frame keeps its size, role, timestamp and
sequence number, and its bytes outside the target range
[size - (delivered + missing), size - missing) stay as they are; the frame
handed to the callback, if any, is that frame. -/
theorem C25_continuation_not_classified (env : Env) (s : DummySink) (f : CFrame)
    (d : Delivery) (hF : s.mFrame = some f) :
    ∃ g, (s.processDelivery env d).mFrame = some g ∧
      g.size = f.size ∧ g.info = f.info ∧ g.pts = f.pts ∧ g.sequence = f.sequence ∧
      (∀ k : Nat,
        ((k : Int) < (f.size : Int) - ((d.frameSize : Int) + (d.numTruncatedBytes : Int)) ∨
          (f.size : Int) - ((d.frameSize : Int) + (d.numTruncatedBytes : Int))
            + (d.frameSize : Int) ≤ (k : Int)) →
        g.data[k]? = f.data[k]?) ∧
      (s.afterGettingFrame env d).1.mSPS = s.mSPS ∧
      (s.afterGettingFrame env d).1.mPPS = s.mPPS ∧
      (s.afterGettingFrame env d).1.mSEI = s.mSEI ∧
      (s.afterGettingFrame env d).1.mSequence = s.mSequence ∧
      (∀ e, (s.afterGettingFrame env d).2 = some e → e = g) := by
  have hp : s.processDelivery env d = s.pushRemain f d := by
    simp [DummySink.processDelivery, hF]
  have hafter : ∀ (s1 : DummySink) (g : CFrame), s.processDelivery env d = s1 →
      s1.mFrame = some g → s1.mSPS = s.mSPS → s1.mPPS = s.mPPS → s1.mSEI = s.mSEI →
      s1.mSequence = s.mSequence →
      (s.afterGettingFrame env d).1.mSPS = s.mSPS ∧
      (s.afterGettingFrame env d).1.mPPS = s.mPPS ∧
      (s.afterGettingFrame env d).1.mSEI = s.mSEI ∧
      (s.afterGettingFrame env d).1.mSequence = s.mSequence ∧
      (∀ e, (s.afterGettingFrame env d).2 = some e → e = g) := by
    intro s1 g h1 hg a1 a2 a3 a4
    by_cases hcb : s.mCallback = true
    · rw [afterGettingFrame_eq env s d hcb, h1, hg]
      by_cases h0 : d.numTruncatedBytes = 0
      · simp only [h0, if_true]
        exact ⟨a1, a2, a3, a4, fun e he => by cases he; rfl⟩
      · simp only [h0, if_false]
        exact ⟨a1, a2, a3, a4, fun e he => by cases he⟩
    · simp only [Bool.not_eq_true] at hcb
      have : s.afterGettingFrame env d = (s, none) := by
        simp [DummySink.afterGettingFrame, hcb]
      rw [this]
      exact ⟨rfl, rfl, rfl, rfl, fun e he => by cases he⟩
  by_cases hacc : 0 ≤ (f.size : Int) - ((d.frameSize : Int) + (d.numTruncatedBytes : Int)) ∧
      (f.size : Int) - ((d.frameSize : Int) + (d.numTruncatedBytes : Int))
        + (d.frameSize : Int) < (f.size : Int)
  · have hpa := pushRemain_accepted s f d hacc
    have hsize : f.size = f.data.length := rfl
    have hin : ((f.size : Int) - ((d.frameSize : Int) + (d.numTruncatedBytes : Int))).toNat
        + d.bytes.length ≤ f.data.length := by
      rw [Delivery.bytes_length]
      omega
    refine ⟨{ f with
              data := memcpy f.data
                ((f.size : Int) - ((d.frameSize : Int) + (d.numTruncatedBytes : Int))).toNat
                d.bytes },
      by rw [hp, hpa], ?_, rfl, rfl, rfl, ?_, ?_⟩
    · simp only [CFrame.size]
      exact memcpy_length _ _ _ hin
    · intro k hk
      apply memcpy_outside _ _ _ _ _ hin
      rw [Delivery.bytes_length]
      omega
    · exact hafter (s.pushRemain f d) _ hp (by rw [hpa]) (by rw [hpa]) (by rw [hpa])
        (by rw [hpa]) (by rw [hpa])
  · have hpr := pushRemain_rejected s f d hacc
    refine ⟨f, by rw [hp, hpr, hF], rfl, rfl, rfl, rfl, fun _ _ => rfl, ?_⟩
    exact hafter s f (by rw [hp, hpr]) hF rfl rfl rfl rfl

/-- Witness of C25: two bytes with one more missing, the first of which
carries the SPS tag, delivered while a slice frame is under construction. -/
theorem C25_continuation_not_classified_witness :
    ∃ g, (sliceStarted.processDelivery h264Env spsTagged).mFrame = some g ∧
      g.size = sliceStartedFrame.size ∧ g.info = sliceStartedFrame.info ∧
      g.pts = sliceStartedFrame.pts ∧ g.sequence = sliceStartedFrame.sequence ∧
      (∀ k : Nat,
        ((k : Int) < (sliceStartedFrame.size : Int)
            - ((spsTagged.frameSize : Int) + (spsTagged.numTruncatedBytes : Int)) ∨
          (sliceStartedFrame.size : Int)
            - ((spsTagged.frameSize : Int) + (spsTagged.numTruncatedBytes : Int))
            + (spsTagged.frameSize : Int) ≤ (k : Int)) →
        g.data[k]? = sliceStartedFrame.data[k]?) ∧
      (sliceStarted.afterGettingFrame h264Env spsTagged).1.mSPS = sliceStarted.mSPS ∧
      (sliceStarted.afterGettingFrame h264Env spsTagged).1.mPPS = sliceStarted.mPPS ∧
      (sliceStarted.afterGettingFrame h264Env spsTagged).1.mSEI = sliceStarted.mSEI ∧
      (sliceStarted.afterGettingFrame h264Env spsTagged).1.mSequence = sliceStarted.mSequence ∧
      (∀ e, (sliceStarted.afterGettingFrame h264Env spsTagged).2 = some e → e = g) :=
  C25_continuation_not_classified h264Env sliceStarted sliceStartedFrame spsTagged (by decide)

/-! ## Reconnect loop: the watch variable -/

/-- C27: every pass of the loop of `threadProc` first overwrites the watch
variable with 0, so the pass does not depend on the value the variable holds
when it begins: whatever that value, also the 1 written by `stop`, the pass
runs the same way, opens a session and runs its event loop, which hands over
the frames of the session. The overwrite is what discards the flag: the rest
of the pass reads the variable, and entered with the 1 of `stop` its event
loop would return at once and hand over nothing. -/
theorem C27_flag_overwritten (E : Int) (st : ThreadState) (a : Attempt) (w : Int) :
    (threadProc.clearWatch { st with mEventLoopWatchVariable := w }).mEventLoopWatchVariable
      = 0 ∧
    threadProc.body E { st with mEventLoopWatchVariable := w } a = threadProc.body E st a ∧
    threadProc.body E (CRtspStreamSource.stop st) a = threadProc.body E st a ∧
    opened (threadProc.body E (CRtspStreamSource.stop st) a).trace = opened st.trace + 1 ∧
    delivered (threadProc.body E (CRtspStreamSource.stop st) a).trace =
      delivered st.trace ++ a.frames ∧
    (∀ rest, threadProc E w (a :: rest) = threadProc E 0 (a :: rest)) ∧
    opened (threadProc.attempt E (CRtspStreamSource.stop st) a).trace = opened st.trace + 1 ∧
    delivered (threadProc.attempt E (CRtspStreamSource.stop st) a).trace = delivered st.trace ∧
    (a.frames ≠ [] →
      threadProc.attempt E (CRtspStreamSource.stop st) a ≠ threadProc.body E st a) := by
  have h1 : ∀ w2, threadProc.body E { st with mEventLoopWatchVariable := w2 } a =
      threadProc.body E st a := by
    intro w2
    simp [threadProc.body, threadProc.clearWatch]
  have h2 : threadProc.body E (CRtspStreamSource.stop st) a = threadProc.body E st a := h1 1
  have hdel : delivered (threadProc.body E st a).trace = delivered st.trace ++ a.frames := by
    by_cases ha : a.sig = E
    · rw [body_exit E st a ha]
      simp [delivered_append, delivered]
    · rw [body_continue E st a ha]
      simp [delivered_append, delivered]
  have hstop : delivered (threadProc.attempt E (CRtspStreamSource.stop st) a).trace =
      delivered st.trace := by
    by_cases ha : a.sig = E <;>
      simp [threadProc.attempt, CRtspStreamSource.stop, doEventLoop, ha, delivered_append,
        delivered]
  refine ⟨rfl, h1 w, h2, ?_, ?_, ?_, ?_, hstop, ?_⟩
  · rw [h2]
    by_cases ha : a.sig = E
    · rw [body_exit E st a ha]
      simp [opened_append, opened]
    · rw [body_continue E st a ha]
      simp [opened_append, opened]
  · rw [h2]
    exact hdel
  · intro rest
    simp [threadProc, threadProc.loop, threadProc.body, threadProc.clearWatch]
  · by_cases ha : a.sig = E <;>
      simp [threadProc.attempt, CRtspStreamSource.stop, doEventLoop, ha, opened_append, opened]
  · intro hne heq
    have := congrArg (fun t : ThreadState => delivered t.trace) heq
    simp only [hstop, hdel] at this
    have hnil : a.frames = [] := by
      have hl := congrArg List.length this
      simpa using hl
    exact hne hnil

/-- Witness of C27: `stop` writes 1 before a pass whose session has one frame;
the pass opens the session and hands the frame over, which the pass without
the overwrite does not. -/
theorem C27_flag_overwritten_witness :
    threadProc.attempt 1 (CRtspStreamSource.stop idleThread) frameAttempt ≠
      threadProc.body 1 idleThread frameAttempt ∧
    opened (threadProc.body 1 (CRtspStreamSource.stop idleThread) frameAttempt).trace = 1 ∧
    delivered (threadProc.body 1 (CRtspStreamSource.stop idleThread) frameAttempt).trace =
      [someFrame] ∧
    delivered (threadProc.attempt 1 (CRtspStreamSource.stop idleThread) frameAttempt).trace =
      [] :=
  ⟨(C27_flag_overwritten 1 idleThread frameAttempt 1).2.2.2.2.2.2.2.2 (by decide),
    (C27_flag_overwritten 1 idleThread frameAttempt 1).2.2.2.1,
    (C27_flag_overwritten 1 idleThread frameAttempt 1).2.2.2.2.1,
    (C27_flag_overwritten 1 idleThread frameAttempt 1).2.2.2.2.2.2.2.1⟩

/-! ## Setup phase -/

/-- What `nextInitiated` returns: a subsession found lies in the part not yet
visited and the iterator stands right behind it; when none is found the
iterator stands at the end. -/
theorem nextInitiated_spec (l : List MediaSubsession) :
    ∀ it : Nat,
      (∀ k it1, nextInitiated l it = (some k, it1) →
        it ≤ k ∧ k < it + l.length ∧ it1 = k + 1) ∧
      (∀ it1, nextInitiated l it = (none, it1) → it1 = it + l.length) := by
  induction l with
  | nil =>
    intro it
    constructor
    · intro k it1 h; simp [nextInitiated] at h
    · intro it1 h
      simp [nextInitiated] at h
      simp [h]
  | cons sub rest ih =>
    intro it
    by_cases hi : sub.initiateOk = true
    · constructor
      · intro k it1 h
        simp [nextInitiated, hi] at h
        simp only [List.length_cons]
        omega
      · intro it1 h
        simp [nextInitiated, hi] at h
    · simp only [Bool.not_eq_true] at hi
      obtain ⟨h1, h2⟩ := ih (it + 1)
      constructor
      · intro k it1 h
        simp [nextInitiated, hi] at h
        have := h1 k it1 h
        simp only [List.length_cons]
        omega
      · intro it1 h
        simp [nextInitiated, hi] at h
        have := h2 it1 h
        simp only [List.length_cons]
        omega

/-- When no subsession left can be initiated, `nextInitiated` finds none. -/
theorem nextInitiated_none (l : List MediaSubsession) :
    ∀ it : Nat, (∀ sub ∈ l, sub.initiateOk = false) →
      nextInitiated l it = (none, it + l.length) := by
  induction l with
  | nil => intro it _; rfl
  | cons sub rest ih =>
    intro it h
    have h0 : sub.initiateOk = false := h sub (by simp)
    have hr := ih (it + 1) (fun x hx => h x (by simp [hx]))
    simp only [nextInitiated, h0, hr, List.length_cons]
    simp
    omega

theorem updateAt_length (f : MediaSubsession → MediaSubsession) (l : List MediaSubsession) :
    ∀ i, (updateAt f l i).length = l.length := by
  induction l with
  | nil => intro i; rfl
  | cons sub rest ih =>
    intro i
    cases i with
    | zero => rfl
    | succ i => simp [updateAt, ih i]

/-- The function `setupNextSubsession` in the setup phase: it leaves the
session, the transport and the client open as they are, and either sends a
setup request for a subsession at or beyond the iterator, or has found no
subsession left and sends the play request. -/
theorem setupNextSubsession_step (c : ourRTSPClient) (ses : MediaSession) (j : Nat)
    (hs : c.scs.session = some ses) (hit : c.scs.iter = some j)
    (hj : j ≤ ses.subsessions.length) :
    (setupNextSubsession c).scs.session = some ses ∧
    (setupNextSubsession c).closed = c.closed ∧
    (setupNextSubsession c).eventLoopWatchVariable = c.eventLoopWatchVariable ∧
    (setupNextSubsession c).scs.streamUsingTcp = c.scs.streamUsingTcp ∧
    ((∃ k, j ≤ k ∧ k < ses.subsessions.length ∧
        (setupNextSubsession c).scs.subsession = some k ∧
        (setupNextSubsession c).scs.iter = some (k + 1) ∧
        (setupNextSubsession c).log =
          c.log ++ [Action.sendSetupCommand k c.scs.streamUsingTcp]) ∨
      ((setupNextSubsession c).scs.subsession = none ∧
        (setupNextSubsession c).log =
          c.log ++ [Action.sendPlayCommand ses.absStartTime.isSome])) := by
  obtain ⟨h1, _⟩ := nextInitiated_spec (List.drop j ses.subsessions) j
  cases hn : nextInitiated (List.drop j ses.subsessions) j with
  | mk o it1 =>
    cases o with
    | some k =>
      have hk := h1 k it1 hn
      simp only [List.length_drop] at hk
      have e : setupNextSubsession c =
          { c with
            scs := { c.scs with iter := some (k + 1), subsession := some k },
            log := c.log ++ [Action.sendSetupCommand k c.scs.streamUsingTcp] } := by
        simp [setupNextSubsession, hs, hit, hn, hk.2.2]
      rw [e]
      exact ⟨hs, rfl, rfl, rfl, Or.inl ⟨k, hk.1, by omega, rfl, rfl, rfl⟩⟩
    | none =>
      by_cases ha : ses.absStartTime.isSome = true
      · have e : setupNextSubsession c =
            { c with
              scs := { c.scs with iter := some it1, subsession := none },
              log := c.log ++ [Action.sendPlayCommand true] } := by
          simp [setupNextSubsession, hs, hit, hn, ha]
        rw [e, ha]
        exact ⟨hs, rfl, rfl, rfl, Or.inr ⟨rfl, rfl⟩⟩
      · simp only [Bool.not_eq_true] at ha
        have e : setupNextSubsession c =
            { c with
              scs := { c.scs with iter := some it1, subsession := none,
                                  duration := roundDouble (ses.playEndTime - ses.playStartTime) },
              log := c.log ++ [Action.sendPlayCommand false] } := by
          simp [setupNextSubsession, hs, hit, hn, ha]
        rw [e, ha]
        exact ⟨hs, rfl, rfl, rfl, Or.inr ⟨rfl, rfl⟩⟩

/-- When no subsession left can be initiated, `setupNextSubsession` sends
the play request. -/
theorem setupNextSubsession_exhausted (c : ourRTSPClient) (ses : MediaSession) (j : Nat)
    (hs : c.scs.session = some ses) (hit : c.scs.iter = some j)
    (hall : ∀ sub ∈ ses.subsessions.drop j, sub.initiateOk = false) :
    (setupNextSubsession c).scs.subsession = none ∧
    (setupNextSubsession c).log =
      c.log ++ [Action.sendPlayCommand ses.absStartTime.isSome] := by
  have hn := nextInitiated_none (List.drop j ses.subsessions) j hall
  by_cases ha : ses.absStartTime.isSome = true
  · have e : setupNextSubsession c =
        { c with
          scs := { c.scs with iter := some (j + (List.drop j ses.subsessions).length),
                              subsession := none },
          log := c.log ++ [Action.sendPlayCommand true] } := by
      simp [setupNextSubsession, hs, hit, hn, ha]
    rw [e, ha]
    exact ⟨rfl, rfl⟩
  · simp only [Bool.not_eq_true] at ha
    have e : setupNextSubsession c =
        { c with
          scs := { c.scs with iter := some (j + (List.drop j ses.subsessions).length),
                              subsession := none,
                              duration := roundDouble (ses.playEndTime - ses.playStartTime) },
          log := c.log ++ [Action.sendPlayCommand false] } := by
      simp [setupNextSubsession, hs, hit, hn, ha]
    rw [e, ha]
    exact ⟨rfl, rfl⟩

/-- The first subsession that can be initiated is the one `nextInitiated`
finds. -/
theorem nextInitiated_first (l : List MediaSubsession) :
    ∀ (it k : Nat) (sub : MediaSubsession), l[k]? = some sub → sub.initiateOk = true →
      (∀ m sub2, m < k → l[m]? = some sub2 → sub2.initiateOk = false) →
      nextInitiated l it = (some (it + k), it + k + 1) := by
  induction l with
  | nil => intro it k sub h; simp at h
  | cons x rest ih =>
    intro it k sub hk hok hbefore
    cases k with
    | zero =>
      simp only [List.getElem?_cons_zero, Option.some.injEq] at hk
      subst hk
      simp [nextInitiated, hok]
    | succ k =>
      have hx : x.initiateOk = false := hbefore 0 x (by omega) (by simp)
      simp only [List.getElem?_cons_succ] at hk
      have hr := ih (it + 1) k sub hk hok
        (fun m sub2 hm hget => hbefore (m + 1) sub2 (by omega) (by simpa using hget))
      simp only [nextInitiated, hx, hr]
      simp
      omega

/-- When a subsession at or beyond the iterator can be initiated,
`setupNextSubsession` sends the setup request for the first such
subsession. -/
theorem setupNextSubsession_next (c : ourRTSPClient) (ses : MediaSession) (j k : Nat)
    (sub : MediaSubsession) (hs : c.scs.session = some ses) (hit : c.scs.iter = some j)
    (hjk : j ≤ k) (hk : ses.subsessions[k]? = some sub) (hok : sub.initiateOk = true)
    (hbefore : ∀ m sub2, j ≤ m → m < k → ses.subsessions[m]? = some sub2 →
      sub2.initiateOk = false) :
    (setupNextSubsession c).log =
      c.log ++ [Action.sendSetupCommand k c.scs.streamUsingTcp] ∧
    (setupNextSubsession c).scs.subsession = some k ∧
    (setupNextSubsession c).scs.iter = some (k + 1) := by
  have hn := nextInitiated_first (List.drop j ses.subsessions) j (k - j) sub
    (by rw [List.getElem?_drop]; rw [show j + (k - j) = k by omega]; exact hk) hok
    (fun m sub2 hm hget => hbefore (j + m) sub2 (by omega) (by omega)
      (by rw [List.getElem?_drop] at hget; exact hget))
  rw [show j + (k - j) = k by omega] at hn
  have e : setupNextSubsession c =
      { c with
        scs := { c.scs with iter := some (k + 1), subsession := some k },
        log := c.log ++ [Action.sendSetupCommand k c.scs.streamUsingTcp] } := by
    simp [setupNextSubsession, hs, hit, hn]
  rw [e]
  exact ⟨rfl, rfl, rfl⟩

/-- C21: when a setup response fails with a status other than 461,
`continueAfterSETUP` attaches no sink (the session is left as it is), asks
nothing more for that subsession, and goes on with `setupNextSubsession`:
the one request it sends is the setup request for the first later subsession
that can be initiated, and the play request when there is none; the client
stays open, so the failure does not end the attempt. -/
theorem C21_setup_failure_skips (c : ourRTSPClient) (ses : MediaSession) (i j : Nat)
    (r : Int) (hs : c.scs.session = some ses) (hi : c.scs.subsession = some i)
    (hit : c.scs.iter = some j) (hij : i < j) (hj : j ≤ ses.subsessions.length)
    (hr0 : r ≠ 0) (hr : r ≠ 461) :
    continueAfterSETUP c r = setupNextSubsession c ∧
    (continueAfterSETUP c r).scs.session = some ses ∧
    (continueAfterSETUP c r).closed = c.closed ∧
    (continueAfterSETUP c r).eventLoopWatchVariable = c.eventLoopWatchVariable ∧
    (∀ a, a ∈ (continueAfterSETUP c r).log → a ∉ c.log →
      (∃ k, i < k ∧ a = Action.sendSetupCommand k c.scs.streamUsingTcp) ∨
        a = Action.sendPlayCommand ses.absStartTime.isSome) ∧
    ((∃ k, i < k ∧
        (continueAfterSETUP c r).log =
          c.log ++ [Action.sendSetupCommand k c.scs.streamUsingTcp]) ∨
      (continueAfterSETUP c r).log =
        c.log ++ [Action.sendPlayCommand ses.absStartTime.isSome]) ∧
    (∀ k sub, j ≤ k → ses.subsessions[k]? = some sub → sub.initiateOk = true →
      (∀ m sub2, j ≤ m → m < k → ses.subsessions[m]? = some sub2 →
        sub2.initiateOk = false) →
      (continueAfterSETUP c r).log =
        c.log ++ [Action.sendSetupCommand k c.scs.streamUsingTcp] ∧
      (continueAfterSETUP c r).scs.subsession = some k ∧
      (continueAfterSETUP c r).scs.iter = some (k + 1)) ∧
    ((∀ sub ∈ ses.subsessions.drop j, sub.initiateOk = false) →
      (continueAfterSETUP c r).log =
        c.log ++ [Action.sendPlayCommand ses.absStartTime.isSome] ∧
      (continueAfterSETUP c r).scs.subsession = none) := by
  have h : continueAfterSETUP c r = setupNextSubsession c := by
    simp [continueAfterSETUP, hs, hi, hr0, hr]
  obtain ⟨h1, h2, h3, _, h5⟩ := setupNextSubsession_step c ses j hs hit hj
  rw [h]
  have hlog : (∃ k, i < k ∧
        (setupNextSubsession c).log =
          c.log ++ [Action.sendSetupCommand k c.scs.streamUsingTcp]) ∨
      (setupNextSubsession c).log =
        c.log ++ [Action.sendPlayCommand ses.absStartTime.isSome] := by
    rcases h5 with ⟨k, hk1, _, _, _, hk⟩ | ⟨_, hp⟩
    · exact Or.inl ⟨k, by omega, hk⟩
    · exact Or.inr hp
  refine ⟨rfl, h1, h2, h3, ?_, hlog, ?_, ?_⟩
  · intro a ha hna
    rcases hlog with ⟨k, hk1, hk⟩ | hp
    · rw [hk] at ha
      simp only [List.mem_append, List.mem_singleton] at ha
      rcases ha with ha | ha
      · exact absurd ha hna
      · exact Or.inl ⟨k, hk1, ha⟩
    · rw [hp] at ha
      simp only [List.mem_append, List.mem_singleton] at ha
      rcases ha with ha | ha
      · exact absurd ha hna
      · exact Or.inr ha
  · intro k sub hjk hk hok hbefore
    exact setupNextSubsession_next c ses j k sub hs hit hjk hk hok hbefore
  · intro hall
    exact ⟨(setupNextSubsession_exhausted c ses j hs hit hall).2,
      (setupNextSubsession_exhausted c ses j hs hit hall).1⟩

/-- Witness of C21: in a session of three subsessions the setup of the first
fails with 404 and the second cannot be initiated, so the setup request for
the third is sent; in a session of one subsession the setup fails with 404
and the play request is sent. -/
theorem C21_setup_failure_skips_witness :
    ((continueAfterSETUP settingUpThree 404).scs.session = some threeSubs ∧
      (continueAfterSETUP settingUpThree 404).closed = settingUpThree.closed ∧
      (continueAfterSETUP settingUpThree 404).log =
        settingUpThree.log ++ [Action.sendSetupCommand 2 settingUpThree.scs.streamUsingTcp] ∧
      (continueAfterSETUP settingUpThree 404).scs.subsession = some 2 ∧
      (continueAfterSETUP settingUpThree 404).scs.iter = some (2 + 1)) ∧
    ((continueAfterSETUP settingUpOne 404).scs.session = some oneSub ∧
      (continueAfterSETUP settingUpOne 404).closed = settingUpOne.closed ∧
      (continueAfterSETUP settingUpOne 404).log =
        settingUpOne.log ++ [Action.sendPlayCommand oneSub.absStartTime.isSome] ∧
      (continueAfterSETUP settingUpOne 404).scs.subsession = none) :=
  ⟨⟨(C21_setup_failure_skips settingUpThree threeSubs 0 1 404 (by decide) (by decide)
        (by decide) (by decide) (by decide) (by decide) (by decide)).2.1,
    (C21_setup_failure_skips settingUpThree threeSubs 0 1 404 (by decide) (by decide)
        (by decide) (by decide) (by decide) (by decide) (by decide)).2.2.1,
    (C21_setup_failure_skips settingUpThree threeSubs 0 1 404 (by decide) (by decide)
        (by decide) (by decide) (by decide) (by decide) (by decide)).2.2.2.2.2.2.1
      2 videoSub (by decide) (by decide) (by decide)
      (fun m sub2 h1 h2 hget => by
        have hm : m = 1 := by omega
        subst hm
        have hsub : sub2 = deadSub := by
          simp [threeSubs] at hget
          exact hget.symm
        rw [hsub]
        rfl)⟩,
   ⟨(C21_setup_failure_skips settingUpOne oneSub 0 1 404 (by decide) (by decide)
        (by decide) (by decide) (by decide) (by decide) (by decide)).2.1,
    (C21_setup_failure_skips settingUpOne oneSub 0 1 404 (by decide) (by decide)
        (by decide) (by decide) (by decide) (by decide) (by decide)).2.2.1,
    (C21_setup_failure_skips settingUpOne oneSub 0 1 404 (by decide) (by decide)
        (by decide) (by decide) (by decide) (by decide) (by decide)).2.2.2.2.2.2.2
      (by decide)⟩⟩

theorem setupCount_append (l : List Action) (a : Action) :
    setupCount (l ++ [a]) = setupCount l + (if a.isSetup = true then 1 else 0) := by
  by_cases h : a.isSetup = true <;> simp [setupCount, List.filter_append, h]

/-- Once the play request is out the setup phase is over. -/
theorem setupPhase_done (c : ourRTSPClient) (h : c.scs.subsession = none) :
    ∀ responses, setupPhase c responses = c := by
  intro responses
  cases responses with
  | nil => rfl
  | cons r rest => simp [setupPhase, h]

/-- The transport of the session never goes back from TCP. -/
theorem streamUsingTcp_kept (c : ourRTSPClient) (r : Int) (h : c.scs.streamUsingTcp = true) :
    (continueAfterSETUP c r).scs.streamUsingTcp = true ∧
    (setupNextSubsession c).scs.streamUsingTcp = true := by
  have hn : ∀ c2 : ourRTSPClient, c2.scs.streamUsingTcp = true →
      (setupNextSubsession c2).scs.streamUsingTcp = true := by
    intro c2 h2
    unfold setupNextSubsession
    cases c2.scs.session with
    | none => exact h2
    | some ses =>
      cases c2.scs.iter with
      | none => exact h2
      | some it =>
        simp only
        cases nextInitiated (List.drop it ses.subsessions) it with
        | mk o it1 =>
          cases o with
          | some k => exact h2
          | none =>
            by_cases ha : ses.absStartTime.isSome = true
            · simp only [ha, if_true]
              exact h2
            · simp only [ha]
              exact h2
  refine ⟨?_, hn c h⟩
  unfold continueAfterSETUP
  cases c.scs.session with
  | none => exact h
  | some ses =>
    cases c.scs.subsession with
    | none => exact h
    | some i =>
      simp only
      by_cases hr : r ≠ 0
      · rw [if_pos hr, if_neg (by simp [h])]
        exact hn c h
      · rw [if_neg hr]
        exact hn _ h

/-- The setup phase from a state in which a setup request is out: the number
of setup requests stays within the number already sent, plus the subsessions
behind the iterator, plus one retry while the transport is not TCP; and as
many responses end the phase with the play request. -/
theorem setupPhase_bound (n : Nat) :
    ∀ (responses : List Int) (c : ourRTSPClient) (ses : MediaSession) (i j : Nat),
      c.scs.session = some ses → ses.subsessions.length = n →
      c.scs.subsession = some i → c.scs.iter = some j → j ≤ n →
      setupCount c.log + (n - j) + (if c.scs.streamUsingTcp = true then 0 else 1) ≤ n + 1 →
      setupCount (setupPhase c responses).log ≤ n + 1 ∧
      ((n - j) + (if c.scs.streamUsingTcp = true then 0 else 1) + 1 ≤ responses.length →
        (setupPhase c responses).scs.subsession = none ∧
        ∃ b, (setupPhase c responses).log.getLast? = some (Action.sendPlayCommand b)) := by
  intro responses
  induction responses with
  | nil =>
    intro c ses i j _ _ _ _ _ hinv
    refine ⟨?_, ?_⟩
    · simp only [setupPhase]
      omega
    · intro h
      simp at h
  | cons r rest ih =>
    intro c ses i j hs hl hi hit hj hinv
    have hstep : setupPhase c (r :: rest) = setupPhase (continueAfterSETUP c r) rest := by
      simp [setupPhase, hi]
    rw [hstep]
    -- what `setupNextSubsession` does from a state `c1` that shares the iterator of `c`
    have next : ∀ (c1 : ourRTSPClient) (ses1 : MediaSession),
        c1.scs.session = some ses1 → ses1.subsessions.length = n → c1.scs.iter = some j →
        c1.scs.streamUsingTcp = c.scs.streamUsingTcp → setupCount c1.log = setupCount c.log →
        setupCount (setupPhase (setupNextSubsession c1) rest).log ≤ n + 1 ∧
        ((n - j) + (if c.scs.streamUsingTcp = true then 0 else 1) + 1 ≤ (r :: rest).length →
          (setupPhase (setupNextSubsession c1) rest).scs.subsession = none ∧
          ∃ b, (setupPhase (setupNextSubsession c1) rest).log.getLast? =
            some (Action.sendPlayCommand b)) := by
      intro c1 ses1 hs1 hl1 hit1 htcp1 hcnt1
      obtain ⟨g1, _, _, g4, g5⟩ := setupNextSubsession_step c1 ses1 j hs1 hit1 (by omega)
      rcases g5 with ⟨k, hk1, hk2, hk3, hk4, hk5⟩ | ⟨hp1, hp2⟩
      · have hcnt : setupCount (setupNextSubsession c1).log = setupCount c.log + 1 := by
          rw [hk5, setupCount_append, hcnt1]
          rfl
        have hih := ih (setupNextSubsession c1) ses1 k (k + 1) g1 hl1 hk3 hk4 (by omega)
          (by rw [hcnt, g4, htcp1]; omega)
        refine ⟨hih.1, ?_⟩
        intro hlen
        apply hih.2
        rw [g4, htcp1]
        simp only [List.length_cons] at hlen
        omega
      · rw [setupPhase_done _ hp1]
        refine ⟨?_, fun _ => ⟨hp1, ses1.absStartTime.isSome, ?_⟩⟩
        · rw [hp2, setupCount_append, hcnt1]
          simp only [Action.isSetup]
          simp
          omega
        · rw [hp2]
          simp
    by_cases hr : r ≠ 0
    · by_cases hretry : r = 461 ∧ c.scs.streamUsingTcp = false
      · have e : continueAfterSETUP c r =
            { c with
              scs := { c.scs with streamUsingTcp := true },
              log := c.log ++ [Action.sendSetupCommand i true] } := by
          simp [continueAfterSETUP, hs, hi, hr, hretry.1, hretry.2]
        have htcp : c.scs.streamUsingTcp = false := hretry.2
        rw [htcp] at hinv
        simp only [Bool.false_eq_true, if_false] at hinv
        have hih := ih (continueAfterSETUP c r) ses i j (by rw [e]; exact hs) hl
          (by rw [e]; exact hi) (by rw [e]; exact hit) hj
          (by
            rw [e]
            simp only [setupCount_append, Action.isSetup, if_true]
            omega)
        refine ⟨hih.1, ?_⟩
        intro hlen
        apply hih.2
        rw [htcp] at hlen
        simp only [Bool.false_eq_true, if_false, List.length_cons] at hlen
        rw [e]
        simp only [if_true]
        omega
      · have e : continueAfterSETUP c r = setupNextSubsession c := by
          simp only [continueAfterSETUP, hs, hi]
          rw [if_pos hr, if_neg hretry]
        rw [e]
        exact next c ses hs hl hit rfl rfl
    · have hr0 : r = 0 := by
        simp only [ne_eq, not_not] at hr
        exact hr
      have e : continueAfterSETUP c r =
          setupNextSubsession
            { c with
              scs := { c.scs with
                session := some { ses with
                  subsessions := updateAt (attachSink c.scs.callback) ses.subsessions i } },
              log := c.log ++ [Action.startPlaying i] } := by
        simp [continueAfterSETUP, hs, hi, hr0]
      rw [e]
      exact next _ _ rfl (by simp only [updateAt_length]; exact hl) hit rfl
        (by simp only [setupCount_append, Action.isSetup]; simp)

/-- C26: the transport of the session never goes back from TCP, and a setup
request is repeated for the same subsession only by the step that switches
the transport to TCP, so at most once in an attempt; for a session of n
subsessions, whatever `initiate()` answers and whatever the setup responses
are, at most n + 1 setup requests are sent, and n + 1 responses at the latest
end the setup phase with the play request. -/
theorem C26_setup_phase_bounded (callback : Bool) (ses : MediaSession)
    (responses : List Int) (hsub : ses.hasSubsessions = true) :
    setupCount
        (setupPhase (continueAfterDESCRIBE (openURL callback) 0 (some ses)) responses).log
      ≤ ses.subsessions.length + 1 ∧
    (ses.subsessions.length + 1 ≤ responses.length →
      (setupPhase (continueAfterDESCRIBE (openURL callback) 0 (some ses))
        responses).scs.subsession = none ∧
      ∃ b, (setupPhase (continueAfterDESCRIBE (openURL callback) 0 (some ses))
        responses).log.getLast? = some (Action.sendPlayCommand b)) ∧
    (∀ (c : ourRTSPClient) (r : Int), c.scs.streamUsingTcp = true →
      (continueAfterSETUP c r).scs.streamUsingTcp = true ∧
      (setupNextSubsession c).scs.streamUsingTcp = true) ∧
    (∀ (c : ourRTSPClient) (ses1 : MediaSession) (i j : Nat) (r : Int) (tcp : Bool),
      c.scs.session = some ses1 → c.scs.subsession = some i → c.scs.iter = some j →
      i < j → j ≤ ses1.subsessions.length →
      (continueAfterSETUP c r).log = c.log ++ [Action.sendSetupCommand i tcp] →
      r = 461 ∧ c.scs.streamUsingTcp = false ∧
        (continueAfterSETUP c r).scs.streamUsingTcp = true) := by
  have hd : continueAfterDESCRIBE (openURL callback) 0 (some ses) =
      setupNextSubsession
        { openURL callback with
          scs := { (openURL callback).scs with
            session := some ses, checkDisconnectTask := true, iter := some 0 },
          log := (openURL callback).log ++
            [Action.scheduleDelayedTask 1000000 TaskFunc.checkDisconnectHandler] } := by
    simp [continueAfterDESCRIBE, hsub]
  have hfirst :
      setupCount
          (setupPhase (continueAfterDESCRIBE (openURL callback) 0 (some ses)) responses).log
        ≤ ses.subsessions.length + 1 ∧
      (ses.subsessions.length + 1 ≤ responses.length →
        (setupPhase (continueAfterDESCRIBE (openURL callback) 0 (some ses))
          responses).scs.subsession = none ∧
        ∃ b, (setupPhase (continueAfterDESCRIBE (openURL callback) 0 (some ses))
          responses).log.getLast? = some (Action.sendPlayCommand b)) := by
    rw [hd]
    obtain ⟨g1, _, _, g4, g5⟩ := setupNextSubsession_step
      { openURL callback with
        scs := { (openURL callback).scs with
          session := some ses, checkDisconnectTask := true, iter := some 0 },
        log := (openURL callback).log ++
          [Action.scheduleDelayedTask 1000000 TaskFunc.checkDisconnectHandler] }
      ses 0 rfl rfl (by omega)
    rcases g5 with ⟨k, _, hk2, hk3, hk4, hk5⟩ | ⟨hp1, hp2⟩
    · have hcnt : setupCount (setupNextSubsession
          { openURL callback with
            scs := { (openURL callback).scs with
              session := some ses, checkDisconnectTask := true, iter := some 0 },
            log := (openURL callback).log ++
              [Action.scheduleDelayedTask 1000000 TaskFunc.checkDisconnectHandler] }).log
          = 1 := by
        rw [hk5]
        rfl
      have hb := setupPhase_bound ses.subsessions.length responses _ ses k (k + 1) g1 rfl
        hk3 hk4 (by omega)
        (by
          rw [hcnt]
          split <;> omega)
      refine ⟨hb.1, fun hlen => hb.2 ?_⟩
      split <;> omega
    · rw [setupPhase_done _ hp1]
      refine ⟨?_, fun _ => ⟨hp1, ses.absStartTime.isSome, ?_⟩⟩
      · rw [hp2]
        simp [setupCount, openURL, Action.isSetup]
      · rw [hp2]
        simp
  refine ⟨hfirst.1, hfirst.2, fun c r h => streamUsingTcp_kept c r h, ?_⟩
  intro c ses1 i j r tcp hs hi hit hij hj hlog
  by_cases hr : r ≠ 0
  · by_cases hretry : r = 461 ∧ c.scs.streamUsingTcp = false
    · refine ⟨hretry.1, hretry.2, ?_⟩
      simp [continueAfterSETUP, hs, hi, hr, hretry.1, hretry.2]
    · exfalso
      have e : continueAfterSETUP c r = setupNextSubsession c := by
        simp only [continueAfterSETUP, hs, hi]
        rw [if_pos hr, if_neg hretry]
      rw [e] at hlog
      obtain ⟨_, _, _, _, g5⟩ := setupNextSubsession_step c ses1 j hs hit hj
      rcases g5 with ⟨k, hk1, _, _, _, hk5⟩ | ⟨_, hp2⟩
      · rw [hk5] at hlog
        have := List.append_cancel_left hlog
        simp only [List.cons.injEq, Action.sendSetupCommand.injEq, and_true] at this
        omega
      · rw [hp2] at hlog
        have := List.append_cancel_left hlog
        simp at this
  · exfalso
    have hr0 : r = 0 := by
      simp only [ne_eq, not_not] at hr
      exact hr
    have e : continueAfterSETUP c r =
        setupNextSubsession
          { c with
            scs := { c.scs with
              session := some { ses1 with
                subsessions := updateAt (attachSink c.scs.callback) ses1.subsessions i } },
            log := c.log ++ [Action.startPlaying i] } := by
      simp [continueAfterSETUP, hs, hi, hr0]
    rw [e] at hlog
    obtain ⟨a, ha, _⟩ := setupNextSubsession_log
      { c with
        scs := { c.scs with
          session := some { ses1 with
            subsessions := updateAt (attachSink c.scs.callback) ses1.subsessions i } },
        log := c.log ++ [Action.startPlaying i] } _ j rfl hit
    rw [ha] at hlog
    have hlen := congrArg List.length hlog
    simp at hlen

/-- Witness of C26: a session of two subsessions whose setup responses are
461, 461 and 461. -/
theorem C26_setup_phase_bounded_witness :
    setupCount
        (setupPhase (continueAfterDESCRIBE (openURL true) 0 (some twoSubs)) [461, 461, 461]).log
      ≤ twoSubs.subsessions.length + 1 ∧
    (twoSubs.subsessions.length + 1 ≤ [(461 : Int), 461, 461].length →
      (setupPhase (continueAfterDESCRIBE (openURL true) 0 (some twoSubs))
        [461, 461, 461]).scs.subsession = none ∧
      ∃ b, (setupPhase (continueAfterDESCRIBE (openURL true) 0 (some twoSubs))
        [461, 461, 461]).log.getLast? = some (Action.sendPlayCommand b)) ∧
    (∀ (c : ourRTSPClient) (r : Int), c.scs.streamUsingTcp = true →
      (continueAfterSETUP c r).scs.streamUsingTcp = true ∧
      (setupNextSubsession c).scs.streamUsingTcp = true) ∧
    (∀ (c : ourRTSPClient) (ses1 : MediaSession) (i j : Nat) (r : Int) (tcp : Bool),
      c.scs.session = some ses1 → c.scs.subsession = some i → c.scs.iter = some j →
      i < j → j ≤ ses1.subsessions.length →
      (continueAfterSETUP c r).log = c.log ++ [Action.sendSetupCommand i tcp] →
      r = 461 ∧ c.scs.streamUsingTcp = false ∧
        (continueAfterSETUP c r).scs.streamUsingTcp = true) :=
  C26_setup_phase_bounded true twoSubs [461, 461, 461] (by decide)

end RtspStream
